import Mathlib

/-!
# multistate: a redundant-state-change cache for a WebGL context

A shallow embedding of `src/index.cjs`.  The wrapped context `gl` becomes a
record `Gl` holding the mirror (`gl.state`, `gl.sgl`), the properties the
wrappers hang on the context and on framebuffer objects, and a log of the
calls forwarded to the original (unwrapped) functions.

JavaScript values that the tracked state may hold are modelled by `Val`
(`undefined`, `null`, booleans and exact integers: no NaN, no fractions), and
object references (programs, buffers, vertex arrays, framebuffers, textures)
by `Handle`, compared by identity.  `===` on both is structural equality.

Three fields of the mirror are typed arrays, kept as `getParameter` returned
them and written in place: `blendColor` and `clearColor` are `Float32Array`s,
`scissor` is an `Int32Array`.  A store into them converts the value; a slot of
the two colour arrays can then hold `NaN` or an infinity, which `Elem` adds to
the exact values.
-/

namespace Multistate

/-! ## Values -/

/-- A primitive JavaScript value held by the tracked state. -/
inductive Val where
  | undef
  | null
  | bool (b : Bool)
  | num (n : Int)
  deriving DecidableEq, Repr, Inhabited

/-- A reference to a context-owned object, or `undefined` / `null`. -/
inductive Handle where
  | undef
  | null
  | obj (id : Nat)
  deriving DecidableEq, Repr, Inhabited

/-- JavaScript truthiness of a primitive value. -/
def Val.truthy : Val → Bool
  | .undef => false
  | .null => false
  | .bool b => b
  | .num n => decide (n ≠ 0)

/-- JavaScript truthiness of a reference. -/
def Handle.truthy : Handle → Bool
  | .obj _ => true
  | _ => false

/-- An array of two values, such as the depth range. -/
structure Vec2 where
  x0 : Val
  x1 : Val
  deriving DecidableEq, Repr, Inhabited

/-- An array of three values, such as a stencil function with its reference and mask. -/
structure Vec3 where
  x0 : Val
  x1 : Val
  x2 : Val
  deriving DecidableEq, Repr, Inhabited

/-- An array of four values, such as the viewport rectangle. -/
structure Vec4 where
  x0 : Val
  x1 : Val
  x2 : Val
  x3 : Val
  deriving DecidableEq, Repr, Inhabited

/-- The function `arr3Eq` of the source. -/
def arr3Eq (a : Vec3) (p0 p1 p2 : Val) : Bool :=
  decide (a.x0 = p0) && decide (a.x1 = p1) && decide (a.x2 = p2)

/-- The function `arr4Eq` of the source. -/
def arr4Eq (a : Vec4) (p0 p1 p2 p3 : Val) : Bool :=
  decide (a.x0 = p0) && decide (a.x1 = p1) && decide (a.x2 = p2) && decide (a.x3 = p3)

/-- The function `set3` of the source (the array is updated in place; here it is rebuilt). -/
def set3 (_a : Vec3) (p0 p1 p2 : Val) : Vec3 := ⟨p0, p1, p2⟩

/-- The function `set4` of the source, writing into a plain array. -/
def set4 (_a : Vec4) (p0 p1 p2 p3 : Val) : Vec4 := ⟨p0, p1, p2, p3⟩

/-! ## Typed arrays -/

/-- A value read from a slot of one of the colour arrays (`blendColor`, `clearColor`)
or passed for one: an exact value, or one of the non-finite numbers that a
`Float32Array` slot holds after storing `undefined` or a number too large for it. -/
inductive Elem where
  | val (v : Val)
  | nan
  | inf (negative : Bool)
  deriving DecidableEq, Repr, Inhabited

/-- The comparison `a === p` on such values: `NaN` equals nothing, itself included. -/
def Elem.strictEq (a p : Elem) : Bool := decide (a = p) && decide (a ≠ Elem.nan)

/-- The exponent shift of a float32: the least `sh` from `sh0` on with
`n < 2 ^ (24 + sh)`, found in at most `steps` steps. -/
def float32Shift : (steps : Nat) → (n : Nat) → (sh0 : Nat) → Nat
  | 0, _, sh => sh
  | steps + 1, n, sh => if n < 2 ^ (24 + sh) then sh else float32Shift steps n (sh + 1)

/-- Rounding a natural number to the nearest float32 (24 significant bits, ties to
even); `none` when the result is beyond the largest float32, which gives `Infinity`. -/
def roundFloat32 (n : Nat) : Option Nat :=
  if 2 ^ 128 ≤ n then none
  else
    let sh := float32Shift 104 n 0
    let q := n / 2 ^ sh
    let r := n % 2 ^ sh
    let q1 := if 2 ^ sh < 2 * r ∨ (2 * r = 2 ^ sh ∧ q % 2 = 1) then q + 1 else q
    if 2 ^ 128 ≤ q1 * 2 ^ sh then none else some (q1 * 2 ^ sh)

/-- The value a `Float32Array` slot holds after `a[i] = p`: `ToNumber(p)` rounded to
float32 (`undefined` gives `NaN`, `null` gives 0, `true` gives 1). -/
def Elem.toFloat32 : Elem → Elem
  | .val .undef => .nan
  | .val .null => .val (.num 0)
  | .val (.bool b) => .val (.num (if b then 1 else 0))
  | .val (.num n) =>
    match roundFloat32 n.natAbs with
    | some m => .val (.num (if n < 0 then -(m : Int) else (m : Int)))
    | none => .inf (decide (n < 0))
  | .nan => .nan
  | .inf negative => .inf negative

/-- The value an `Int32Array` slot holds after `a[i] = p`: `ToInt32(ToNumber(p))`, which
wraps modulo 2^32 into the signed range (`undefined` and `null` give 0, `true` gives 1). -/
def Val.toInt32 : Val → Val
  | .undef => .num 0
  | .null => .num 0
  | .bool b => .num (if b then 1 else 0)
  | .num n => .num ((n + 2147483648) % 4294967296 - 2147483648)

/-- The four slots of a colour array: the `Float32Array` that the mirror holds, or the
plain object that a snapshot holds in its place. -/
structure Vec4F where
  x0 : Elem
  x1 : Elem
  x2 : Elem
  x3 : Elem
  deriving DecidableEq, Repr, Inhabited

/-- The function `arr4Eq` of the source on a colour array. -/
def Vec4F.arr4Eq (a : Vec4F) (p0 p1 p2 p3 : Elem) : Bool :=
  a.x0.strictEq p0 && a.x1.strictEq p1 && a.x2.strictEq p2 && a.x3.strictEq p3

/-- The function `set4` of the source, writing into a `Float32Array`: every slot holds
the converted value. -/
def Vec4F.set4 (_a : Vec4F) (p0 p1 p2 p3 : Elem) : Vec4F :=
  ⟨p0.toFloat32, p1.toFloat32, p2.toFloat32, p3.toFloat32⟩

/-- The function `set4` of the source, writing into an `Int32Array`. -/
def set4Int32 (_a : Vec4) (p0 p1 p2 p3 : Val) : Vec4 :=
  ⟨p0.toInt32, p1.toInt32, p2.toInt32, p3.toInt32⟩

/-- The `Float32Array` that `getParameter` returns for four numbers of the context. -/
def Vec4F.asFloat32Array (v : Vec4F) : Vec4F := Vec4F.set4 v v.x0 v.x1 v.x2 v.x3

/-- The `Int32Array` that `getParameter` returns for four numbers of the context. -/
def Vec4.asInt32Array (v : Vec4) : Vec4 := set4Int32 v v.x0 v.x1 v.x2 v.x3

/-! ## Plain objects used as mappings

`gl.state.feats` and `gl.state.storei` are plain objects keyed by an enum.
A key is a natural number; a missing key reads as `undefined`.  `Object.keys`
lists integer keys in ascending order, which `JSMap.set` maintains. -/

abbrev JSMap := List (Nat × Val)

/-- Reading `m[k]`. -/
def JSMap.get : JSMap → Nat → Val
  | [], _ => .undef
  | (k, v) :: m, key => if k = key then v else JSMap.get m key

/-- Assigning `m[k] = v`. -/
def JSMap.set : JSMap → Nat → Val → JSMap
  | [], key, v => [(key, v)]
  | (k, w) :: m, key, v =>
    if k = key then (k, v) :: m
    else if key < k then (key, v) :: (k, w) :: m
    else (k, w) :: JSMap.set m key v

/-- The value of `Object.keys(m)`. -/
def JSMap.keys (m : JSMap) : List Nat := m.map Prod.fst

/-- The value of `Object.assign(t, s)`: every own key of `s` is assigned into `t`. -/
def JSMap.assign (t s : JSMap) : JSMap :=
  s.foldl (fun acc kv => JSMap.set acc kv.1 kv.2) t

/-- The value of `JSON.parse(JSON.stringify(m))` on a mapping: keys holding `undefined` are dropped. -/
def JSMap.jsonClone (m : JSMap) : JSMap := m.filter (fun kv => decide (kv.2 ≠ Val.undef))

/-- The value of `JSON.parse(JSON.stringify(v))` on an array slot: `undefined` becomes `null`. -/
def Val.jsonSlot : Val → Val
  | .undef => .null
  | v => v

/-! ## Enum values of the WebGL 2 API used by the source -/

def FRONT : Int := 1028
def BACK : Int := 1029
def FRONT_AND_BACK : Int := 1032
def FRAMEBUFFER : Int := 36160
def READ_FRAMEBUFFER : Int := 36008
def DRAW_FRAMEBUFFER : Int := 36009
def ARRAY_BUFFER : Int := 34962
def ELEMENT_ARRAY_BUFFER : Int := 34963
def UNIFORM_BUFFER : Int := 35345
def TEXTURE0 : Int := 33984
def TEXTURE_2D : Int := 3553
def COLOR_ATTACHMENT0 : Int := 36064
def NONE : Int := 0
def BLEND : Nat := 3042
def CULL_FACE : Nat := 2884
def DEPTH_TEST : Nat := 2929
def DITHER : Nat := 3024
def POLYGON_OFFSET_FILL : Nat := 32823
def SAMPLE_ALPHA_TO_COVERAGE : Nat := 32926
def SAMPLE_COVERAGE : Nat := 32928
def SCISSOR_TEST : Nat := 3089
def STENCIL_TEST : Nat := 2960
def RASTERIZER_DISCARD : Nat := 35977
def PACK_ALIGNMENT : Nat := 3333
def UNPACK_ALIGNMENT : Nat := 3317
def UNPACK_FLIP_Y_WEBGL : Nat := 37440
def UNPACK_PREMULTIPLY_ALPHA_WEBGL : Nat := 37441
def UNPACK_COLORSPACE_CONVERSION_WEBGL : Nat := 37443
def UNPACK_ROW_LENGTH : Nat := 3314
def UNPACK_SKIP_ROWS : Nat := 3315
def UNPACK_SKIP_PIXELS : Nat := 3316
def PACK_ROW_LENGTH : Nat := 3330
def PACK_SKIP_PIXELS : Nat := 3332
def PACK_SKIP_ROWS : Nat := 3331
def BROWSER_DEFAULT_WEBGL : Int := 37444
def FUNC_ADD : Int := 32774
def LESS : Int := 513
def CCW : Int := 2305
def SRC_ALPHA : Int := 770
def ONE_MINUS_SRC_ALPHA : Int := 771
def ONE : Int := 1
def ALWAYS : Int := 519
def KEEP : Int := 7680

/-! ## The data model -/

/-- The record `gl.state`: every field can be serialised. -/
structure TrackedState where
  feats : JSMap
  storei : JSMap
  activeTexture : Val
  viewport : Vec4
  blendColor : Vec4F
  blendEquationRgb : Val
  blendEquationAlpha : Val
  cullFaceMode : Val
  depthFunc : Val
  frontFace : Val
  lineWidth : Val
  blendFuncSeparate : Vec4
  clearColor : Vec4F
  colorMask : Vec4
  clearDepth : Val
  depthMask : Val
  depthRange : Vec2
  polygonOffset : Vec2
  sampleCoverage : Vec2
  scissor : Vec4
  stencilFunc : Vec3
  stencilOp : Vec3
  stencilMask : Val
  clearStencil : Val
  stencilBackFunc : Vec3
  stencilBackOp : Vec3
  stencilBackMask : Val
  deriving DecidableEq, Repr, Inhabited

/-- The object built by `packFramebuffer`: a framebuffer with its read source and
draw-target list (`none` is an `undefined` list). -/
structure FbPack where
  buffer : Handle
  readBuffer : Val
  drawBuffers : Option (List Val)
  deriving DecidableEq, Repr, Inhabited

/-- One slot of `gl.sgl.textures`: a hole / `undefined`, `null`, or `[type, texture]`. -/
inductive TexEntry where
  | undef
  | null
  | pair (type : Val) (texture : Handle)
  deriving DecidableEq, Repr, Inhabited

/-- The record `sgl` as found on the context and in a snapshot.  The fields
`boundFramebuffer` to `boundBuffer` are written by the wrappers on the context only. -/
structure Sgl where
  activeProgram : Handle
  arrayBufferBinding : Handle
  elementArrayBufferBinding : Handle
  uniformBufferBinding : Handle
  vertexArrayBinding : Handle
  framebuffer : FbPack
  readingBuffer : FbPack
  drawingBuffer : FbPack
  lastReadBufferBound : Handle
  lastDrawBufferBound : Handle
  textures : List TexEntry
  boundFramebuffer : Handle
  boundReadingBuffer : Handle
  boundDrawingBuffer : Handle
  boundBufferTarget : Val
  boundBuffer : Handle
  deriving DecidableEq, Repr, Inhabited

/-- A snapshot `{ state, sgl }`. -/
structure Snapshot where
  state : TrackedState
  sgl : Sgl
  deriving DecidableEq, Repr, Inhabited

/-- The properties the wrappers store on a framebuffer object. -/
structure FbProps where
  currentReadBuffer : Val
  currentDrawBuffers : Option (List Val)
  id : Option Nat
  deriving DecidableEq, Repr, Inhabited

/-- A call forwarded to an original function of the context. -/
inductive Call where
  | useProgram (program : Handle)
  | bindTexture (type : Val) (texture : Handle)
  | activeTexture (slot : Val)
  | viewport (x y width height : Val)
  | blendColor (red green blue alpha : Elem)
  | blendEquation (mode : Val)
  | blendEquationSeparate (modeRGB modeAlpha : Val)
  | blendFunc (sBoth dBoth : Val)
  | blendFuncSeparate (srcRGB dstRGB srcAlpha dstAlpha : Val)
  | cullFace (mode : Val)
  | frontFace (face : Val)
  | lineWidth (width : Val)
  | clearColor (red green blue alpha : Elem)
  | colorMask (red green blue alpha : Val)
  | clearDepth (depthValue : Val)
  | depthFunc (func : Val)
  | depthMask (flag : Val)
  | depthRange (near far : Val)
  | polygonOffset (factor units : Val)
  | sampleCoverage (value invert : Val)
  | scissor (x y width height : Val)
  | stencilFunc (func ref mask : Val)
  | stencilOp (fail zfail zpass : Val)
  | stencilMask (mask : Val)
  | clearStencil (s : Val)
  | stencilFuncSeparate (face func ref mask : Val)
  | stencilOpSeparate (face fail zfail zpass : Val)
  | stencilMaskSeparate (face mask : Val)
  | drawBuffers (buffers : List Val)
  | readBuffer (buffer : Val)
  | bindFramebuffer (fbType : Val) (fb : Handle)
  | bindVertexArray (vao : Handle)
  | bindBuffer (target : Val) (buffer : Handle)
  | pixelStorei (feat : Nat) (value : Val)
  | enable (feature : Nat)
  | disable (feature : Nat)
  deriving DecidableEq, Repr, Inhabited

/-- The wrapped context: the mirror, the properties set on `gl` itself, the
properties set on framebuffer objects, the closure counter `id`, and the calls
forwarded so far (oldest first). -/
structure Gl where
  state : TrackedState
  sgl : Sgl
  lastDrawBufferBound : Handle
  lastReadBufferBound : Handle
  defaultDrawBuffers : List Val
  defaultState : Snapshot
  savedState : Snapshot
  fbProps : List (Nat × FbProps)
  nextId : Nat
  log : List Call
  deriving DecidableEq, Repr, Inhabited

/-- Forwarding a call to the original function. -/
def Gl.forward (g : Gl) (c : Call) : Gl := { g with log := g.log ++ [c] }

/-- The outcome of a call that may raise a `TypeError`: the value reached, and
whether it was reached by normal completion or at the point of the throw. -/
inductive Res (α : Type) where
  | ok (a : α)
  | thrown (a : α)
  deriving DecidableEq, Repr

/-- The value carried by an outcome. -/
def Res.val {α : Type} : Res α → α
  | .ok a => a
  | .thrown a => a

/-- Sequencing: the rest of the function body runs only after normal completion. -/
def Res.andThen {α : Type} (r : Res α) (f : α → Res α) : Res α :=
  match r with
  | .ok a => f a
  | .thrown a => .thrown a

/-- Whether the call completed normally. -/
def Res.isOk {α : Type} : Res α → Bool
  | .ok _ => true
  | .thrown _ => false

/-! ## The wrappers installed by `wrapStatefulGLFunctions` -/

/-- The wrapper `gl.useProgram`. -/
def useProgram (g : Gl) (program : Handle) : Gl :=
  if g.sgl.activeProgram = program then g
  else ({ g with sgl := { g.sgl with activeProgram := program } }).forward (.useProgram program)

/-- The arithmetic value of a primitive (`none` is NaN). -/
def Val.toNumber : Val → Option Int
  | .undef => none
  | .null => some 0
  | .bool b => some (if b then 1 else 0)
  | .num n => some n

/-- Assigning `a[i] = v` on an array: an index past the end extends the array with
holes; an `i` that is no array index adds a property that no code reads. -/
def arraySet (a : List TexEntry) (i : Option Int) (v : TexEntry) : List TexEntry :=
  match i with
  | some (Int.ofNat n) =>
    if n < a.length then a.set n v else a ++ List.replicate (n - a.length) TexEntry.undef ++ [v]
  | _ => a

/-- Reading `a[i]` on an array. -/
def arrayGet (a : List TexEntry) (i : Nat) : TexEntry := a.getD i TexEntry.undef

/-- The wrapper `gl.bindTexture`. -/
def bindTexture (g : Gl) (type : Val) (texture : Handle) : Gl :=
  let currentActive := (g.state.activeTexture.toNumber).map (fun n => n - TEXTURE0)
  let textures :=
    if !texture.truthy then arraySet g.sgl.textures currentActive TexEntry.null
    else arraySet g.sgl.textures currentActive (TexEntry.pair type texture)
  ({ g with sgl := { g.sgl with textures := textures } }).forward (.bindTexture type texture)

/-- The wrapper `gl.activeTexture`. -/
def activeTexture (g : Gl) (slot : Val) : Gl :=
  if g.state.activeTexture = slot then g
  else ({ g with state := { g.state with activeTexture := slot } }).forward (.activeTexture slot)

/-- The wrapper `gl.viewport`. -/
def viewport (g : Gl) (x y width height : Val) : Gl :=
  if arr4Eq g.state.viewport x y width height then g
  else ({ g with state := { g.state with viewport := set4 g.state.viewport x y width height } }).forward
    (.viewport x y width height)

/-- The wrapper `gl.blendColor`; `gl.state.blendColor` is a `Float32Array`. -/
def blendColor (g : Gl) (red green blue alpha : Elem) : Gl :=
  if g.state.blendColor.arr4Eq red green blue alpha then g
  else ({ g with
      state := { g.state with blendColor := g.state.blendColor.set4 red green blue alpha } }).forward
    (.blendColor red green blue alpha)

/-- The wrapper `gl.blendEquation`. -/
def blendEquation (g : Gl) (mode : Val) : Gl :=
  if g.state.blendEquationRgb = mode ∧ g.state.blendEquationAlpha = mode then g
  else ({ g with state := { g.state with blendEquationRgb := mode, blendEquationAlpha := mode } }).forward
    (.blendEquation mode)

/-- The wrapper `gl.blendEquationSeparate`. -/
def blendEquationSeparate (g : Gl) (modeRGB modeAlpha : Val) : Gl :=
  if g.state.blendEquationRgb = modeRGB ∧ g.state.blendEquationAlpha = modeAlpha then g
  else ({ g with state := { g.state with blendEquationRgb := modeRGB, blendEquationAlpha := modeAlpha } }).forward
    (.blendEquationSeparate modeRGB modeAlpha)

/-- The wrapper `gl.blendFunc`. -/
def blendFunc (g : Gl) (sBoth dBoth : Val) : Gl :=
  if arr4Eq g.state.blendFuncSeparate sBoth dBoth sBoth dBoth then g
  else ({ g with state := { g.state with
      blendFuncSeparate := set4 g.state.blendFuncSeparate sBoth dBoth sBoth dBoth } }).forward
    (.blendFunc sBoth dBoth)

/-- The wrapper `gl.blendFuncSeparate`. -/
def blendFuncSeparate (g : Gl) (srcRGB dstRGB srcAlpha dstAlpha : Val) : Gl :=
  if arr4Eq g.state.blendFuncSeparate srcRGB dstRGB srcAlpha dstAlpha then g
  else ({ g with state := { g.state with
      blendFuncSeparate := set4 g.state.blendFuncSeparate srcRGB dstRGB srcAlpha dstAlpha } }).forward
    (.blendFuncSeparate srcRGB dstRGB srcAlpha dstAlpha)

/-- The wrapper `gl.cullFace`. -/
def cullFace (g : Gl) (mode : Val) : Gl :=
  if g.state.cullFaceMode = mode then g
  else ({ g with state := { g.state with cullFaceMode := mode } }).forward (.cullFace mode)

/-- The wrapper `gl.frontFace`. -/
def frontFace (g : Gl) (face : Val) : Gl :=
  if g.state.frontFace = face then g
  else ({ g with state := { g.state with frontFace := face } }).forward (.frontFace face)

/-- The wrapper `gl.lineWidth`. -/
def lineWidth (g : Gl) (width : Val) : Gl :=
  if g.state.lineWidth = width then g
  else ({ g with state := { g.state with lineWidth := width } }).forward (.lineWidth width)

/-- The wrapper `gl.clearColor`; `gl.state.clearColor` is a `Float32Array`. -/
def clearColor (g : Gl) (red green blue alpha : Elem) : Gl :=
  if g.state.clearColor.arr4Eq red green blue alpha then g
  else ({ g with
      state := { g.state with clearColor := g.state.clearColor.set4 red green blue alpha } }).forward
    (.clearColor red green blue alpha)

/-- The wrapper `gl.colorMask`. -/
def colorMask (g : Gl) (red green blue alpha : Val) : Gl :=
  if arr4Eq g.state.colorMask red green blue alpha then g
  else ({ g with state := { g.state with colorMask := set4 g.state.colorMask red green blue alpha } }).forward
    (.colorMask red green blue alpha)

/-- The wrapper `gl.clearDepth`. -/
def clearDepth (g : Gl) (depthValue : Val) : Gl :=
  if g.state.clearDepth = depthValue then g
  else ({ g with state := { g.state with clearDepth := depthValue } }).forward (.clearDepth depthValue)

/-- The wrapper `gl.depthFunc`. -/
def depthFunc (g : Gl) (func : Val) : Gl :=
  if g.state.depthFunc = func then g
  else ({ g with state := { g.state with depthFunc := func } }).forward (.depthFunc func)

/-- The wrapper `gl.depthMask`. -/
def depthMask (g : Gl) (flag : Val) : Gl :=
  if g.state.depthMask = flag then g
  else ({ g with state := { g.state with depthMask := flag } }).forward (.depthMask flag)

/-- The wrapper `gl.depthRange`. -/
def depthRange (g : Gl) (near far : Val) : Gl :=
  if g.state.depthRange.x0 = near ∧ g.state.depthRange.x1 = far then g
  else ({ g with state := { g.state with depthRange := ⟨near, far⟩ } }).forward (.depthRange near far)

/-- The wrapper `gl.polygonOffset`. -/
def polygonOffset (g : Gl) (factor units : Val) : Gl :=
  if g.state.polygonOffset.x0 = factor ∧ g.state.polygonOffset.x1 = units then g
  else ({ g with state := { g.state with polygonOffset := ⟨factor, units⟩ } }).forward
    (.polygonOffset factor units)

/-- The wrapper `gl.sampleCoverage`. -/
def sampleCoverage (g : Gl) (value invert : Val) : Gl :=
  if g.state.sampleCoverage.x0 = value ∧ g.state.sampleCoverage.x1 = invert then g
  else ({ g with state := { g.state with sampleCoverage := ⟨value, invert⟩ } }).forward
    (.sampleCoverage value invert)

/-- The wrapper `gl.scissor`; `gl.state.scissor` is an `Int32Array`. -/
def scissor (g : Gl) (x y width height : Val) : Gl :=
  if arr4Eq g.state.scissor x y width height then g
  else ({ g with
      state := { g.state with scissor := set4Int32 g.state.scissor x y width height } }).forward
    (.scissor x y width height)

/-- The wrapper `gl.stencilFunc`. -/
def stencilFunc (g : Gl) (func ref mask : Val) : Gl :=
  if arr3Eq g.state.stencilFunc func ref mask && arr3Eq g.state.stencilBackFunc func ref mask then g
  else ({ g with state := { g.state with
      stencilFunc := set3 g.state.stencilFunc func ref mask,
      stencilBackFunc := set3 g.state.stencilBackFunc func ref mask } }).forward
    (.stencilFunc func ref mask)

/-- The wrapper `gl.stencilOp`. -/
def stencilOp (g : Gl) (fail zfail zpass : Val) : Gl :=
  if arr3Eq g.state.stencilOp fail zfail zpass && arr3Eq g.state.stencilBackOp fail zfail zpass then g
  else ({ g with state := { g.state with
      stencilOp := set3 g.state.stencilOp fail zfail zpass,
      stencilBackOp := set3 g.state.stencilBackOp fail zfail zpass } }).forward
    (.stencilOp fail zfail zpass)

/-- The wrapper `gl.stencilMask`. -/
def stencilMask (g : Gl) (mask : Val) : Gl :=
  if g.state.stencilMask = mask ∧ g.state.stencilBackMask = mask then g
  else ({ g with state := { g.state with stencilMask := mask, stencilBackMask := mask } }).forward
    (.stencilMask mask)

/-- The wrapper `gl.clearStencil`. -/
def clearStencil (g : Gl) (s : Val) : Gl :=
  if g.state.clearStencil = s then g
  else ({ g with state := { g.state with clearStencil := s } }).forward (.clearStencil s)

/-- The wrapper `gl.stencilFuncSeparate`. -/
def stencilFuncSeparate (g : Gl) (face func ref mask : Val) : Gl :=
  let setFront : Bool := decide (face = .num FRONT) || decide (face = .num FRONT_AND_BACK)
  let setBack : Bool := decide (face = .num BACK) || decide (face = .num FRONT_AND_BACK)
  let front := setFront && !arr3Eq g.state.stencilFunc func ref mask
  let g1 := if front then { g with state := { g.state with
      stencilFunc := set3 g.state.stencilFunc func ref mask } } else g
  let back := setBack && !arr3Eq g1.state.stencilBackFunc func ref mask
  let g2 := if back then { g1 with state := { g1.state with
      stencilBackFunc := set3 g1.state.stencilBackFunc func ref mask } } else g1
  let needsUpdate := front || back
  if !needsUpdate then g2 else g2.forward (.stencilFuncSeparate face func ref mask)

/-- The wrapper `gl.stencilOpSeparate`. -/
def stencilOpSeparate (g : Gl) (face fail zfail zpass : Val) : Gl :=
  let setFront : Bool := decide (face = .num FRONT) || decide (face = .num FRONT_AND_BACK)
  let setBack : Bool := decide (face = .num BACK) || decide (face = .num FRONT_AND_BACK)
  let front := setFront && !arr3Eq g.state.stencilOp fail zfail zpass
  let g1 := if front then { g with state := { g.state with
      stencilOp := set3 g.state.stencilOp fail zfail zpass } } else g
  let back := setBack && !arr3Eq g1.state.stencilBackOp fail zfail zpass
  let g2 := if back then { g1 with state := { g1.state with
      stencilBackOp := set3 g1.state.stencilBackOp fail zfail zpass } } else g1
  let needsUpdate := front || back
  if !needsUpdate then g2 else g2.forward (.stencilOpSeparate face fail zfail zpass)

/-- The wrapper `gl.stencilMaskSeparate`. -/
def stencilMaskSeparate (g : Gl) (face mask : Val) : Gl :=
  let front : Bool := (decide (face = .num FRONT) || decide (face = .num FRONT_AND_BACK))
    && decide (g.state.stencilMask ≠ mask)
  let g1 := if front then { g with state := { g.state with stencilMask := mask } } else g
  let back : Bool := (decide (face = .num BACK) || decide (face = .num FRONT_AND_BACK))
    && decide (g1.state.stencilBackMask ≠ mask)
  let g2 := if back then { g1 with state := { g1.state with stencilBackMask := mask } } else g1
  let changed := front || back
  if !changed then g2 else g2.forward (.stencilMaskSeparate face mask)

/-- Reading the wrapper properties of framebuffer object `n` (all `undefined` at first). -/
def propsOf : List (Nat × FbProps) → Nat → FbProps
  | [], _ => ⟨.undef, none, none⟩
  | (k, p) :: h, n => if k = n then p else propsOf h n

/-- Writing the wrapper properties of framebuffer object `n`. -/
def setProps : List (Nat × FbProps) → Nat → FbProps → List (Nat × FbProps)
  | [], n, p => [(n, p)]
  | (k, q) :: h, n, p => if k = n then (k, p) :: h else (k, q) :: setProps h n p

/-- The wrapper `gl.drawBuffers`; `buffers` is `none` when the argument is `undefined`.  The
assignment to `gl.lastDrawBufferBound.currentDrawBuffers` throws when the base is
`null` or `undefined`, and `buffers.slice()` throws when `buffers` is `undefined`. -/
def drawBuffers (g : Gl) (buffers : Option (List Val)) : Res Gl :=
  match g.lastDrawBufferBound, buffers with
  | .obj n, some bs =>
    let props : FbProps := { propsOf g.fbProps n with currentDrawBuffers := some bs }
    .ok (({ g with fbProps := setProps g.fbProps n props }).forward (.drawBuffers bs))
  | _, _ => .thrown g

/-- The wrapper `gl.readBuffer`. -/
def readBuffer (g : Gl) (buffer : Val) : Res Gl :=
  match g.lastReadBufferBound with
  | .obj n =>
    let props : FbProps := { propsOf g.fbProps n with currentReadBuffer := buffer }
    .ok (({ g with fbProps := setProps g.fbProps n props }).forward (.readBuffer buffer))
  | _ => .thrown g

/-- The wrapper `gl.bindFramebuffer`. -/
def bindFramebuffer (g : Gl) (fbType : Val) (fb : Handle) : Gl :=
  let g1 : Gl :=
    if fbType = .num FRAMEBUFFER then
      { g with
        sgl := { g.sgl with boundFramebuffer := fb, boundDrawingBuffer := fb, boundReadingBuffer := fb },
        lastReadBufferBound := fb, lastDrawBufferBound := fb }
    else if fbType = .num DRAW_FRAMEBUFFER then
      { g with sgl := { g.sgl with boundDrawingBuffer := fb }, lastDrawBufferBound := fb }
    else if fbType = .num READ_FRAMEBUFFER then
      { g with sgl := { g.sgl with boundReadingBuffer := fb }, lastReadBufferBound := fb }
    else g
  let g2 : Gl :=
    match fb with
    | .obj n =>
      if (propsOf g1.fbProps n).id = none then
        let props : FbProps := { propsOf g1.fbProps n with id := some g1.nextId }
        { g1 with fbProps := setProps g1.fbProps n props, nextId := g1.nextId + 1 }
      else g1
    | _ => g1
  g2.forward (.bindFramebuffer fbType fb)

/-- The wrapper `gl.bindVertexArray`. -/
def bindVertexArray (g : Gl) (vao : Handle) : Gl :=
  if g.sgl.vertexArrayBinding = vao then g
  else ({ g with sgl := { g.sgl with vertexArrayBinding := vao } }).forward (.bindVertexArray vao)

/-- The wrapper `gl.bindBuffer`. -/
def bindBuffer (g : Gl) (target : Val) (buffer : Handle) : Gl :=
  if g.sgl.boundBufferTarget = target ∧ g.sgl.boundBuffer = buffer then g
  else
    let sgl1 : Sgl :=
      if target = .num ARRAY_BUFFER then { g.sgl with arrayBufferBinding := buffer }
      else if target = .num ELEMENT_ARRAY_BUFFER then { g.sgl with elementArrayBufferBinding := buffer }
      else if target = .num UNIFORM_BUFFER then { g.sgl with uniformBufferBinding := buffer }
      else g.sgl
    ({ g with sgl := { sgl1 with boundBufferTarget := target, boundBuffer := buffer } }).forward
      (.bindBuffer target buffer)

/-- The wrapper `gl.pixelStorei`. -/
def pixelStorei (g : Gl) (feat : Nat) (value : Val) : Gl :=
  if g.state.storei.get feat = value then g
  else ({ g with state := { g.state with storei := g.state.storei.set feat value } }).forward
    (.pixelStorei feat value)

/-- The wrapper `gl.enable`. -/
def enable (g : Gl) (feature : Nat) : Gl :=
  if g.state.feats.get feature = .bool true then g
  else ({ g with state := { g.state with feats := g.state.feats.set feature (.bool true) } }).forward
    (.enable feature)

/-- The wrapper `gl.disable`. -/
def disable (g : Gl) (feature : Nat) : Gl :=
  if g.state.feats.get feature = .bool false then g
  else ({ g with state := { g.state with feats := g.state.feats.set feature (.bool false) } }).forward
    (.disable feature)

/-! ## Snapshots -/

/-- The value of `JSON.parse(JSON.stringify(v))` on the arrays of the tracked state. -/
def Vec2.jsonClone (v : Vec2) : Vec2 := ⟨v.x0.jsonSlot, v.x1.jsonSlot⟩

/-- The same on an array of three values. -/
def Vec3.jsonClone (v : Vec3) : Vec3 := ⟨v.x0.jsonSlot, v.x1.jsonSlot, v.x2.jsonSlot⟩

/-- The same on an array of four values. -/
def Vec4.jsonClone (v : Vec4) : Vec4 := ⟨v.x0.jsonSlot, v.x1.jsonSlot, v.x2.jsonSlot, v.x3.jsonSlot⟩

/-- The value of `JSON.parse(JSON.stringify(v))` on a slot of a colour array: `NaN` and the
infinities become `null`, as `undefined` does. -/
def Elem.jsonSlot : Elem → Elem
  | .val v => .val v.jsonSlot
  | .nan => .val .null
  | .inf _ => .val .null

/-- The same on a colour array: a `Float32Array` is written as an object with the keys
`0` to `3`, which reads by index like the array. -/
def Vec4F.jsonClone (v : Vec4F) : Vec4F := ⟨v.x0.jsonSlot, v.x1.jsonSlot, v.x2.jsonSlot, v.x3.jsonSlot⟩

/-- The value of `JSON.parse(JSON.stringify(gl.state))`: a property holding `undefined` is dropped
and then reads as `undefined` again, so scalar fields (exact values) come back as they were; a
slot of an array holding `undefined`, `NaN` or an infinity comes back as `null`. -/
def TrackedState.jsonClone (s : TrackedState) : TrackedState :=
  { s with
    feats := s.feats.jsonClone
    storei := s.storei.jsonClone
    viewport := s.viewport.jsonClone
    blendColor := s.blendColor.jsonClone
    blendFuncSeparate := s.blendFuncSeparate.jsonClone
    clearColor := s.clearColor.jsonClone
    colorMask := s.colorMask.jsonClone
    depthRange := s.depthRange.jsonClone
    polygonOffset := s.polygonOffset.jsonClone
    sampleCoverage := s.sampleCoverage.jsonClone
    scissor := s.scissor.jsonClone
    stencilFunc := s.stencilFunc.jsonClone
    stencilOp := s.stencilOp.jsonClone
    stencilBackFunc := s.stencilBackFunc.jsonClone
    stencilBackOp := s.stencilBackOp.jsonClone }

/-- The read source that `packFramebuffer` records for framebuffer object `n`:
`pxbuffer.currentReadBuffer || gl.COLOR_ATTACHMENT0`. -/
def packedReadBuffer (g : Gl) (n : Nat) : Val :=
  if (propsOf g.fbProps n).currentReadBuffer.truthy then (propsOf g.fbProps n).currentReadBuffer
  else .num COLOR_ATTACHMENT0

/-- The draw-target list that `packFramebuffer` records for framebuffer object `n`. -/
def packedDrawBuffers (g : Gl) (n : Nat) : List Val :=
  match (propsOf g.fbProps n).currentDrawBuffers with
  | some bs => bs
  | none => g.defaultDrawBuffers

/-- The function `packFramebuffer`; `none` when reading a property of `undefined` throws. -/
def packFramebuffer (g : Gl) (pxbuffer : Handle) (type : Int) : Option FbPack :=
  match pxbuffer with
  | .null => some ⟨.null, .undef, none⟩
  | .undef =>
    if type = FRAMEBUFFER ∨ type = READ_FRAMEBUFFER then none
    else if type = FRAMEBUFFER ∨ type = DRAW_FRAMEBUFFER then none
    else some ⟨.undef, .undef, none⟩
  | .obj n =>
    some ⟨.obj n,
      if type = FRAMEBUFFER ∨ type = READ_FRAMEBUFFER then packedReadBuffer g n else .undef,
      if type = FRAMEBUFFER ∨ type = DRAW_FRAMEBUFFER then some (packedDrawBuffers g n) else none⟩

/-- The function `packFramebufferInto`: as `packFramebuffer`, writing into an existing object, which
is left with `buffer` set and both lists `undefined` when the body throws. -/
def packFramebufferInto (g : Gl) (_target : FbPack) (pxbuffer : Handle) (type : Int) : Res FbPack :=
  match packFramebuffer g pxbuffer type with
  | some buf => .ok buf
  | none => .thrown ⟨pxbuffer, .undef, none⟩

/-- The method `gl.createState`; `none` when `packFramebuffer` throws.  The fields that only the
context carries are absent from the new `sgl`. -/
def createState (g : Gl) : Option Snapshot :=
  match packFramebuffer g g.sgl.boundFramebuffer FRAMEBUFFER,
        packFramebuffer g g.sgl.boundReadingBuffer READ_FRAMEBUFFER,
        packFramebuffer g g.sgl.boundDrawingBuffer DRAW_FRAMEBUFFER with
  | some fb, some rb, some db =>
    some
      { state := g.state.jsonClone
        sgl :=
          { arrayBufferBinding := g.sgl.arrayBufferBinding
            elementArrayBufferBinding := g.sgl.elementArrayBufferBinding
            uniformBufferBinding := g.sgl.uniformBufferBinding
            vertexArrayBinding := g.sgl.vertexArrayBinding
            activeProgram := g.sgl.activeProgram
            framebuffer := fb
            readingBuffer := rb
            drawingBuffer := db
            lastDrawBufferBound := g.lastDrawBufferBound
            lastReadBufferBound := g.lastReadBufferBound
            textures := g.sgl.textures
            boundFramebuffer := .undef
            boundReadingBuffer := .undef
            boundDrawingBuffer := .undef
            boundBufferTarget := .undef
            boundBuffer := .undef } }
  | _, _, _ => none

/-- The loop at the end of `copySnapshot`: `target.sgl.textures[i] = gl.sgl.textures[i]`
for every index of the context's array. -/
def copyTextures (target live : List TexEntry) : List TexEntry :=
  live ++ target.drop live.length

/-- The function `copySnapshot(target, source)`.  The scalar part and the plain handles come from
`source`; the framebuffer entries and the textures are read from the context. -/
def copySnapshot (g : Gl) (target source : Snapshot) : Res Snapshot :=
  let st : TrackedState :=
    { feats := JSMap.assign target.state.feats source.state.feats
      storei := JSMap.assign target.state.storei source.state.storei
      activeTexture := source.state.activeTexture
      viewport := source.state.viewport
      blendColor := source.state.blendColor
      blendEquationRgb := source.state.blendEquationRgb
      blendEquationAlpha := source.state.blendEquationAlpha
      cullFaceMode := source.state.cullFaceMode
      depthFunc := source.state.depthFunc
      frontFace := source.state.frontFace
      lineWidth := source.state.lineWidth
      blendFuncSeparate := source.state.blendFuncSeparate
      clearColor := source.state.clearColor
      colorMask := source.state.colorMask
      clearDepth := source.state.clearDepth
      depthMask := source.state.depthMask
      depthRange := source.state.depthRange
      polygonOffset := source.state.polygonOffset
      sampleCoverage := source.state.sampleCoverage
      scissor := source.state.scissor
      stencilFunc := source.state.stencilFunc
      stencilOp := source.state.stencilOp
      stencilMask := source.state.stencilMask
      clearStencil := source.state.clearStencil
      stencilBackFunc := source.state.stencilBackFunc
      stencilBackOp := source.state.stencilBackOp
      stencilBackMask := source.state.stencilBackMask }
  let t1 : Snapshot :=
    { state := st
      sgl := { target.sgl with
        activeProgram := source.sgl.activeProgram
        arrayBufferBinding := source.sgl.arrayBufferBinding
        elementArrayBufferBinding := source.sgl.elementArrayBufferBinding
        uniformBufferBinding := source.sgl.uniformBufferBinding
        vertexArrayBinding := source.sgl.vertexArrayBinding
        lastReadBufferBound := source.sgl.lastReadBufferBound
        lastDrawBufferBound := source.sgl.lastDrawBufferBound } }
  match packFramebufferInto g t1.sgl.framebuffer g.sgl.boundFramebuffer FRAMEBUFFER with
  | .thrown fb => .thrown { t1 with sgl := { t1.sgl with framebuffer := fb } }
  | .ok fb =>
    let t2 : Snapshot := { t1 with sgl := { t1.sgl with framebuffer := fb } }
    match packFramebufferInto g t2.sgl.readingBuffer g.sgl.boundReadingBuffer READ_FRAMEBUFFER with
    | .thrown rb => .thrown { t2 with sgl := { t2.sgl with readingBuffer := rb } }
    | .ok rb =>
      let t3 : Snapshot := { t2 with sgl := { t2.sgl with readingBuffer := rb } }
      match packFramebufferInto g t3.sgl.drawingBuffer g.sgl.boundDrawingBuffer DRAW_FRAMEBUFFER with
      | .thrown db => .thrown { t3 with sgl := { t3.sgl with drawingBuffer := db } }
      | .ok db =>
        .ok { t3 with sgl := { t3.sgl with
          drawingBuffer := db
          textures := copyTextures t3.sgl.textures g.sgl.textures } }

/-- The context read as the `source` argument of `copySnapshot`: its `state` and `sgl`. -/
def Gl.asSource (g : Gl) : Snapshot := ⟨g.state, g.sgl⟩

/-- The method `gl.saveState(target)`; `target = none` is the call without argument, which writes
`gl.savedState`.  Returns the context and the object written. -/
def saveState (g : Gl) (target : Option Snapshot) : Res (Gl × Snapshot) :=
  match target with
  | some t =>
    match copySnapshot g t g.asSource with
    | .ok t1 => .ok (g, t1)
    | .thrown t1 => .thrown (g, t1)
  | none =>
    match copySnapshot g g.savedState g.asSource with
    | .ok t1 => .ok ({ g with savedState := t1 }, t1)
    | .thrown t1 => .thrown ({ g with savedState := t1 }, t1)

/-- The method `gl.copyState(target, source)`; `source = none` stands for the context. -/
def copyState (g : Gl) (target : Snapshot) (source : Option Snapshot) : Res Snapshot :=
  copySnapshot g target (source.getD g.asSource)

/-! ## Restoring -/

/-- The function `restoreGLFeatures(gl, feats, gl.state.feats)`. -/
def restoreGLFeatures (g : Gl) (feats : JSMap) : Gl :=
  feats.keys.foldl
    (fun g feat =>
      if feats.get feat = g.state.feats.get feat then g
      else if (feats.get feat).truthy then enable g feat else disable g feat)
    g

/-- The function `setGLFeaturesPartial`. -/
def setGLFeaturesPartial (g : Gl) (feats : JSMap) : Gl :=
  feats.keys.foldl
    (fun g feat =>
      if feats.get feat = .undef then g
      else if (feats.get feat).truthy then enable g feat else disable g feat)
    g

/-- The function `restoreStorei(gl, storei, gl.state.storei)`. -/
def restoreStorei (g : Gl) (storei : JSMap) : Gl :=
  storei.keys.foldl
    (fun g feat =>
      if storei.get feat = g.state.storei.get feat then g
      else pixelStorei g feat (storei.get feat))
    g

/-- One round of the loop of `restoreTextureBindings`.  Two array references are
`===` only if they hold the same pair, and two different arrays holding the same pair
pass the element-wise test, so both tests together are equality of the entries. -/
def restoreTextureUnit (textures : List TexEntry) (g : Gl) (i : Nat) : Gl :=
  let currTex := arrayGet g.sgl.textures i
  let tex := arrayGet textures i
  if currTex = tex then g
  else
    let g1 := activeTexture g (.num (TEXTURE0 + i))
    match tex with
    | .pair type texture => bindTexture g1 type texture
    | _ => bindTexture g1 (.num TEXTURE_2D) .null

/-- The function `restoreTextureBindings`. -/
def restoreTextureBindings (g : Gl) (textures : List TexEntry) (currentActive : Val) : Gl :=
  activeTexture ((List.range 16).foldl (restoreTextureUnit textures) g) currentActive

/-- The function `bindFramebufferWithReadDrawConfig`. -/
def bindFramebufferWithReadDrawConfig (g : Gl) (fbType : Int) (bufferConfig : FbPack) : Res Gl :=
  let g1 := bindFramebuffer g (.num fbType) bufferConfig.buffer
  if bufferConfig.buffer = .null then .ok g1
  else
    (if fbType = FRAMEBUFFER ∨ fbType = DRAW_FRAMEBUFFER then drawBuffers g1 bufferConfig.drawBuffers
     else .ok g1).andThen fun g2 =>
    if fbType = FRAMEBUFFER ∨ fbType = READ_FRAMEBUFFER then readBuffer g2 bufferConfig.readBuffer
    else .ok g2

/-- The program, vertex-array and buffer binds at the start of `setGLState`. -/
def restoreBindings (g : Gl) (sgl : Sgl) : Gl :=
  let g := useProgram g sgl.activeProgram
  let g := bindVertexArray g sgl.vertexArrayBinding
  let g := bindBuffer g (.num ARRAY_BUFFER) sgl.arrayBufferBinding
  bindBuffer g (.num UNIFORM_BUFFER) sgl.uniformBufferBinding

/-- The setter calls of `setGLState` from `restoreGLFeatures` to `stencilMaskSeparate`. -/
def restoreValues (g : Gl) (s : TrackedState) : Gl :=
  let g := restoreGLFeatures g s.feats
  let g := restoreStorei g s.storei
  let g := viewport g s.viewport.x0 s.viewport.x1 s.viewport.x2 s.viewport.x3
  let g := blendColor g s.blendColor.x0 s.blendColor.x1 s.blendColor.x2 s.blendColor.x3
  let g := blendEquationSeparate g s.blendEquationRgb s.blendEquationAlpha
  let g := cullFace g s.cullFaceMode
  let g := depthFunc g s.depthFunc
  let g := frontFace g s.frontFace
  let g := lineWidth g s.lineWidth
  let g := blendFuncSeparate g s.blendFuncSeparate.x0 s.blendFuncSeparate.x1
    s.blendFuncSeparate.x2 s.blendFuncSeparate.x3
  let g := clearColor g s.clearColor.x0 s.clearColor.x1 s.clearColor.x2 s.clearColor.x3
  let g := colorMask g s.colorMask.x0 s.colorMask.x1 s.colorMask.x2 s.colorMask.x3
  let g := clearDepth g s.clearDepth
  let g := depthMask g s.depthMask
  let g := depthRange g s.depthRange.x0 s.depthRange.x1
  let g := polygonOffset g s.polygonOffset.x0 s.polygonOffset.x1
  let g := sampleCoverage g s.sampleCoverage.x0 s.sampleCoverage.x1
  let g := scissor g s.scissor.x0 s.scissor.x1 s.scissor.x2 s.scissor.x3
  let g := stencilFunc g s.stencilFunc.x0 s.stencilFunc.x1 s.stencilFunc.x2
  let g := stencilOp g s.stencilOp.x0 s.stencilOp.x1 s.stencilOp.x2
  let g := stencilMask g s.stencilMask
  let g := clearStencil g s.clearStencil
  let g := stencilFuncSeparate g (.num BACK) s.stencilBackFunc.x0 s.stencilBackFunc.x1 s.stencilBackFunc.x2
  let g := stencilOpSeparate g (.num BACK) s.stencilBackOp.x0 s.stencilBackOp.x1 s.stencilBackOp.x2
  stencilMaskSeparate g (.num BACK) s.stencilBackMask

/-- The framebuffer binds of `setGLState`. -/
def restoreFramebuffers (g : Gl) (sgl : Sgl) : Res Gl :=
  (bindFramebufferWithReadDrawConfig g FRAMEBUFFER sgl.framebuffer).andThen fun g =>
  (if sgl.lastDrawBufferBound = sgl.drawingBuffer.buffer
      ∧ sgl.lastDrawBufferBound ≠ sgl.framebuffer.buffer then
    bindFramebufferWithReadDrawConfig g DRAW_FRAMEBUFFER sgl.drawingBuffer
   else .ok g).andThen fun g =>
  if sgl.lastReadBufferBound = sgl.readingBuffer.buffer
      ∧ sgl.lastReadBufferBound ≠ sgl.framebuffer.buffer then
    bindFramebufferWithReadDrawConfig g READ_FRAMEBUFFER sgl.readingBuffer
  else .ok g

/-- The function `setGLState`. -/
def setGLState (g : Gl) (snapshot : Snapshot) : Res Gl :=
  (restoreFramebuffers (restoreValues (restoreBindings g snapshot.sgl) snapshot.state)
    snapshot.sgl).andThen fun g =>
  .ok (restoreTextureBindings g snapshot.sgl.textures snapshot.state.activeTexture)

/-- The method `gl.restoreState(snapshot)`; `none` is the call without argument. -/
def restoreState (g : Gl) (snapshot : Option Snapshot) : Res Gl :=
  setGLState g (snapshot.getD g.savedState)

/-! ## Partial restore -/

/-- The `sgl` part of the argument of `gl.setState`; an absent field is `undefined`. -/
structure PatchSgl where
  activeProgram : Handle
  vertexArrayBinding : Handle
  elementArrayBufferBinding : Handle
  arrayBufferBinding : Handle
  uniformBufferBinding : Handle
  textures : Option (List TexEntry)
  deriving DecidableEq, Repr, Inhabited

/-- The `state` part of the argument of `gl.setState`.  An absent scalar is
`undefined`, an absent array or object is `none`.  The framebuffer entries are the
ones `setGLStatePartial` reads, on `state`. -/
structure PatchState where
  feats : Option JSMap
  storei : Option JSMap
  activeTexture : Val
  viewport : Option Vec4
  blendColor : Option Vec4F
  blendEquationRgb : Val
  blendEquationAlpha : Val
  cullFaceMode : Val
  depthFunc : Val
  frontFace : Val
  lineWidth : Val
  blendFuncSeparate : Option Vec4
  clearColor : Option Vec4F
  colorMask : Option Vec4
  clearDepth : Val
  depthMask : Val
  depthRange : Option Vec2
  polygonOffset : Option Vec2
  sampleCoverage : Option Vec2
  scissor : Option Vec4
  stencilFunc : Option Vec3
  stencilOp : Option Vec3
  stencilMask : Val
  clearStencil : Val
  stencilBackFunc : Option Vec3
  stencilBackOp : Option Vec3
  stencilBackMask : Val
  framebuffer : Option FbPack
  drawingBuffer : Option FbPack
  readingBuffer : Option FbPack
  lastDrawBufferBound : Handle
  lastReadBufferBound : Handle
  deriving DecidableEq, Repr, Inhabited

/-- The argument of `gl.setState`. -/
structure Patch where
  sgl : Option PatchSgl
  state : Option PatchState
  deriving DecidableEq, Repr, Inhabited

/-- A patch state with every field absent. -/
def PatchState.empty : PatchState :=
  { feats := none, storei := none, activeTexture := .undef, viewport := none, blendColor := none
    blendEquationRgb := .undef, blendEquationAlpha := .undef, cullFaceMode := .undef
    depthFunc := .undef, frontFace := .undef, lineWidth := .undef, blendFuncSeparate := none
    clearColor := none, colorMask := none, clearDepth := .undef, depthMask := .undef
    depthRange := none, polygonOffset := none, sampleCoverage := none, scissor := none
    stencilFunc := none, stencilOp := none, stencilMask := .undef, clearStencil := .undef
    stencilBackFunc := none, stencilBackOp := none, stencilBackMask := .undef
    framebuffer := none, drawingBuffer := none, readingBuffer := none
    lastDrawBufferBound := .undef, lastReadBufferBound := .undef }

/-- A patch `sgl` with every field absent. -/
def PatchSgl.empty : PatchSgl :=
  { activeProgram := .undef, vertexArrayBinding := .undef, elementArrayBufferBinding := .undef
    arrayBufferBinding := .undef, uniformBufferBinding := .undef, textures := none }

/-- A snapshot passed to `gl.setState`: the same object, read as a patch. -/
def Snapshot.toPatch (b : Snapshot) : Patch :=
  { sgl := some
      { activeProgram := b.sgl.activeProgram
        vertexArrayBinding := b.sgl.vertexArrayBinding
        elementArrayBufferBinding := b.sgl.elementArrayBufferBinding
        arrayBufferBinding := b.sgl.arrayBufferBinding
        uniformBufferBinding := b.sgl.uniformBufferBinding
        textures := some b.sgl.textures }
    state := some
      { feats := some b.state.feats, storei := some b.state.storei
        activeTexture := b.state.activeTexture
        viewport := some b.state.viewport, blendColor := some b.state.blendColor
        blendEquationRgb := b.state.blendEquationRgb, blendEquationAlpha := b.state.blendEquationAlpha
        cullFaceMode := b.state.cullFaceMode, depthFunc := b.state.depthFunc
        frontFace := b.state.frontFace, lineWidth := b.state.lineWidth
        blendFuncSeparate := some b.state.blendFuncSeparate, clearColor := some b.state.clearColor
        colorMask := some b.state.colorMask, clearDepth := b.state.clearDepth
        depthMask := b.state.depthMask, depthRange := some b.state.depthRange
        polygonOffset := some b.state.polygonOffset, sampleCoverage := some b.state.sampleCoverage
        scissor := some b.state.scissor, stencilFunc := some b.state.stencilFunc
        stencilOp := some b.state.stencilOp, stencilMask := b.state.stencilMask
        clearStencil := b.state.clearStencil, stencilBackFunc := some b.state.stencilBackFunc
        stencilBackOp := some b.state.stencilBackOp, stencilBackMask := b.state.stencilBackMask
        framebuffer := none, drawingBuffer := none, readingBuffer := none
        lastDrawBufferBound := .undef, lastReadBufferBound := .undef } }

/-- The `if (sgl) { ... }` block of `setGLStatePartial`. -/
def setBindingsPartial (g : Gl) (sgl : PatchSgl) (s : Option PatchState) : Gl :=
  let g := if sgl.activeProgram.truthy then useProgram g sgl.activeProgram else g
  let g := if sgl.vertexArrayBinding ≠ .undef then bindVertexArray g sgl.vertexArrayBinding else g
  let g :=
    if sgl.vertexArrayBinding ≠ .undef ∧ sgl.elementArrayBufferBinding.truthy then
      bindBuffer g (.num ELEMENT_ARRAY_BUFFER) sgl.elementArrayBufferBinding
    else g
  let g := if sgl.arrayBufferBinding ≠ .undef then bindBuffer g (.num ARRAY_BUFFER) sgl.arrayBufferBinding else g
  let g :=
    if sgl.uniformBufferBinding ≠ .undef then bindBuffer g (.num UNIFORM_BUFFER) sgl.uniformBufferBinding
    else g
  let activeTex : Val :=
    match s with
    | some st => if st.activeTexture ≠ .undef then st.activeTexture else g.state.activeTexture
    | none => g.state.activeTexture
  match sgl.textures with
  | some textures => restoreTextureBindings g textures activeTex
  | none => g

/-- The setter calls of `setGLStatePartial` from `s.feats` to `s.stencilBackMask`. -/
def setValuesPartial (g : Gl) (s : PatchState) : Gl :=
  let g := match s.feats with
    | some feats => setGLFeaturesPartial g feats
    | none => g
  let g := match s.viewport with
    | some v => viewport g v.x0 v.x1 v.x2 v.x3
    | none => g
  let g := match s.blendColor with
    | some v => blendColor g v.x0 v.x1 v.x2 v.x3
    | none => g
  let g := if s.blendEquationRgb.truthy && s.blendEquationAlpha.truthy then
      blendEquationSeparate g s.blendEquationRgb s.blendEquationAlpha else g
  let g := if s.cullFaceMode ≠ .undef then cullFace g s.cullFaceMode else g
  let g := if s.depthFunc ≠ .undef then depthFunc g s.depthFunc else g
  let g := if s.frontFace ≠ .undef then frontFace g s.frontFace else g
  let g := if s.lineWidth ≠ .undef then lineWidth g s.lineWidth else g
  let g := match s.blendFuncSeparate with
    | some v => blendFuncSeparate g v.x0 v.x1 v.x2 v.x3
    | none => g
  let g := match s.clearColor with
    | some v => clearColor g v.x0 v.x1 v.x2 v.x3
    | none => g
  let g := match s.colorMask with
    | some v => colorMask g v.x0 v.x1 v.x2 v.x3
    | none => g
  let g := if s.clearDepth ≠ .undef then clearDepth g s.clearDepth else g
  let g := if s.depthMask ≠ .undef then depthMask g s.depthMask else g
  let g := match s.depthRange with
    | some v => depthRange g v.x0 v.x1
    | none => g
  let g := match s.polygonOffset with
    | some v => polygonOffset g v.x0 v.x1
    | none => g
  let g := match s.sampleCoverage with
    | some v => sampleCoverage g v.x0 v.x1
    | none => g
  let g := match s.scissor with
    | some v => scissor g v.x0 v.x1 v.x2 v.x3
    | none => g
  let g := match s.stencilFunc with
    | some v => stencilFunc g v.x0 v.x1 v.x2
    | none => g
  let g := match s.stencilOp with
    | some v => stencilOp g v.x0 v.x1 v.x2
    | none => g
  let g := if s.stencilMask.truthy then stencilMask g s.stencilMask else g
  let g := if s.clearStencil.truthy then clearStencil g s.clearStencil else g
  let g := match s.stencilBackFunc with
    | some v => stencilFuncSeparate g (.num BACK) v.x0 v.x1 v.x2
    | none => g
  let g := match s.stencilBackOp with
    | some v => stencilOpSeparate g (.num BACK) v.x0 v.x1 v.x2
    | none => g
  if s.stencilBackMask.truthy then stencilMaskSeparate g (.num BACK) s.stencilBackMask else g

/-- A call `bindFramebufferWithReadDrawConfig(gl, fbType, cfg)` whose `cfg` may be
`undefined`: reading `cfg.buffer` then throws before anything else happens. -/
def bindFramebufferConfigOpt (g : Gl) (fbType : Int) (cfg : Option FbPack) : Res Gl :=
  match cfg with
  | some c => bindFramebufferWithReadDrawConfig g fbType c
  | none => .thrown g

/-- The framebuffer binds at the end of `setGLStatePartial`. -/
def setFramebuffersPartial (g : Gl) (s : PatchState) : Res Gl :=
  (match s.framebuffer with
   | some fb =>
     if s.lastDrawBufferBound = fb.buffer ∧ s.lastReadBufferBound = fb.buffer then
       (bindFramebufferConfigOpt g DRAW_FRAMEBUFFER s.drawingBuffer).andThen fun g =>
       bindFramebufferConfigOpt g READ_FRAMEBUFFER s.readingBuffer
     else .ok g
   | none => .ok g).andThen fun g =>
  (match s.framebuffer with
   | some fb => bindFramebufferWithReadDrawConfig g FRAMEBUFFER fb
   | none => .ok g).andThen fun g =>
  (match s.drawingBuffer with
   | some db =>
     if s.lastDrawBufferBound = db.buffer then bindFramebufferWithReadDrawConfig g DRAW_FRAMEBUFFER db
     else .ok g
   | none => .ok g).andThen fun g =>
  match s.readingBuffer with
  | some rb =>
    if s.lastReadBufferBound = rb.buffer then bindFramebufferWithReadDrawConfig g READ_FRAMEBUFFER rb
    else .ok g
  | none => .ok g

/-- The function `setGLStatePartial`.  With `snapshot.state` absent, reading `s.feats` throws. -/
def setGLStatePartial (g : Gl) (snapshot : Patch) : Res Gl :=
  let g := match snapshot.sgl with
    | some sgl => setBindingsPartial g sgl snapshot.state
    | none => g
  match snapshot.state with
  | none => .thrown g
  | some s => setFramebuffersPartial (setValuesPartial g s) s

/-- The method `gl.setState`. -/
def setState (g : Gl) (snapshot : Patch) : Res Gl := setGLStatePartial g snapshot

/-! ## Defaults -/

/-- The function `resetWebGLCapabilities`. -/
def resetWebGLCapabilities (g : Gl) : Gl :=
  let g := disable g BLEND
  let g := disable g CULL_FACE
  let g := disable g DEPTH_TEST
  let g := disable g DITHER
  let g := disable g POLYGON_OFFSET_FILL
  let g := disable g SAMPLE_ALPHA_TO_COVERAGE
  let g := disable g SAMPLE_COVERAGE
  let g := disable g SCISSOR_TEST
  let g := disable g STENCIL_TEST
  disable g RASTERIZER_DISCARD

/-- The module-level function `resetToDefaults(gl)` (lines 650 to 679).  No call reaches
it: the only call written for it stands inside the method `gl.resetToDefaults`, a function
expression of the same name, where the name denotes the method itself. -/
def resetToDefaults (g : Gl) : Gl :=
  let g := resetWebGLCapabilities g
  let g := bindVertexArray g .null
  let g := blendColor g (.val (.num 0)) (.val (.num 0)) (.val (.num 0)) (.val (.num 0))
  let g := blendEquationSeparate g (.num FUNC_ADD) (.num FUNC_ADD)
  let g := cullFace g (.num BACK)
  let g := depthFunc g (.num LESS)
  let g := frontFace g (.num CCW)
  let g := lineWidth g (.num 1)
  let g := blendFuncSeparate g (.num SRC_ALPHA) (.num ONE_MINUS_SRC_ALPHA) (.num ONE) (.num ONE_MINUS_SRC_ALPHA)
  let g := clearColor g (.val (.num 0)) (.val (.num 0)) (.val (.num 0)) (.val (.num 1))
  let g := colorMask g (.bool true) (.bool true) (.bool true) (.bool true)
  let g := clearDepth g (.num 1)
  let g := depthMask g (.bool true)
  let g := depthRange g (.num 0) (.num 1)
  let g := polygonOffset g (.num 0) (.num 0)
  let g := sampleCoverage g (.num 1) (.bool false)
  let g := stencilFunc g (.num ALWAYS) (.num 1) (.num 255)
  let g := stencilOp g (.num KEEP) (.num KEEP) (.num KEEP)
  let g := stencilMask g (.num 255)
  let g := clearStencil g (.num 0)
  let g := stencilFuncSeparate g (.num BACK) (.num ALWAYS) (.num 1) (.num 255)
  let g := stencilOpSeparate g (.num BACK) (.num KEEP) (.num KEEP) (.num KEEP)
  stencilMaskSeparate g (.num BACK) (.num 255)

/-- The method `gl.resetToDefaults` (lines 598 to 600),
`function resetToDefaults() { resetToDefaults(gl) }`.  Inside a named function
expression the name is bound to the function itself, so the body calls the method again
(the argument is ignored) and never the module-level function.  The number `frames` is
the room left on the call stack; with none left the call throws a `RangeError`, which
every caller passes on.  Nothing else happens in the body. -/
def Gl.resetToDefaults (g : Gl) : (frames : Nat) → Res Gl
  | 0 => .thrown g
  | frames + 1 => Gl.resetToDefaults g frames

/-- The method `gl.defaultPixelStore`. -/
def defaultPixelStore (g : Gl) : Gl :=
  let g := if (g.state.storei.get UNPACK_FLIP_Y_WEBGL).truthy then
      pixelStorei g UNPACK_FLIP_Y_WEBGL (.bool false) else g
  let g := if (g.state.storei.get UNPACK_PREMULTIPLY_ALPHA_WEBGL).truthy then
      pixelStorei g UNPACK_PREMULTIPLY_ALPHA_WEBGL (.bool false) else g
  let g := if g.state.storei.get UNPACK_COLORSPACE_CONVERSION_WEBGL ≠ .num BROWSER_DEFAULT_WEBGL then
      pixelStorei g UNPACK_COLORSPACE_CONVERSION_WEBGL (.num BROWSER_DEFAULT_WEBGL) else g
  let g := if g.state.storei.get UNPACK_ALIGNMENT ≠ .num 4 then pixelStorei g UNPACK_ALIGNMENT (.num 4) else g
  if g.state.storei.get PACK_ALIGNMENT ≠ .num 4 then pixelStorei g PACK_ALIGNMENT (.num 4) else g

/-! ## Bootstrap

The unwrapped context is outside the source.  `RawContext` holds the answers it gives
to the queries of `slowFetchGLState`, one field per queried parameter; the answers
that depend on the texture unit or framebuffer just bound take it as an argument. -/

def TEXTURE_CUBE_MAP : Int := 34067
def TEXTURE_3D : Int := 32879
def TEXTURE_2D_ARRAY : Int := 35866

/-- The answers of the unwrapped context to the queries made at bootstrap. -/
structure RawContext where
  isEnabled : Nat → Bool
  pixelStoreParameter : Nat → Val
  ACTIVE_TEXTURE : Val
  VIEWPORT : Vec4
  BLEND_COLOR : Vec4F
  BLEND_EQUATION_RGB : Val
  BLEND_EQUATION_ALPHA : Val
  CULL_FACE_MODE : Val
  DEPTH_FUNC : Val
  FRONT_FACE : Val
  LINE_WIDTH : Val
  BLEND_SRC_RGB : Val
  BLEND_DST_RGB : Val
  BLEND_SRC_ALPHA : Val
  BLEND_DST_ALPHA : Val
  COLOR_CLEAR_VALUE : Vec4F
  COLOR_WRITEMASK : Vec4
  DEPTH_CLEAR_VALUE : Val
  DEPTH_WRITEMASK : Val
  DEPTH_RANGE : Vec2
  POLYGON_OFFSET_FACTOR : Val
  POLYGON_OFFSET_UNITS : Val
  SAMPLE_COVERAGE_VALUE : Val
  SAMPLE_COVERAGE_INVERT : Val
  SCISSOR_BOX : Vec4
  STENCIL_FUNC : Val
  STENCIL_REF : Val
  STENCIL_VALUE_MASK : Val
  STENCIL_FAIL : Val
  STENCIL_PASS_DEPTH_FAIL : Val
  STENCIL_PASS_DEPTH_PASS : Val
  STENCIL_WRITEMASK : Val
  STENCIL_CLEAR_VALUE : Val
  STENCIL_BACK_FUNC : Val
  STENCIL_BACK_REF : Val
  STENCIL_BACK_VALUE_MASK : Val
  STENCIL_BACK_FAIL : Val
  STENCIL_BACK_PASS_DEPTH_FAIL : Val
  STENCIL_BACK_PASS_DEPTH_PASS : Val
  STENCIL_BACK_WRITEMASK : Val
  CURRENT_PROGRAM : Handle
  ARRAY_BUFFER_BINDING : Handle
  ELEMENT_ARRAY_BUFFER_BINDING : Handle
  UNIFORM_BUFFER_BINDING : Handle
  VERTEX_ARRAY_BINDING : Handle
  FRAMEBUFFER_BINDING : Handle
  READ_FRAMEBUFFER_BINDING : Handle
  DRAW_FRAMEBUFFER_BINDING : Handle
  READ_BUFFER : Handle → Val
  DRAW_BUFFER : Handle → Nat → Val
  MAX_DRAW_BUFFERS : Nat
  MAX_TEXTURE_IMAGE_UNITS : Nat
  TEXTURE_BINDING_2D : Nat → Handle
  TEXTURE_BINDING_CUBE_MAP : Nat → Handle
  TEXTURE_BINDING_3D : Nat → Handle
  TEXTURE_BINDING_2D_ARRAY : Nat → Handle

/-- The function `saveGLFeatures`. -/
def saveGLFeatures (raw : RawContext) : JSMap :=
  [BLEND, CULL_FACE, DEPTH_TEST, DITHER, POLYGON_OFFSET_FILL, SAMPLE_ALPHA_TO_COVERAGE,
    SAMPLE_COVERAGE, SCISSOR_TEST, STENCIL_TEST].foldl
    (fun featuresState capability => JSMap.set featuresState capability (.bool (raw.isEnabled capability)))
    []

/-- The function `saveStorei`. -/
def saveStorei (raw : RawContext) : JSMap :=
  [PACK_ALIGNMENT, UNPACK_ALIGNMENT, UNPACK_FLIP_Y_WEBGL, UNPACK_PREMULTIPLY_ALPHA_WEBGL,
    UNPACK_COLORSPACE_CONVERSION_WEBGL, UNPACK_ROW_LENGTH, UNPACK_SKIP_ROWS, UNPACK_SKIP_PIXELS,
    PACK_ROW_LENGTH, PACK_SKIP_PIXELS, PACK_SKIP_ROWS].foldl
    (fun storei feature => JSMap.set storei feature (raw.pixelStoreParameter feature))
    []

/-- The function `glPackFramebuffer`. -/
def glPackFramebuffer (raw : RawContext) (pxbuffer : Handle) (type : Int) : FbPack :=
  if pxbuffer ≠ .null then
    { buffer := pxbuffer
      readBuffer :=
        if type = FRAMEBUFFER ∨ type = READ_FRAMEBUFFER then raw.READ_BUFFER pxbuffer else .undef
      drawBuffers :=
        if type = FRAMEBUFFER ∨ type = DRAW_FRAMEBUFFER then
          some ((List.range raw.MAX_DRAW_BUFFERS).map (raw.DRAW_BUFFER pxbuffer))
        else none }
  else ⟨pxbuffer, .undef, none⟩

/-- The function `getBoundTextures`. -/
def getBoundTextures (raw : RawContext) : List TexEntry :=
  (List.range raw.MAX_TEXTURE_IMAGE_UNITS).map fun i =>
    if (raw.TEXTURE_BINDING_2D i).truthy then .pair (.num TEXTURE_2D) (raw.TEXTURE_BINDING_2D i)
    else if (raw.TEXTURE_BINDING_CUBE_MAP i).truthy then
      .pair (.num TEXTURE_CUBE_MAP) (raw.TEXTURE_BINDING_CUBE_MAP i)
    else if (raw.TEXTURE_BINDING_3D i).truthy then .pair (.num TEXTURE_3D) (raw.TEXTURE_BINDING_3D i)
    else if (raw.TEXTURE_BINDING_2D_ARRAY i).truthy then
      .pair (.num TEXTURE_2D_ARRAY) (raw.TEXTURE_BINDING_2D_ARRAY i)
    else .null

/-- The stencil write mask as `slowFetchGLState` stores it. -/
def widenStencilMask (reported : Val) : Val :=
  if reported = .num 0x7FFFFFFF then .num 0xFFFFFFFF else reported

/-- The function `slowFetchGLState`, run on the unwrapped context. -/
def slowFetchGLState (raw : RawContext) : Snapshot :=
  let readingBuffer := glPackFramebuffer raw raw.READ_FRAMEBUFFER_BINDING READ_FRAMEBUFFER
  let drawingBuffer := glPackFramebuffer raw raw.DRAW_FRAMEBUFFER_BINDING DRAW_FRAMEBUFFER
  { state :=
      { feats := saveGLFeatures raw
        storei := saveStorei raw
        activeTexture := if raw.ACTIVE_TEXTURE.truthy then raw.ACTIVE_TEXTURE else .num TEXTURE0
        viewport := raw.VIEWPORT
        blendColor := raw.BLEND_COLOR.asFloat32Array
        blendEquationRgb := raw.BLEND_EQUATION_RGB
        blendEquationAlpha := raw.BLEND_EQUATION_ALPHA
        cullFaceMode := raw.CULL_FACE_MODE
        depthFunc := raw.DEPTH_FUNC
        frontFace := raw.FRONT_FACE
        lineWidth := raw.LINE_WIDTH
        blendFuncSeparate := ⟨raw.BLEND_SRC_RGB, raw.BLEND_DST_RGB, raw.BLEND_SRC_ALPHA, raw.BLEND_DST_ALPHA⟩
        clearColor := raw.COLOR_CLEAR_VALUE.asFloat32Array
        colorMask := raw.COLOR_WRITEMASK
        clearDepth := raw.DEPTH_CLEAR_VALUE
        depthMask := raw.DEPTH_WRITEMASK
        depthRange := raw.DEPTH_RANGE
        polygonOffset := ⟨raw.POLYGON_OFFSET_FACTOR, raw.POLYGON_OFFSET_UNITS⟩
        sampleCoverage := ⟨raw.SAMPLE_COVERAGE_VALUE, raw.SAMPLE_COVERAGE_INVERT⟩
        scissor := raw.SCISSOR_BOX.asInt32Array
        stencilFunc := ⟨raw.STENCIL_FUNC, raw.STENCIL_REF, raw.STENCIL_VALUE_MASK⟩
        stencilOp := ⟨raw.STENCIL_FAIL, raw.STENCIL_PASS_DEPTH_FAIL, raw.STENCIL_PASS_DEPTH_PASS⟩
        stencilMask := widenStencilMask raw.STENCIL_WRITEMASK
        clearStencil := raw.STENCIL_CLEAR_VALUE
        stencilBackFunc := ⟨raw.STENCIL_BACK_FUNC, raw.STENCIL_BACK_REF, raw.STENCIL_BACK_VALUE_MASK⟩
        stencilBackOp :=
          ⟨raw.STENCIL_BACK_FAIL, raw.STENCIL_BACK_PASS_DEPTH_FAIL, raw.STENCIL_BACK_PASS_DEPTH_PASS⟩
        stencilBackMask := widenStencilMask raw.STENCIL_BACK_WRITEMASK }
    sgl :=
      { activeProgram := raw.CURRENT_PROGRAM
        arrayBufferBinding := raw.ARRAY_BUFFER_BINDING
        elementArrayBufferBinding := raw.ELEMENT_ARRAY_BUFFER_BINDING
        uniformBufferBinding := raw.UNIFORM_BUFFER_BINDING
        vertexArrayBinding := raw.VERTEX_ARRAY_BINDING
        framebuffer := glPackFramebuffer raw raw.FRAMEBUFFER_BINDING FRAMEBUFFER
        readingBuffer := readingBuffer
        drawingBuffer := drawingBuffer
        lastReadBufferBound := readingBuffer.buffer
        lastDrawBufferBound := drawingBuffer.buffer
        textures := getBoundTextures raw
        boundFramebuffer := .undef
        boundReadingBuffer := .undef
        boundDrawingBuffer := .undef
        boundBufferTarget := .undef
        boundBuffer := .undef } }

/-- The list `gl.defaultDrawBuffers` as `enhanceWebGLContext` builds it. -/
def mkDefaultDrawBuffers (maxDrawBuffers : Nat) : List Val :=
  .num COLOR_ATTACHMENT0 :: List.replicate (maxDrawBuffers - 1) (.num NONE)

/-- The context after `slowFetchGLState` and `wrapStatefulGLFunctions`, before the
two `createState` calls of `enhanceWebGLContext`.  The properties `lastDrawBufferBound`
and `lastReadBufferBound` of `gl` itself do not exist yet. -/
def wrapStatefulGLFunctions (raw : RawContext) : Gl :=
  let fetched := slowFetchGLState raw
  let state : TrackedState := { fetched.state with activeTexture := .num TEXTURE0 }
  let sgl : Sgl := { fetched.sgl with
    boundFramebuffer := .null, boundReadingBuffer := .null, boundDrawingBuffer := .null }
  { state := state
    sgl := sgl
    lastDrawBufferBound := .undef
    lastReadBufferBound := .undef
    defaultDrawBuffers := mkDefaultDrawBuffers raw.MAX_DRAW_BUFFERS
    defaultState := ⟨state, sgl⟩
    savedState := ⟨state, sgl⟩
    fbProps := []
    nextId := 0
    log := [] }

/-- The function `enhanceWebGLContext` on a context not enhanced before. -/
def enhanceWebGLContext (raw : RawContext) : Gl :=
  let g := wrapStatefulGLFunctions raw
  match createState g with
  | some snapshot => { g with defaultState := snapshot, savedState := snapshot }
  | none => g

/-! ## Calls on the wrapped context -/

/-- A call of one of the setters that compare their arguments with the mirror. -/
inductive Setter where
  | viewport (x y width height : Val)
  | blendColor (red green blue alpha : Elem)
  | blendEquation (mode : Val)
  | blendEquationSeparate (modeRGB modeAlpha : Val)
  | blendFunc (sBoth dBoth : Val)
  | blendFuncSeparate (srcRGB dstRGB srcAlpha dstAlpha : Val)
  | cullFace (mode : Val)
  | frontFace (face : Val)
  | lineWidth (width : Val)
  | clearColor (red green blue alpha : Elem)
  | colorMask (red green blue alpha : Val)
  | clearDepth (depthValue : Val)
  | depthFunc (func : Val)
  | depthMask (flag : Val)
  | depthRange (near far : Val)
  | polygonOffset (factor units : Val)
  | sampleCoverage (value invert : Val)
  | scissor (x y width height : Val)
  | stencilFunc (func ref mask : Val)
  | stencilOp (fail zfail zpass : Val)
  | stencilMask (mask : Val)
  | clearStencil (s : Val)
  | pixelStorei (feat : Nat) (value : Val)
  | enable (feature : Nat)
  | disable (feature : Nat)
  | activeTexture (slot : Val)
  | useProgram (program : Handle)
  | bindVertexArray (vao : Handle)
  | stencilFuncSeparate (face func ref mask : Val)
  | stencilOpSeparate (face fail zfail zpass : Val)
  | stencilMaskSeparate (face mask : Val)
  deriving DecidableEq, Repr

/-- Running a setter call. -/
def Setter.run : Setter → Gl → Gl
  | .viewport x y w h, g => Multistate.viewport g x y w h
  | .blendColor r gr b a, g => Multistate.blendColor g r gr b a
  | .blendEquation m, g => Multistate.blendEquation g m
  | .blendEquationSeparate m a, g => Multistate.blendEquationSeparate g m a
  | .blendFunc s d, g => Multistate.blendFunc g s d
  | .blendFuncSeparate a b c d, g => Multistate.blendFuncSeparate g a b c d
  | .cullFace m, g => Multistate.cullFace g m
  | .frontFace f, g => Multistate.frontFace g f
  | .lineWidth w, g => Multistate.lineWidth g w
  | .clearColor r gr b a, g => Multistate.clearColor g r gr b a
  | .colorMask r gr b a, g => Multistate.colorMask g r gr b a
  | .clearDepth d, g => Multistate.clearDepth g d
  | .depthFunc f, g => Multistate.depthFunc g f
  | .depthMask f, g => Multistate.depthMask g f
  | .depthRange n f, g => Multistate.depthRange g n f
  | .polygonOffset f u, g => Multistate.polygonOffset g f u
  | .sampleCoverage v i, g => Multistate.sampleCoverage g v i
  | .scissor x y w h, g => Multistate.scissor g x y w h
  | .stencilFunc f r m, g => Multistate.stencilFunc g f r m
  | .stencilOp f z p, g => Multistate.stencilOp g f z p
  | .stencilMask m, g => Multistate.stencilMask g m
  | .clearStencil s, g => Multistate.clearStencil g s
  | .pixelStorei f v, g => Multistate.pixelStorei g f v
  | .enable f, g => Multistate.enable g f
  | .disable f, g => Multistate.disable g f
  | .activeTexture s, g => Multistate.activeTexture g s
  | .useProgram p, g => Multistate.useProgram g p
  | .bindVertexArray v, g => Multistate.bindVertexArray g v
  | .stencilFuncSeparate fc f r m, g => Multistate.stencilFuncSeparate g fc f r m
  | .stencilOpSeparate fc f z p, g => Multistate.stencilOpSeparate g fc f z p
  | .stencilMaskSeparate fc m, g => Multistate.stencilMaskSeparate g fc m

/-- The call a setter forwards to the original function when it forwards. -/
def Setter.call : Setter → Call
  | .viewport x y w h => .viewport x y w h
  | .blendColor r gr b a => .blendColor r gr b a
  | .blendEquation m => .blendEquation m
  | .blendEquationSeparate m a => .blendEquationSeparate m a
  | .blendFunc s d => .blendFunc s d
  | .blendFuncSeparate a b c d => .blendFuncSeparate a b c d
  | .cullFace m => .cullFace m
  | .frontFace f => .frontFace f
  | .lineWidth w => .lineWidth w
  | .clearColor r gr b a => .clearColor r gr b a
  | .colorMask r gr b a => .colorMask r gr b a
  | .clearDepth d => .clearDepth d
  | .depthFunc f => .depthFunc f
  | .depthMask f => .depthMask f
  | .depthRange n f => .depthRange n f
  | .polygonOffset f u => .polygonOffset f u
  | .sampleCoverage v i => .sampleCoverage v i
  | .scissor x y w h => .scissor x y w h
  | .stencilFunc f r m => .stencilFunc f r m
  | .stencilOp f z p => .stencilOp f z p
  | .stencilMask m => .stencilMask m
  | .clearStencil s => .clearStencil s
  | .pixelStorei f v => .pixelStorei f v
  | .enable f => .enable f
  | .disable f => .disable f
  | .activeTexture s => .activeTexture s
  | .useProgram p => .useProgram p
  | .bindVertexArray v => .bindVertexArray v
  | .stencilFuncSeparate fc f r m => .stencilFuncSeparate fc f r m
  | .stencilOpSeparate fc f z p => .stencilOpSeparate fc f z p
  | .stencilMaskSeparate fc m => .stencilMaskSeparate fc m

/-- A call on the wrapped context that can change it.  The methods `createState`,
`copyState` and `saveState` with a target leave the context as it is, and
`slowFetchState` acts on it only through `bindFramebuffer` and `activeTexture`. -/
inductive Op where
  | setter (c : Setter)
  | bindTexture (type : Val) (texture : Handle)
  | drawBuffers (buffers : Option (List Val))
  | readBuffer (buffer : Val)
  | bindFramebuffer (fbType : Val) (fb : Handle)
  | bindBuffer (target : Val) (buffer : Handle)
  | saveState
  | restoreState (snapshot : Option Snapshot)
  | setState (snapshot : Patch)
  | resetToDefaults (frames : Nat)
  | defaultPixelStore
  deriving DecidableEq, Repr

/-- Running a call; `saveState` is the call without argument, the only one that
writes the context (`gl.savedState`). -/
def Op.run : Op → Gl → Res Gl
  | .setter c, g => .ok (c.run g)
  | .bindTexture t x, g => .ok (Multistate.bindTexture g t x)
  | .drawBuffers bs, g => Multistate.drawBuffers g bs
  | .readBuffer b, g => Multistate.readBuffer g b
  | .bindFramebuffer t fb, g => .ok (Multistate.bindFramebuffer g t fb)
  | .bindBuffer t b, g => .ok (Multistate.bindBuffer g t b)
  | .saveState, g =>
    match Multistate.saveState g none with
    | .ok r => .ok r.1
    | .thrown r => .thrown r.1
  | .restoreState s, g => Multistate.restoreState g s
  | .setState p, g => Multistate.setState g p
  | .resetToDefaults frames, g => g.resetToDefaults frames
  | .defaultPixelStore, g => .ok (Multistate.defaultPixelStore g)

/-- Running calls one after the other; a call that throws leaves the context as it
was at the throw, and the caller goes on from there. -/
def runOps (g : Gl) (ops : List Op) : Gl := ops.foldl (fun g op => (op.run g).val) g

/-- The states of the wrapped context: those reached from a freshly enhanced context
by calls on it. -/
inductive Reachable : Gl → Prop where
  | init (raw : RawContext) : Reachable (enhanceWebGLContext raw)
  | step {g : Gl} (op : Op) : Reachable g → Reachable (op.run g).val

/-! ## Properties stated by the specification -/

/-- Whether a face selector names the front face. -/
def selectsFront (face : Val) : Prop := face = .num FRONT ∨ face = .num FRONT_AND_BACK

/-- Whether a face selector names the back face. -/
def selectsBack (face : Val) : Prop := face = .num BACK ∨ face = .num FRONT_AND_BACK

instance (face : Val) : Decidable (selectsFront face) := by unfold selectsFront; infer_instance

instance (face : Val) : Decidable (selectsBack face) := by unfold selectsBack; infer_instance

/-- Running a sequence of setter calls, first to last. -/
def runSetters (g : Gl) (cs : List Setter) : Gl := cs.foldl (fun g c => c.run g) g

/-- The colour array `a` after the compare-and-write of its wrapper called with the four
slots of `v`: left as it is when every slot compares equal, written in place otherwise. -/
def Vec4F.store (a v : Vec4F) : Vec4F :=
  if a.arr4Eq v.x0 v.x1 v.x2 v.x3 then a else a.set4 v.x0 v.x1 v.x2 v.x3

/-- The scissor array `a` after the compare-and-write of `gl.scissor` called with the
four slots of `v`. -/
def Vec4.storeInt32 (a v : Vec4) : Vec4 :=
  if arr4Eq a v.x0 v.x1 v.x2 v.x3 then a else set4Int32 a v.x0 v.x1 v.x2 v.x3

/-- One call of a wrapper that does not call another wrapper, or an assignment to
`gl.savedState`. -/
inductive Prim : Gl → Gl → Prop where
  | setter (c : Setter) (g : Gl) : Prim g (c.run g)
  | bindTexture (g : Gl) (type : Val) (texture : Handle) : Prim g (bindTexture g type texture)
  | bindFramebuffer (g : Gl) (fbType : Val) (fb : Handle) : Prim g (bindFramebuffer g fbType fb)
  | bindBuffer (g : Gl) (target : Val) (buffer : Handle) : Prim g (bindBuffer g target buffer)
  | drawBuffers (g : Gl) (buffers : Option (List Val)) : Prim g (drawBuffers g buffers).val
  | readBuffer (g : Gl) (buffer : Val) : Prim g (readBuffer g buffer).val
  | saved (g : Gl) (s : Snapshot) : Prim g { g with savedState := s }

/-- A finite sequence of such calls. -/
inductive Prims : Gl → Gl → Prop where
  | refl (g : Gl) : Prims g g
  | tail {g g1 g2 : Gl} : Prims g g1 → Prim g1 g2 → Prims g g2

/-- The invariant of the buffer and framebuffer bindings: the remembered last buffer
target agrees with the binding mirrored for it, and a draw or read slot that differs
from the combined slot is the one remembered as last bound. -/
def Gl.Inv (g : Gl) : Prop :=
  (g.sgl.boundBufferTarget = .num ARRAY_BUFFER → g.sgl.arrayBufferBinding = g.sgl.boundBuffer) ∧
  (g.sgl.boundBufferTarget = .num ELEMENT_ARRAY_BUFFER →
    g.sgl.elementArrayBufferBinding = g.sgl.boundBuffer) ∧
  (g.sgl.boundBufferTarget = .num UNIFORM_BUFFER → g.sgl.uniformBufferBinding = g.sgl.boundBuffer) ∧
  (g.sgl.boundDrawingBuffer ≠ g.sgl.boundFramebuffer →
    g.lastDrawBufferBound = g.sgl.boundDrawingBuffer) ∧
  (g.sgl.boundReadingBuffer ≠ g.sgl.boundFramebuffer →
    g.lastReadBufferBound = g.sgl.boundReadingBuffer)

/-- A framebuffer entry that `bindFramebufferWithReadDrawConfig` can apply: the handle
is `null` or an object, and an object comes with its draw-target list. -/
def FbPack.Complete (p : FbPack) (needsDrawBuffers : Bool) : Prop :=
  p.buffer ≠ .undef ∧ (needsDrawBuffers = true → p.buffer ≠ .null → p.drawBuffers ≠ none)

/-- A complete snapshot: its three framebuffer entries can be applied. -/
def Snapshot.Complete (b : Snapshot) : Prop :=
  b.sgl.framebuffer.Complete true ∧ b.sgl.drawingBuffer.Complete true ∧ b.sgl.readingBuffer.Complete false

instance (p : FbPack) (needsDrawBuffers : Bool) : Decidable (p.Complete needsDrawBuffers) := by
  unfold FbPack.Complete; infer_instance

instance (b : Snapshot) : Decidable b.Complete := by
  unfold Snapshot.Complete; infer_instance

instance (g : Gl) : Decidable g.Inv := by
  unfold Gl.Inv; infer_instance

/-! ## A concrete context

The answers of a WebGL 2 context in its initial state, with a drawing buffer of 300 by
150 pixels, 8 draw buffers and 16 texture units, and a stencil write mask reported as
`0x7FFFFFFF`. -/

def sampleRaw : RawContext where
  isEnabled := fun k => decide (k = DITHER)
  pixelStoreParameter := fun k =>
    if k = PACK_ALIGNMENT ∨ k = UNPACK_ALIGNMENT then .num 4
    else if k = UNPACK_FLIP_Y_WEBGL ∨ k = UNPACK_PREMULTIPLY_ALPHA_WEBGL then .bool false
    else if k = UNPACK_COLORSPACE_CONVERSION_WEBGL then .num BROWSER_DEFAULT_WEBGL
    else .num 0
  ACTIVE_TEXTURE := .num TEXTURE0
  VIEWPORT := ⟨.num 0, .num 0, .num 300, .num 150⟩
  BLEND_COLOR := ⟨.val (.num 0), .val (.num 0), .val (.num 0), .val (.num 0)⟩
  BLEND_EQUATION_RGB := .num FUNC_ADD
  BLEND_EQUATION_ALPHA := .num FUNC_ADD
  CULL_FACE_MODE := .num BACK
  DEPTH_FUNC := .num LESS
  FRONT_FACE := .num CCW
  LINE_WIDTH := .num 1
  BLEND_SRC_RGB := .num ONE
  BLEND_DST_RGB := .num 0
  BLEND_SRC_ALPHA := .num ONE
  BLEND_DST_ALPHA := .num 0
  COLOR_CLEAR_VALUE := ⟨.val (.num 0), .val (.num 0), .val (.num 0), .val (.num 0)⟩
  COLOR_WRITEMASK := ⟨.bool true, .bool true, .bool true, .bool true⟩
  DEPTH_CLEAR_VALUE := .num 1
  DEPTH_WRITEMASK := .bool true
  DEPTH_RANGE := ⟨.num 0, .num 1⟩
  POLYGON_OFFSET_FACTOR := .num 0
  POLYGON_OFFSET_UNITS := .num 0
  SAMPLE_COVERAGE_VALUE := .num 1
  SAMPLE_COVERAGE_INVERT := .bool false
  SCISSOR_BOX := ⟨.num 0, .num 0, .num 300, .num 150⟩
  STENCIL_FUNC := .num ALWAYS
  STENCIL_REF := .num 0
  STENCIL_VALUE_MASK := .num 0x7FFFFFFF
  STENCIL_FAIL := .num KEEP
  STENCIL_PASS_DEPTH_FAIL := .num KEEP
  STENCIL_PASS_DEPTH_PASS := .num KEEP
  STENCIL_WRITEMASK := .num 0x7FFFFFFF
  STENCIL_CLEAR_VALUE := .num 0
  STENCIL_BACK_FUNC := .num ALWAYS
  STENCIL_BACK_REF := .num 0
  STENCIL_BACK_VALUE_MASK := .num 0x7FFFFFFF
  STENCIL_BACK_FAIL := .num KEEP
  STENCIL_BACK_PASS_DEPTH_FAIL := .num KEEP
  STENCIL_BACK_PASS_DEPTH_PASS := .num KEEP
  STENCIL_BACK_WRITEMASK := .num 0x7FFFFFFF
  CURRENT_PROGRAM := .null
  ARRAY_BUFFER_BINDING := .null
  ELEMENT_ARRAY_BUFFER_BINDING := .null
  UNIFORM_BUFFER_BINDING := .null
  VERTEX_ARRAY_BINDING := .null
  FRAMEBUFFER_BINDING := .null
  READ_FRAMEBUFFER_BINDING := .null
  DRAW_FRAMEBUFFER_BINDING := .null
  READ_BUFFER := fun _ => .num BACK
  DRAW_BUFFER := fun _ i => if i = 0 then .num BACK else .num NONE
  MAX_DRAW_BUFFERS := 8
  MAX_TEXTURE_IMAGE_UNITS := 16
  TEXTURE_BINDING_2D := fun _ => .null
  TEXTURE_BINDING_CUBE_MAP := fun _ => .null
  TEXTURE_BINDING_3D := fun _ => .null
  TEXTURE_BINDING_2D_ARRAY := fun _ => .null

/-- The freshly enhanced sample context. -/
def sampleGl : Gl := enhanceWebGLContext sampleRaw

/-- The snapshot `gl.defaultState` of the sample context, taken by `createState` at
the end of `enhanceWebGLContext`. -/
def sampleSnapshot : Snapshot := sampleGl.defaultState

/-- The calls forwarded on the way from `g` to `g1`: what the log of `g1` holds beyond
the length of the log of `g`. -/
def forwarded (g g1 : Gl) : List Call := g1.log.drop g.log.length

/-- The calls forwarded between `g` and `g1` all satisfy `P`: the log of `g1` is the
log of `g` followed by calls that satisfy `P`. -/
def Forwards (P : Call → Prop) (g g1 : Gl) : Prop :=
  g1.log = g.log ++ forwarded g g1 ∧ ∀ c ∈ forwarded g g1, P c

/-- A `bindBuffer` call. -/
def Call.isBindBuffer : Call → Prop
  | .bindBuffer _ _ => True
  | _ => False

/-- A call of the framebuffer phase: `bindFramebuffer`, `drawBuffers` or `readBuffer`. -/
def Call.isFramebufferCall : Call → Prop
  | .bindFramebuffer _ _ => True
  | .drawBuffers _ => True
  | .readBuffer _ => True
  | _ => False

/-- The calls that `restoreState(createState())` may forward from state `g`: buffer
binds, the calls of the framebuffer phase, and the stencil setters of a stencil
parameter whose mirrored front and back values differ. -/
def Call.roundTripAllowed (g : Gl) : Call → Prop
  | .bindBuffer _ _ => True
  | .bindFramebuffer _ _ => True
  | .drawBuffers _ => True
  | .readBuffer _ => True
  | .stencilFunc _ _ _ => g.state.stencilFunc ≠ g.state.stencilBackFunc
  | .stencilFuncSeparate _ _ _ _ => g.state.stencilFunc ≠ g.state.stencilBackFunc
  | .stencilOp _ _ _ => g.state.stencilOp ≠ g.state.stencilBackOp
  | .stencilOpSeparate _ _ _ _ => g.state.stencilOp ≠ g.state.stencilBackOp
  | .stencilMask _ => g.state.stencilMask ≠ g.state.stencilBackMask
  | .stencilMaskSeparate _ _ => g.state.stencilMask ≠ g.state.stencilBackMask
  | _ => False

instance : DecidablePred Call.isBindBuffer := fun c => by
  cases c <;> simp only [Call.isBindBuffer] <;> infer_instance

instance : DecidablePred Call.isFramebufferCall := fun c => by
  cases c <;> simp only [Call.isFramebufferCall] <;> infer_instance

instance (g : Gl) : DecidablePred (Call.roundTripAllowed g) := fun c => by
  cases c <;> simp only [Call.roundTripAllowed] <;> infer_instance

instance (P : Call → Prop) [DecidablePred P] (g g1 : Gl) : Decidable (Forwards P g g1) := by
  unfold Forwards; infer_instance

/-- Running a sequence of `bindFramebuffer` calls, given as (target, handle) pairs. -/
def runBinds (g : Gl) (binds : List (Val × Handle)) : Gl :=
  binds.foldl (fun g p => bindFramebuffer g p.1 p.2) g

/-! ## Concrete calls used to evaluate the code -/

/-- The sample context after `gl.bindFramebuffer(gl.DRAW_FRAMEBUFFER, fb)` for a
framebuffer object `fb` (object 1). -/
def sampleDrawBound : Gl := bindFramebuffer sampleGl (.num DRAW_FRAMEBUFFER) (.obj 1)

/-- The sample context after `gl.enable(gl.RASTERIZER_DISCARD)`. -/
def sampleDiscarding : Gl := enable sampleGl RASTERIZER_DISCARD

/-- The patch `{ state: { stencilFunc: [gl.EQUAL, 1, 0xFF] } }`. -/
def patchStencilFunc : Patch :=
  { sgl := none
    state := some { PatchState.empty with stencilFunc := some ⟨.num 514, .num 1, .num 255⟩ } }

/-- The patch `{ state: { stencilMask: 0, stencilBackMask: 0, clearStencil: 0 },
sgl: { activeProgram: null } }`. -/
def patchZeroes : Patch :=
  { sgl := some { PatchSgl.empty with activeProgram := .null }
    state := some { PatchState.empty with
      stencilMask := .num 0, stencilBackMask := .num 0, clearStencil := .num 0 } }

/-- The sample context after `gl.useProgram(p)` for a program `p` (object 7) and
`gl.clearStencil(5)`. -/
def sampleBusy : Gl := clearStencil (useProgram sampleGl (.obj 7)) (.num 5)

/-- The patch `{ state: { storei: { [gl.UNPACK_ALIGNMENT]: 1 } } }`. -/
def patchStorei : Patch :=
  { sgl := none
    state := some { PatchState.empty with storei := some [(UNPACK_ALIGNMENT, .num 1)] } }

/-- A complete snapshot that differs from the sample context: line width 3 and a back
stencil function different from the front one. -/
def sampleOther : Snapshot :=
  { sampleSnapshot with
    state := { sampleSnapshot.state with
      lineWidth := .num 3, stencilBackFunc := ⟨.num 514, .num 1, .num 255⟩ } }

/-! ## Relations between two states of the context, used in the proofs -/

/-- Only `state.feats` and the log differ between `g` and `g1`. -/
def FeatsFrame (g g1 : Gl) : Prop :=
  g1 = { g with state := { g.state with feats := g1.state.feats }, log := g1.log }

/-- Only `state.storei` and the log differ between `g` and `g1`. -/
def StoreiFrame (g g1 : Gl) : Prop :=
  g1 = { g with state := { g.state with storei := g1.state.storei }, log := g1.log }

/-- Only `state` and the log differ between `g` and `g1`. -/
def StateFrame (g g1 : Gl) : Prop := g1 = { g with state := g1.state, log := g1.log }

/-- Between `g` and `g1` only the active texture unit, the texture slots and the log
differ. -/
def TexFrame (g g1 : Gl) : Prop :=
  g1 = { g with
    state := { g.state with activeTexture := g1.state.activeTexture }
    sgl := { g.sgl with textures := g1.sgl.textures }
    log := g1.log }

/-- Between `g` and `g1` only the framebuffer properties and the log differ. -/
def PropsFrame (g g1 : Gl) : Prop := g1 = { g with fbProps := g1.fbProps, log := g1.log }

/-- The slots and the last-bound memory of `g1` are those of `g` after binding `fb` to
the targets named: combined (`c`), draw (`d`), read (`r`). -/
def Rebound (g g1 : Gl) (c d r : Bool) (fb : Handle) : Prop :=
  g1.state = g.state ∧
  g1.sgl = { g.sgl with
    boundFramebuffer := if c then fb else g.sgl.boundFramebuffer
    boundDrawingBuffer := if d then fb else g.sgl.boundDrawingBuffer
    boundReadingBuffer := if r then fb else g.sgl.boundReadingBuffer } ∧
  g1.lastDrawBufferBound = (if d then fb else g.lastDrawBufferBound) ∧
  g1.lastReadBufferBound = (if r then fb else g.lastReadBufferBound)

/-! ## Further concrete calls used to evaluate the code -/

/-- The sample context after `gl.bindFramebuffer(gl.FRAMEBUFFER, fb)` for a
framebuffer object `fb` (object 1). -/
def sampleFbBound : Gl := bindFramebuffer sampleGl (.num FRAMEBUFFER) (.obj 1)

/-- The sample context after `gl.bindBuffer(gl.ARRAY_BUFFER, a)` and
`gl.bindBuffer(gl.UNIFORM_BUFFER, u)` for two buffers `a` (object 1) and `u` (object 2). -/
def sampleTwoBuffers : Gl :=
  bindBuffer (bindBuffer sampleGl (.num ARRAY_BUFFER) (.obj 1)) (.num UNIFORM_BUFFER) (.obj 2)

/-- The sample context after `gl.activeTexture(gl.TEXTURE0 + 3)`. -/
def sampleUnit3 : Gl := activeTexture sampleGl (.num (TEXTURE0 + 3))

/-- The answers of a context like the sample one that reports 32 texture image units. -/
def sampleRaw32 : RawContext := { sampleRaw with MAX_TEXTURE_IMAGE_UNITS := 32 }

/-- The freshly enhanced context with 32 texture image units. -/
def sampleGl32 : Gl := enhanceWebGLContext sampleRaw32

/-- The snapshot `gl.defaultState` of the context with 32 units, taken by `createState`
at the end of `enhanceWebGLContext`. -/
def sampleSnapshot32 : Snapshot := sampleGl32.defaultState

/-- The context with 32 units after binding a texture (object 5) on unit 3 and another
(object 6) on unit 20. -/
def sampleTwoTextures : Gl :=
  bindTexture
    (activeTexture
      (bindTexture (activeTexture sampleGl32 (.num (TEXTURE0 + 3))) (.num TEXTURE_2D) (.obj 5))
      (.num (TEXTURE0 + 20)))
    (.num TEXTURE_2D) (.obj 6)

/-- The sample context after binding a framebuffer (object 1) to the combined target
and a texture (object 5) on unit 0. -/
def sampleLive : Gl := bindTexture sampleFbBound (.num TEXTURE_2D) (.obj 5)

/-! ## Exact values -/

/-- Whether a value is exact: a number or a boolean (not `undefined`, not `null`). -/
def Val.exact : Val → Bool
  | .num _ => true
  | .bool _ => true
  | _ => false

/-- Every slot of the array is exact. -/
def Vec2.exact (v : Vec2) : Bool := v.x0.exact && v.x1.exact

/-- Every slot of the array is exact. -/
def Vec3.exact (v : Vec3) : Bool := v.x0.exact && v.x1.exact && v.x2.exact

/-- Every slot of the array is exact. -/
def Vec4.exact (v : Vec4) : Bool := v.x0.exact && v.x1.exact && v.x2.exact && v.x3.exact

/-- Whether a slot of a colour array is exact: an exact value, not NaN and not an
infinity. -/
def Elem.exact : Elem → Bool
  | .val v => v.exact
  | _ => false

/-- Every slot of the colour array is exact. -/
def Vec4F.exact (v : Vec4F) : Bool := v.x0.exact && v.x1.exact && v.x2.exact && v.x3.exact

/-- Every key of the mapping holds an exact value. -/
def JSMap.exact (m : JSMap) : Bool := m.all (fun kv => kv.2.exact)

/-- The tracked state holds exact values only: every mapping key, scalar and vector
slot is a finite number or a boolean. -/
def TrackedState.Exact (s : TrackedState) : Prop :=
  s.feats.exact = true ∧ s.storei.exact = true ∧ s.activeTexture.exact = true ∧
  s.viewport.exact = true ∧ s.blendColor.exact = true ∧ s.blendEquationRgb.exact = true ∧
  s.blendEquationAlpha.exact = true ∧ s.cullFaceMode.exact = true ∧ s.depthFunc.exact = true ∧
  s.frontFace.exact = true ∧ s.lineWidth.exact = true ∧ s.blendFuncSeparate.exact = true ∧
  s.clearColor.exact = true ∧ s.colorMask.exact = true ∧ s.clearDepth.exact = true ∧
  s.depthMask.exact = true ∧ s.depthRange.exact = true ∧ s.polygonOffset.exact = true ∧
  s.sampleCoverage.exact = true ∧ s.scissor.exact = true ∧ s.stencilFunc.exact = true ∧
  s.stencilOp.exact = true ∧ s.stencilMask.exact = true ∧ s.clearStencil.exact = true ∧
  s.stencilBackFunc.exact = true ∧ s.stencilBackOp.exact = true ∧ s.stencilBackMask.exact = true

instance (s : TrackedState) : Decidable s.Exact := by
  unfold TrackedState.Exact; infer_instance

/-! ## The order of the calls a full restore forwards -/

/-- The part of `setGLState` that forwards a call: 0 for the program, vertex-array and
buffer binds, 1 for the capability, pixel-store and scalar setters, 2 for the framebuffer
calls (`bindFramebuffer`, `drawBuffers`, `readBuffer`), 3 for the texture calls
(`activeTexture`, `bindTexture`). -/
def Call.phase : Call → Nat
  | .useProgram _ => 0
  | .bindVertexArray _ => 0
  | .bindBuffer _ _ => 0
  | .bindFramebuffer _ _ => 2
  | .drawBuffers _ => 2
  | .readBuffer _ => 2
  | .activeTexture _ => 3
  | .bindTexture _ _ => 3
  | _ => 1

/-- The place of a bind among the binds that open `setGLState`: program, vertex array,
array buffer, uniform buffer. -/
def Call.bindRank : Call → Nat
  | .useProgram _ => 0
  | .bindVertexArray _ => 1
  | .bindBuffer t _ => if t = .num ARRAY_BUFFER then 2 else if t = .num UNIFORM_BUFFER then 3 else 4
  | _ => 5

/-- A bind of the combined framebuffer target. -/
def Call.isCombinedBind : Call → Prop
  | .bindFramebuffer t _ => t = .num FRAMEBUFFER
  | _ => False

/-- A bind of the draw-only or of the read-only framebuffer target. -/
def Call.isSideBind : Call → Prop
  | .bindFramebuffer t _ => t = .num DRAW_FRAMEBUFFER ∨ t = .num READ_FRAMEBUFFER
  | _ => False

/-- A `bindBuffer` call on the element-array-buffer target. -/
def Call.isElementArrayBind : Call → Prop
  | .bindBuffer t _ => t = .num ELEMENT_ARRAY_BUFFER
  | _ => False

instance : DecidablePred Call.isCombinedBind := fun c => by
  cases c <;> simp only [Call.isCombinedBind] <;> infer_instance

instance : DecidablePred Call.isSideBind := fun c => by
  cases c <;> simp only [Call.isSideBind] <;> infer_instance

instance : DecidablePred Call.isElementArrayBind := fun c => by
  cases c <;> simp only [Call.isElementArrayBind] <;> infer_instance

/-- The call `a` may come before the call `b` among the calls of one full restore: `a`
belongs to the same or an earlier part; two opening binds come in the order program,
vertex array, array buffer, uniform buffer; and a bind of the combined framebuffer
target does not follow a bind of the draw-only or read-only target. -/
def Call.restoreOrdered (a b : Call) : Prop :=
  a.phase ≤ b.phase ∧ (a.phase = 0 ∧ b.phase = 0 → a.bindRank < b.bindRank) ∧
    ¬ (a.isSideBind ∧ b.isCombinedBind)

instance (a b : Call) : Decidable (a.restoreOrdered b) := by
  unfold Call.restoreOrdered; infer_instance

/-! ## More concrete calls used to evaluate the code -/

/-- The context `sampleFbBound` (framebuffer object 1 bound to the combined target)
after `gl.readBuffer(gl.NONE)`. -/
def sampleReadNone : Gl := (readBuffer sampleFbBound (.num NONE)).val

/-- The context `sampleFbBound` after `gl.readBuffer(gl.COLOR_ATTACHMENT1)` and
`gl.drawBuffers([gl.NONE, gl.COLOR_ATTACHMENT1])`. -/
def sampleReadAttachment1 : Gl :=
  (drawBuffers (readBuffer sampleFbBound (.num (COLOR_ATTACHMENT0 + 1))).val
    (some [.num NONE, .num (COLOR_ATTACHMENT0 + 1)])).val

/-- The patch `{ sgl: { activeProgram: p } }` for a program `p` (object 7): a bindings
part and no state part. -/
def patchProgramOnly : Patch :=
  { sgl := some { PatchSgl.empty with activeProgram := .obj 7 }, state := none }

/-! ## Framebuffer calls and the binds before them -/

/-- Whether every `drawBuffers` call of the list is made while the handle last bound to
a target covering the draw framebuffer (`FRAMEBUFFER` or `DRAW_FRAMEBUFFER`) is an
object, and every `readBuffer` call while the handle last bound to a target covering the
read framebuffer (`FRAMEBUFFER` or `READ_FRAMEBUFFER`) is an object.  The flags `draw`
and `read` say whether this is so before the first call of the list. -/
def Call.coveredFrom : Bool → Bool → List Call → Bool
  | _, _, [] => true
  | draw, read, .bindFramebuffer t fb :: cs =>
    Call.coveredFrom
      (if t = .num FRAMEBUFFER ∨ t = .num DRAW_FRAMEBUFFER then fb.truthy else draw)
      (if t = .num FRAMEBUFFER ∨ t = .num READ_FRAMEBUFFER then fb.truthy else read) cs
  | draw, read, .drawBuffers _ :: cs => draw && Call.coveredFrom draw read cs
  | draw, read, .readBuffer _ :: cs => read && Call.coveredFrom draw read cs
  | draw, read, _ :: cs => Call.coveredFrom draw read cs

/-! ## Further concrete values used to evaluate the code -/

/-- The snapshot that `createState()` returns on the context `sampleReadAttachment1`:
framebuffer object 1 on all three targets, read source `COLOR_ATTACHMENT1`, draw-target
list `[NONE, COLOR_ATTACHMENT1]`. -/
def sampleAttachmentSnapshot : Snapshot :=
  (createState sampleReadAttachment1).getD sampleSnapshot

/-- The context `sampleReadAttachment1` after binding a second framebuffer (object 2) to
the draw-only target and a texture (object 5) on unit 0. -/
def sampleTwoFramebuffers : Gl :=
  bindTexture (bindFramebuffer sampleReadAttachment1 (.num DRAW_FRAMEBUFFER) (.obj 2))
    (.num TEXTURE_2D) (.obj 5)

/-! ## Concrete values for the typed-array mirrors and the reset method -/

/-- The complete snapshot `sampleSnapshot` with `[0, 0, 2147483648, 1]` both as its
viewport and as its scissor box. -/
def sampleWideBox : Snapshot :=
  { sampleSnapshot with
    state := { sampleSnapshot.state with
      viewport := ⟨.num 0, .num 0, .num 2147483648, .num 1⟩
      scissor := ⟨.num 0, .num 0, .num 2147483648, .num 1⟩ } }

/-- The sample context after `gl.clearColor(1e39, 0, 0, 1)`: a red value beyond the
range of a `Float32Array` slot. -/
def sampleOverflowColor : Gl :=
  clearColor sampleGl (.val (.num 1000000000000000000000000000000000000000)) (.val (.num 0))
    (.val (.num 0)) (.val (.num 1))

/-- The snapshot that `createState()` returns on the context `sampleOverflowColor`. -/
def sampleOverflowSnapshot : Snapshot :=
  (createState sampleOverflowColor).getD sampleSnapshot

/-- The sample context after binding three framebuffer objects, one to each of the
targets `FRAMEBUFFER`, `DRAW_FRAMEBUFFER` and `READ_FRAMEBUFFER`. -/
def sampleThreeBound : Gl :=
  bindFramebuffer
    (bindFramebuffer (bindFramebuffer sampleGl (.num FRAMEBUFFER) (.obj 1))
      (.num DRAW_FRAMEBUFFER) (.obj 2))
    (.num READ_FRAMEBUFFER) (.obj 3)

/-- The context `sampleThreeBound` after `gl.viewport(undefined, 0, 300, 150)` and
`gl.clearColor(undefined, 0, 0, 1)`. -/
def sampleUndefinedColor : Gl :=
  clearColor (viewport sampleThreeBound .undef (.num 0) (.num 300) (.num 150))
    (.val .undef) (.val (.num 0)) (.val (.num 0)) (.val (.num 1))

/-- The snapshot that `createState()` returns on the context `sampleUndefinedColor`. -/
def sampleUndefinedColorSnapshot : Snapshot :=
  (createState sampleUndefinedColor).getD sampleSnapshot

/-- The sample context after `gl.stencilMask(5)`. -/
def sampleMask5 : Gl := stencilMask sampleGl (.num 5)

/-! ## Closed forms of the setters -/

theorem arr3Eq_iff (a : Vec3) (p0 p1 p2 : Val) : arr3Eq a p0 p1 p2 = true ↔ a = ⟨p0, p1, p2⟩ := by
  cases a; simp [arr3Eq, and_assoc]

theorem arr3Eq_false_iff (a : Vec3) (p0 p1 p2 : Val) : arr3Eq a p0 p1 p2 = false ↔ ¬ a = ⟨p0, p1, p2⟩ := by
  rw [← arr3Eq_iff]; simp

theorem arr4Eq_iff (a : Vec4) (p0 p1 p2 p3 : Val) :
    arr4Eq a p0 p1 p2 p3 = true ↔ a = ⟨p0, p1, p2, p3⟩ := by
  cases a; simp [arr4Eq, and_assoc]

theorem vec2_eq_iff (a : Vec2) (p0 p1 : Val) : (a.x0 = p0 ∧ a.x1 = p1) ↔ a = ⟨p0, p1⟩ := by
  cases a; simp

theorem viewport_eq (g : Gl) (x y w h : Val) :
    viewport g x y w h =
      { g with
        state := { g.state with viewport := ⟨x, y, w, h⟩ }
        log := if g.state.viewport = ⟨x, y, w, h⟩ then g.log else g.log ++ [.viewport x y w h] } := by
  by_cases hm : g.state.viewport = ⟨x, y, w, h⟩
  · simp only [viewport, arr4Eq_iff, hm, if_true]
    rw [← hm]
  · simp [viewport, arr4Eq_iff, set4, Gl.forward, hm]

theorem blendColor_eq (g : Gl) (x y w h : Elem) :
    blendColor g x y w h =
      { g with
        state := { g.state with
          blendColor := if g.state.blendColor.arr4Eq x y w h then g.state.blendColor
            else ⟨x.toFloat32, y.toFloat32, w.toFloat32, h.toFloat32⟩ }
        log := if g.state.blendColor.arr4Eq x y w h then g.log else g.log ++ [.blendColor x y w h] } := by
  by_cases hm : g.state.blendColor.arr4Eq x y w h = true
  · simp [blendColor, hm]
  · simp [blendColor, Vec4F.set4, Gl.forward, hm]

theorem blendFunc_eq (g : Gl) (s d : Val) :
    blendFunc g s d =
      { g with
        state := { g.state with blendFuncSeparate := ⟨s, d, s, d⟩ }
        log := if g.state.blendFuncSeparate = ⟨s, d, s, d⟩ then g.log else g.log ++ [.blendFunc s d] } := by
  by_cases hm : g.state.blendFuncSeparate = ⟨s, d, s, d⟩
  · simp only [blendFunc, arr4Eq_iff, hm, if_true]
    rw [← hm]
  · simp [blendFunc, arr4Eq_iff, set4, Gl.forward, hm]

theorem blendFuncSeparate_eq (g : Gl) (x y w h : Val) :
    blendFuncSeparate g x y w h =
      { g with
        state := { g.state with blendFuncSeparate := ⟨x, y, w, h⟩ }
        log := if g.state.blendFuncSeparate = ⟨x, y, w, h⟩ then g.log else g.log ++ [.blendFuncSeparate x y w h] } := by
  by_cases hm : g.state.blendFuncSeparate = ⟨x, y, w, h⟩
  · simp only [blendFuncSeparate, arr4Eq_iff, hm, if_true]
    rw [← hm]
  · simp [blendFuncSeparate, arr4Eq_iff, set4, Gl.forward, hm]

theorem clearColor_eq (g : Gl) (x y w h : Elem) :
    clearColor g x y w h =
      { g with
        state := { g.state with
          clearColor := if g.state.clearColor.arr4Eq x y w h then g.state.clearColor
            else ⟨x.toFloat32, y.toFloat32, w.toFloat32, h.toFloat32⟩ }
        log := if g.state.clearColor.arr4Eq x y w h then g.log else g.log ++ [.clearColor x y w h] } := by
  by_cases hm : g.state.clearColor.arr4Eq x y w h = true
  · simp [clearColor, hm]
  · simp [clearColor, Vec4F.set4, Gl.forward, hm]

theorem colorMask_eq (g : Gl) (x y w h : Val) :
    colorMask g x y w h =
      { g with
        state := { g.state with colorMask := ⟨x, y, w, h⟩ }
        log := if g.state.colorMask = ⟨x, y, w, h⟩ then g.log else g.log ++ [.colorMask x y w h] } := by
  by_cases hm : g.state.colorMask = ⟨x, y, w, h⟩
  · simp only [colorMask, arr4Eq_iff, hm, if_true]
    rw [← hm]
  · simp [colorMask, arr4Eq_iff, set4, Gl.forward, hm]

theorem scissor_eq (g : Gl) (x y w h : Val) :
    scissor g x y w h =
      { g with
        state := { g.state with
          scissor := if g.state.scissor = ⟨x, y, w, h⟩ then g.state.scissor
            else ⟨x.toInt32, y.toInt32, w.toInt32, h.toInt32⟩ }
        log := if g.state.scissor = ⟨x, y, w, h⟩ then g.log else g.log ++ [.scissor x y w h] } := by
  by_cases hm : g.state.scissor = ⟨x, y, w, h⟩
  · simp only [scissor, arr4Eq_iff, hm, if_true]
    rw [← hm]
  · simp [scissor, arr4Eq_iff, set4Int32, Gl.forward, hm]

theorem cullFace_eq (g : Gl) (v : Val) :
    cullFace g v =
      { g with
        state := { g.state with cullFaceMode := v }
        log := if g.state.cullFaceMode = v then g.log else g.log ++ [.cullFace v] } := by
  by_cases hm : g.state.cullFaceMode = v
  · simp only [cullFace, hm, if_true]
    rw [← hm]
  · simp [cullFace, Gl.forward, hm]

theorem frontFace_eq (g : Gl) (v : Val) :
    frontFace g v =
      { g with
        state := { g.state with frontFace := v }
        log := if g.state.frontFace = v then g.log else g.log ++ [.frontFace v] } := by
  by_cases hm : g.state.frontFace = v
  · simp only [frontFace, hm, if_true]
    rw [← hm]
  · simp [frontFace, Gl.forward, hm]

theorem lineWidth_eq (g : Gl) (v : Val) :
    lineWidth g v =
      { g with
        state := { g.state with lineWidth := v }
        log := if g.state.lineWidth = v then g.log else g.log ++ [.lineWidth v] } := by
  by_cases hm : g.state.lineWidth = v
  · simp only [lineWidth, hm, if_true]
    rw [← hm]
  · simp [lineWidth, Gl.forward, hm]

theorem clearDepth_eq (g : Gl) (v : Val) :
    clearDepth g v =
      { g with
        state := { g.state with clearDepth := v }
        log := if g.state.clearDepth = v then g.log else g.log ++ [.clearDepth v] } := by
  by_cases hm : g.state.clearDepth = v
  · simp only [clearDepth, hm, if_true]
    rw [← hm]
  · simp [clearDepth, Gl.forward, hm]

theorem depthFunc_eq (g : Gl) (v : Val) :
    depthFunc g v =
      { g with
        state := { g.state with depthFunc := v }
        log := if g.state.depthFunc = v then g.log else g.log ++ [.depthFunc v] } := by
  by_cases hm : g.state.depthFunc = v
  · simp only [depthFunc, hm, if_true]
    rw [← hm]
  · simp [depthFunc, Gl.forward, hm]

theorem depthMask_eq (g : Gl) (v : Val) :
    depthMask g v =
      { g with
        state := { g.state with depthMask := v }
        log := if g.state.depthMask = v then g.log else g.log ++ [.depthMask v] } := by
  by_cases hm : g.state.depthMask = v
  · simp only [depthMask, hm, if_true]
    rw [← hm]
  · simp [depthMask, Gl.forward, hm]

theorem clearStencil_eq (g : Gl) (v : Val) :
    clearStencil g v =
      { g with
        state := { g.state with clearStencil := v }
        log := if g.state.clearStencil = v then g.log else g.log ++ [.clearStencil v] } := by
  by_cases hm : g.state.clearStencil = v
  · simp only [clearStencil, hm, if_true]
    rw [← hm]
  · simp [clearStencil, Gl.forward, hm]

theorem activeTexture_eq (g : Gl) (v : Val) :
    activeTexture g v =
      { g with
        state := { g.state with activeTexture := v }
        log := if g.state.activeTexture = v then g.log else g.log ++ [.activeTexture v] } := by
  by_cases hm : g.state.activeTexture = v
  · simp only [activeTexture, hm, if_true]
    rw [← hm]
  · simp [activeTexture, Gl.forward, hm]

theorem depthRange_eq (g : Gl) (a b : Val) :
    depthRange g a b =
      { g with
        state := { g.state with depthRange := ⟨a, b⟩ }
        log := if g.state.depthRange = ⟨a, b⟩ then g.log else g.log ++ [.depthRange a b] } := by
  by_cases hm : g.state.depthRange = ⟨a, b⟩
  · obtain ⟨st, _, _, _, _, _, _, _, _, _⟩ := g
    cases st
    simp_all [depthRange]
  · simp [depthRange, vec2_eq_iff, Gl.forward, hm]

theorem polygonOffset_eq (g : Gl) (a b : Val) :
    polygonOffset g a b =
      { g with
        state := { g.state with polygonOffset := ⟨a, b⟩ }
        log := if g.state.polygonOffset = ⟨a, b⟩ then g.log else g.log ++ [.polygonOffset a b] } := by
  by_cases hm : g.state.polygonOffset = ⟨a, b⟩
  · obtain ⟨st, _, _, _, _, _, _, _, _, _⟩ := g
    cases st
    simp_all [polygonOffset]
  · simp [polygonOffset, vec2_eq_iff, Gl.forward, hm]

theorem sampleCoverage_eq (g : Gl) (a b : Val) :
    sampleCoverage g a b =
      { g with
        state := { g.state with sampleCoverage := ⟨a, b⟩ }
        log := if g.state.sampleCoverage = ⟨a, b⟩ then g.log else g.log ++ [.sampleCoverage a b] } := by
  by_cases hm : g.state.sampleCoverage = ⟨a, b⟩
  · obtain ⟨st, _, _, _, _, _, _, _, _, _⟩ := g
    cases st
    simp_all [sampleCoverage]
  · simp [sampleCoverage, vec2_eq_iff, Gl.forward, hm]

theorem blendEquation_eq (g : Gl) (m : Val) :
    blendEquation g m =
      { g with
        state := { g.state with blendEquationRgb := m, blendEquationAlpha := m }
        log := if g.state.blendEquationRgb = m ∧ g.state.blendEquationAlpha = m then g.log else g.log ++ [.blendEquation m] } := by
  by_cases hm : g.state.blendEquationRgb = m ∧ g.state.blendEquationAlpha = m
  · simp only [blendEquation, hm, and_self, if_true]
    obtain ⟨h1, h2⟩ := hm
    obtain ⟨st, _, _, _, _, _, _, _, _, _⟩ := g
    cases st
    simp_all
  · simp [blendEquation, Gl.forward, hm]

theorem blendEquationSeparate_eq (g : Gl) (m a : Val) :
    blendEquationSeparate g m a =
      { g with
        state := { g.state with blendEquationRgb := m, blendEquationAlpha := a }
        log := if g.state.blendEquationRgb = m ∧ g.state.blendEquationAlpha = a then g.log else g.log ++ [.blendEquationSeparate m a] } := by
  by_cases hm : g.state.blendEquationRgb = m ∧ g.state.blendEquationAlpha = a
  · simp only [blendEquationSeparate, hm, and_self, if_true]
    obtain ⟨h1, h2⟩ := hm
    obtain ⟨st, _, _, _, _, _, _, _, _, _⟩ := g
    cases st
    simp_all
  · simp [blendEquationSeparate, Gl.forward, hm]

theorem stencilMask_eq (g : Gl) (m : Val) :
    stencilMask g m =
      { g with
        state := { g.state with stencilMask := m, stencilBackMask := m }
        log := if g.state.stencilMask = m ∧ g.state.stencilBackMask = m then g.log else g.log ++ [.stencilMask m] } := by
  by_cases hm : g.state.stencilMask = m ∧ g.state.stencilBackMask = m
  · simp only [stencilMask, hm, and_self, if_true]
    obtain ⟨h1, h2⟩ := hm
    obtain ⟨st, _, _, _, _, _, _, _, _, _⟩ := g
    cases st
    simp_all
  · simp [stencilMask, Gl.forward, hm]

theorem stencilFunc_eq (g : Gl) (a b c : Val) :
    stencilFunc g a b c =
      { g with
        state := { g.state with stencilFunc := ⟨a, b, c⟩, stencilBackFunc := ⟨a, b, c⟩ }
        log := if g.state.stencilFunc = ⟨a, b, c⟩ ∧ g.state.stencilBackFunc = ⟨a, b, c⟩ then g.log
          else g.log ++ [.stencilFunc a b c] } := by
  by_cases hm : g.state.stencilFunc = ⟨a, b, c⟩ ∧ g.state.stencilBackFunc = ⟨a, b, c⟩
  · simp only [stencilFunc, arr3Eq_iff, Bool.and_eq_true, hm, and_self, if_true]
    obtain ⟨h1, h2⟩ := hm
    obtain ⟨st, _, _, _, _, _, _, _, _, _⟩ := g
    cases st
    simp_all
  · simp [stencilFunc, arr3Eq_iff, set3, Gl.forward, hm]

theorem stencilOp_eq (g : Gl) (a b c : Val) :
    stencilOp g a b c =
      { g with
        state := { g.state with stencilOp := ⟨a, b, c⟩, stencilBackOp := ⟨a, b, c⟩ }
        log := if g.state.stencilOp = ⟨a, b, c⟩ ∧ g.state.stencilBackOp = ⟨a, b, c⟩ then g.log
          else g.log ++ [.stencilOp a b c] } := by
  by_cases hm : g.state.stencilOp = ⟨a, b, c⟩ ∧ g.state.stencilBackOp = ⟨a, b, c⟩
  · simp only [stencilOp, arr3Eq_iff, Bool.and_eq_true, hm, and_self, if_true]
    obtain ⟨h1, h2⟩ := hm
    obtain ⟨st, _, _, _, _, _, _, _, _, _⟩ := g
    cases st
    simp_all
  · simp [stencilOp, arr3Eq_iff, set3, Gl.forward, hm]

theorem useProgram_eq (g : Gl) (v : Handle) :
    useProgram g v =
      { g with
        sgl := { g.sgl with activeProgram := v }
        log := if g.sgl.activeProgram = v then g.log else g.log ++ [.useProgram v] } := by
  by_cases hm : g.sgl.activeProgram = v
  · simp only [useProgram, hm, if_true]
    rw [← hm]
  · simp [useProgram, Gl.forward, hm]

theorem bindVertexArray_eq (g : Gl) (v : Handle) :
    bindVertexArray g v =
      { g with
        sgl := { g.sgl with vertexArrayBinding := v }
        log := if g.sgl.vertexArrayBinding = v then g.log else g.log ++ [.bindVertexArray v] } := by
  by_cases hm : g.sgl.vertexArrayBinding = v
  · simp only [bindVertexArray, hm, if_true]
    rw [← hm]
  · simp [bindVertexArray, Gl.forward, hm]

theorem pixelStorei_eq (g : Gl) (feat : Nat) (value : Val) :
    pixelStorei g feat value =
      { g with
        state := { g.state with
          storei := if g.state.storei.get feat = value then g.state.storei else g.state.storei.set feat (value) }
        log := if g.state.storei.get feat = value then g.log else g.log ++ [.pixelStorei feat value] } := by
  by_cases hm : g.state.storei.get feat = value
  · simp only [pixelStorei, hm, if_true]
  · simp [pixelStorei, Gl.forward, hm]

theorem enable_eq (g : Gl) (feat : Nat) :
    enable g feat =
      { g with
        state := { g.state with
          feats := if g.state.feats.get feat = .bool true then g.state.feats else g.state.feats.set feat (.bool true) }
        log := if g.state.feats.get feat = .bool true then g.log else g.log ++ [.enable feat] } := by
  by_cases hm : g.state.feats.get feat = .bool true
  · simp only [enable, hm, if_true]
  · simp [enable, Gl.forward, hm]

theorem disable_eq (g : Gl) (feat : Nat) :
    disable g feat =
      { g with
        state := { g.state with
          feats := if g.state.feats.get feat = .bool false then g.state.feats else g.state.feats.set feat (.bool false) }
        log := if g.state.feats.get feat = .bool false then g.log else g.log ++ [.disable feat] } := by
  by_cases hm : g.state.feats.get feat = .bool false
  · simp only [disable, hm, if_true]
  · simp [disable, Gl.forward, hm]

theorem stencilFuncSeparate_eq (g : Gl) (face a b c : Val) :
    stencilFuncSeparate g face a b c =
      { g with
        state := { g.state with
          stencilFunc := if selectsFront face then ⟨a, b, c⟩ else g.state.stencilFunc
          stencilBackFunc := if selectsBack face then ⟨a, b, c⟩ else g.state.stencilBackFunc }
        log :=
          if (selectsFront face → g.state.stencilFunc = ⟨a, b, c⟩)
              ∧ (selectsBack face → g.state.stencilBackFunc = ⟨a, b, c⟩) then g.log
          else g.log ++ [.stencilFuncSeparate face a b c] } := by
  obtain ⟨st, _, _, _, _, _, _, _, _, _⟩ := g
  cases st
  rename_i sf so _ _ sbf sbo _
  by_cases hF : selectsFront face <;> by_cases hB : selectsBack face <;>
    by_cases h1 : sf = ⟨a, b, c⟩ <;>
    by_cases h2 : sbf = ⟨a, b, c⟩ <;>
    simp only [selectsFront, selectsBack] at hF hB <;>
    simp [stencilFuncSeparate, selectsFront, selectsBack, hF, hB, h1, h2, arr3Eq_iff, arr3Eq_false_iff, set3,
      Gl.forward] <;>
    tauto

theorem stencilOpSeparate_eq (g : Gl) (face a b c : Val) :
    stencilOpSeparate g face a b c =
      { g with
        state := { g.state with
          stencilOp := if selectsFront face then ⟨a, b, c⟩ else g.state.stencilOp
          stencilBackOp := if selectsBack face then ⟨a, b, c⟩ else g.state.stencilBackOp }
        log :=
          if (selectsFront face → g.state.stencilOp = ⟨a, b, c⟩)
              ∧ (selectsBack face → g.state.stencilBackOp = ⟨a, b, c⟩) then g.log
          else g.log ++ [.stencilOpSeparate face a b c] } := by
  obtain ⟨st, _, _, _, _, _, _, _, _, _⟩ := g
  cases st
  rename_i sf so _ _ sbf sbo _
  by_cases hF : selectsFront face <;> by_cases hB : selectsBack face <;>
    by_cases h1 : so = ⟨a, b, c⟩ <;>
    by_cases h2 : sbo = ⟨a, b, c⟩ <;>
    simp only [selectsFront, selectsBack] at hF hB <;>
    simp [stencilOpSeparate, selectsFront, selectsBack, hF, hB, h1, h2, arr3Eq_iff, arr3Eq_false_iff, set3,
      Gl.forward] <;>
    tauto

theorem stencilMaskSeparate_eq (g : Gl) (face m : Val) :
    stencilMaskSeparate g face m =
      { g with
        state := { g.state with
          stencilMask := if selectsFront face then m else g.state.stencilMask
          stencilBackMask := if selectsBack face then m else g.state.stencilBackMask }
        log :=
          if (selectsFront face → g.state.stencilMask = m)
              ∧ (selectsBack face → g.state.stencilBackMask = m) then g.log
          else g.log ++ [.stencilMaskSeparate face m] } := by
  obtain ⟨st, _, _, _, _, _, _, _, _, _⟩ := g
  cases st
  rename_i _ _ sm _ _ _ sbm
  by_cases hF : selectsFront face <;> by_cases hB : selectsBack face <;>
    by_cases h1 : sm = m <;> by_cases h2 : sbm = m <;>
    simp only [selectsFront, selectsBack] at hF hB <;>
    simp [stencilMaskSeparate, selectsFront, selectsBack, hF, hB, h1, h2, Gl.forward] <;>
    tauto

theorem JSMap.get_set_self (m : JSMap) (k : Nat) (v : Val) : JSMap.get (JSMap.set m k v) k = v := by
  induction m with
  | nil => simp [JSMap.set, JSMap.get]
  | cons kv m ih =>
    obtain ⟨k0, w⟩ := kv
    simp only [JSMap.set]
    split
    · simp [JSMap.get, *]
    · split
      · simp [JSMap.get]
      · simp [JSMap.get, *]

theorem JSMap.get_set_of_ne (m : JSMap) (k k1 : Nat) (v : Val) (h : k1 ≠ k) :
    JSMap.get (JSMap.set m k v) k1 = JSMap.get m k1 := by
  induction m with
  | nil => simp [JSMap.set, JSMap.get, h.symm]
  | cons kv m ih =>
    obtain ⟨k0, w⟩ := kv
    simp only [JSMap.set]
    split
    · rename_i h0; subst h0; simp [JSMap.get, h.symm]
    · split
      · simp [JSMap.get, h.symm]
      · simp [JSMap.get, ih]

/-- C1 (no-op suppression), refuted on the typed-array mirrors.  On the sample context
`scissor(0, 0, 2147483648, 1)`, `blendColor(16777217, 0, 0, 1)` and
`clearColor(true, 0, 0, 1)`, each called twice in succession, are each forwarded twice: the
mirror holds the converted value (`-2147483648`, `16777216`, `1`), which the second call
compares with its argument.  `viewport(0, 0, 2147483648, 1)`, whose mirror is a plain
array, is forwarded once. -/
theorem typed_array_setters_forward_twice :
    (scissor (scissor sampleGl (.num 0) (.num 0) (.num 2147483648) (.num 1))
        (.num 0) (.num 0) (.num 2147483648) (.num 1)).log
      = sampleGl.log ++ [.scissor (.num 0) (.num 0) (.num 2147483648) (.num 1),
          .scissor (.num 0) (.num 0) (.num 2147483648) (.num 1)] ∧
    (blendColor (blendColor sampleGl (.val (.num 16777217)) (.val (.num 0)) (.val (.num 0)) (.val (.num 1)))
        (.val (.num 16777217)) (.val (.num 0)) (.val (.num 0)) (.val (.num 1))).log
      = sampleGl.log ++ [.blendColor (.val (.num 16777217)) (.val (.num 0)) (.val (.num 0)) (.val (.num 1)),
          .blendColor (.val (.num 16777217)) (.val (.num 0)) (.val (.num 0)) (.val (.num 1))] ∧
    (clearColor (clearColor sampleGl (.val (.bool true)) (.val (.num 0)) (.val (.num 0)) (.val (.num 1)))
        (.val (.bool true)) (.val (.num 0)) (.val (.num 0)) (.val (.num 1))).log
      = sampleGl.log ++ [.clearColor (.val (.bool true)) (.val (.num 0)) (.val (.num 0)) (.val (.num 1)),
          .clearColor (.val (.bool true)) (.val (.num 0)) (.val (.num 0)) (.val (.num 1))] ∧
    (viewport (viewport sampleGl (.num 0) (.num 0) (.num 2147483648) (.num 1))
        (.num 0) (.num 0) (.num 2147483648) (.num 1)).log
      = sampleGl.log ++ [.viewport (.num 0) (.num 0) (.num 2147483648) (.num 1)] := by
  refine ⟨?_, ?_, ?_, ?_⟩ <;> decide

/-- C2 (mirror fidelity), refuted on the typed-array mirrors.  On the sample context,
after the single call `blendColor(16777217, 0, 0, 1)` the mirrored blend colour holds
`16777216` in its first slot, after `clearColor(undefined, 0, 0, 1)` the mirrored clear
colour holds `NaN`, and after `scissor(0, 0, 2147483648, 1)` the mirrored scissor box
holds `-2147483648` in its third slot: none is the value the call wrote.  After
`viewport(0, 0, 2147483648, 1)` the mirrored viewport, a plain array, holds the four
values written. -/
theorem typed_array_mirror_holds_converted_value :
    (runSetters sampleGl [.blendColor (.val (.num 16777217)) (.val (.num 0)) (.val (.num 0))
        (.val (.num 1))]).state.blendColor
      = ⟨.val (.num 16777216), .val (.num 0), .val (.num 0), .val (.num 1)⟩ ∧
    (runSetters sampleGl [.clearColor (.val .undef) (.val (.num 0)) (.val (.num 0))
        (.val (.num 1))]).state.clearColor
      = ⟨.nan, .val (.num 0), .val (.num 0), .val (.num 1)⟩ ∧
    (runSetters sampleGl [.scissor (.num 0) (.num 0) (.num 2147483648) (.num 1)]).state.scissor
      = ⟨.num 0, .num 0, .num (-2147483648), .num 1⟩ ∧
    (runSetters sampleGl [.viewport (.num 0) (.num 0) (.num 2147483648) (.num 1)]).state.viewport
      = ⟨.num 0, .num 0, .num 2147483648, .num 1⟩ := by
  refine ⟨?_, ?_, ?_, ?_⟩ <;> decide

/-! ## What the loops over a mapping leave alone -/

theorem FeatsFrame.featsSame (g : Gl) : FeatsFrame g g := by
  unfold FeatsFrame; rfl

theorem FeatsFrame.featsThen {g g1 g2 : Gl} (h1 : FeatsFrame g g1) (h2 : FeatsFrame g1 g2) :
    FeatsFrame g g2 := by
  unfold FeatsFrame at *
  rw [h2, h1]

theorem StoreiFrame.storeiSame (g : Gl) : StoreiFrame g g := by
  unfold StoreiFrame; rfl

theorem StoreiFrame.storeiThen {g g1 g2 : Gl} (h1 : StoreiFrame g g1) (h2 : StoreiFrame g1 g2) :
    StoreiFrame g g2 := by
  unfold StoreiFrame at *
  rw [h2, h1]

theorem enable_frame (g : Gl) (k : Nat) : FeatsFrame g (enable g k) := by
  rw [enable_eq]; unfold FeatsFrame; rfl

theorem disable_frame (g : Gl) (k : Nat) : FeatsFrame g (disable g k) := by
  rw [disable_eq]; unfold FeatsFrame; rfl

theorem pixelStorei_frame (g : Gl) (k : Nat) (v : Val) : StoreiFrame g (pixelStorei g k v) := by
  rw [pixelStorei_eq]; unfold StoreiFrame; rfl

theorem foldl_featsFrame (step : Gl → Nat → Gl) (hs : ∀ g k, FeatsFrame g (step g k))
    (ks : List Nat) (g : Gl) : FeatsFrame g (ks.foldl step g) := by
  induction ks generalizing g with
  | nil => exact FeatsFrame.featsSame g
  | cons k ks ih => exact (hs g k).featsThen (ih (step g k))

theorem foldl_storeiFrame (step : Gl → Nat → Gl) (hs : ∀ g k, StoreiFrame g (step g k))
    (ks : List Nat) (g : Gl) : StoreiFrame g (ks.foldl step g) := by
  induction ks generalizing g with
  | nil => exact StoreiFrame.storeiSame g
  | cons k ks ih => exact (hs g k).storeiThen (ih (step g k))

theorem restoreGLFeatures_frame (g : Gl) (feats : JSMap) : FeatsFrame g (restoreGLFeatures g feats) := by
  unfold restoreGLFeatures
  apply foldl_featsFrame
  intro g k
  dsimp only
  split
  · exact FeatsFrame.featsSame g
  · split
    · exact enable_frame g k
    · exact disable_frame g k

theorem setGLFeaturesPartial_frame (g : Gl) (feats : JSMap) :
    FeatsFrame g (setGLFeaturesPartial g feats) := by
  unfold setGLFeaturesPartial
  apply foldl_featsFrame
  intro g k
  dsimp only
  split
  · exact FeatsFrame.featsSame g
  · split
    · exact enable_frame g k
    · exact disable_frame g k

theorem restoreStorei_frame (g : Gl) (storei : JSMap) : StoreiFrame g (restoreStorei g storei) := by
  unfold restoreStorei
  apply foldl_storeiFrame
  intro g k
  dsimp only
  split
  · exact StoreiFrame.storeiSame g
  · exact pixelStorei_frame g k _

theorem selectsBack_BACK : selectsBack (.num BACK) := Or.inl rfl

theorem not_selectsFront_BACK : ¬ selectsFront (.num BACK) := by
  simp [selectsFront, FRONT, BACK, FRONT_AND_BACK]

theorem restoreValues_state (g : Gl) (s : TrackedState) :
    (restoreValues g s).state =
      { s with
        feats := (restoreGLFeatures g s.feats).state.feats
        storei := (restoreStorei (restoreGLFeatures g s.feats) s.storei).state.storei
        activeTexture := g.state.activeTexture
        blendColor := g.state.blendColor.store s.blendColor
        clearColor := g.state.clearColor.store s.clearColor
        scissor := g.state.scissor.storeInt32 s.scissor } := by
  have h1 := restoreGLFeatures_frame g s.feats
  have h2 := restoreStorei_frame (restoreGLFeatures g s.feats) s.storei
  unfold FeatsFrame at h1
  unfold StoreiFrame at h2
  simp only [restoreValues]
  generalize restoreGLFeatures g s.feats = g1 at h1 h2 ⊢
  generalize restoreStorei g1 s.storei = g2 at h2 ⊢
  have e1 : g2.state.feats = g1.state.feats := by rw [h2]
  have e2 : g2.state.activeTexture = g.state.activeTexture := by rw [h2, h1]
  have e3 : g2.state.blendColor = g.state.blendColor := by rw [h2, h1]
  have e4 : g2.state.clearColor = g.state.clearColor := by rw [h2, h1]
  have e5 : g2.state.scissor = g.state.scissor := by rw [h2, h1]
  simp only [viewport_eq, blendColor_eq, blendEquationSeparate_eq,
      blendFuncSeparate_eq, cullFace_eq, frontFace_eq, lineWidth_eq, clearColor_eq,
      colorMask_eq, clearDepth_eq, depthFunc_eq, depthMask_eq, depthRange_eq, polygonOffset_eq,
      sampleCoverage_eq, scissor_eq, stencilFunc_eq, stencilOp_eq, stencilMask_eq, clearStencil_eq,
      stencilFuncSeparate_eq, stencilOpSeparate_eq, stencilMaskSeparate_eq, selectsBack_BACK,
      not_selectsFront_BACK, if_true, if_false]
  rw [e1, e2, e3, e4, e5]
  simp only [Vec4F.store, Vec4.storeInt32, Vec4F.set4, set4Int32, arr4Eq_iff]

theorem restoreValues_frame (g : Gl) (s : TrackedState) : StateFrame g (restoreValues g s) := by
  have h1 := restoreGLFeatures_frame g s.feats
  have h2 := restoreStorei_frame (restoreGLFeatures g s.feats) s.storei
  unfold FeatsFrame at h1
  unfold StoreiFrame at h2
  unfold StateFrame
  simp only [restoreValues]
  generalize restoreGLFeatures g s.feats = g1 at h1 h2 ⊢
  generalize restoreStorei g1 s.storei = g2 at h2 ⊢
  simp only [viewport_eq, blendColor_eq, blendEquationSeparate_eq,
      blendFuncSeparate_eq, cullFace_eq, frontFace_eq, lineWidth_eq, clearColor_eq,
      colorMask_eq, clearDepth_eq, depthFunc_eq, depthMask_eq, depthRange_eq, polygonOffset_eq,
      sampleCoverage_eq, scissor_eq, stencilFunc_eq, stencilOp_eq, stencilMask_eq, clearStencil_eq,
      stencilFuncSeparate_eq, stencilOpSeparate_eq, stencilMaskSeparate_eq]
  rw [h2, h1]

/-! ## Sequencing of outcomes -/

theorem Res.andThen_val_rel {R : Gl → Gl → Prop} (htrans : ∀ a b c, R a b → R b c → R a c)
    (g : Gl) (r : Res Gl) (f : Gl → Res Gl) (h1 : R g r.val) (h2 : ∀ a, R a (f a).val) :
    R g (r.andThen f).val := by
  cases r with
  | ok a => exact htrans _ _ _ h1 (h2 a)
  | thrown a => exact h1

/-! ## The framebuffer calls -/

theorem bindFramebuffer_eq (g : Gl) (t : Val) (fb : Handle) :
    bindFramebuffer g t fb =
      { g with
        sgl := { g.sgl with
          boundFramebuffer := if t = .num FRAMEBUFFER then fb else g.sgl.boundFramebuffer
          boundDrawingBuffer :=
            if t = .num FRAMEBUFFER ∨ t = .num DRAW_FRAMEBUFFER then fb else g.sgl.boundDrawingBuffer
          boundReadingBuffer :=
            if t = .num FRAMEBUFFER ∨ t = .num READ_FRAMEBUFFER then fb else g.sgl.boundReadingBuffer }
        lastDrawBufferBound :=
          if t = .num FRAMEBUFFER ∨ t = .num DRAW_FRAMEBUFFER then fb else g.lastDrawBufferBound
        lastReadBufferBound :=
          if t = .num FRAMEBUFFER ∨ t = .num READ_FRAMEBUFFER then fb else g.lastReadBufferBound
        fbProps := (bindFramebuffer g t fb).fbProps
        nextId := (bindFramebuffer g t fb).nextId
        log := g.log ++ [.bindFramebuffer t fb] } := by
  have hc : (FRAMEBUFFER ≠ DRAW_FRAMEBUFFER) ∧ (FRAMEBUFFER ≠ READ_FRAMEBUFFER)
      ∧ (DRAW_FRAMEBUFFER ≠ READ_FRAMEBUFFER) := by decide
  obtain ⟨c1, c2, c3⟩ := hc
  by_cases h1 : t = .num FRAMEBUFFER
  · subst h1
    cases fb with
    | obj n =>
      by_cases hid : (propsOf g.fbProps n).id = none <;>
        simp [bindFramebuffer, Gl.forward, hid]
    | undef => simp [bindFramebuffer, Gl.forward]
    | null => simp [bindFramebuffer, Gl.forward]
  · by_cases h2 : t = .num DRAW_FRAMEBUFFER
    · subst h2
      cases fb with
      | obj n =>
        by_cases hid : (propsOf g.fbProps n).id = none <;>
          simp [bindFramebuffer, Gl.forward, hid, c1, c1.symm, c3]
      | undef => simp [bindFramebuffer, Gl.forward, c1, c1.symm, c3]
      | null => simp [bindFramebuffer, Gl.forward, c1, c1.symm, c3]
    · by_cases h3 : t = .num READ_FRAMEBUFFER
      · subst h3
        cases fb with
        | obj n =>
          by_cases hid : (propsOf g.fbProps n).id = none <;>
            simp [bindFramebuffer, Gl.forward, hid, c2, c2.symm, c3, c3.symm]
        | undef => simp [bindFramebuffer, Gl.forward, c2, c2.symm, c3, c3.symm]
        | null => simp [bindFramebuffer, Gl.forward, c2, c2.symm, c3, c3.symm]
      · cases fb with
        | obj n =>
          by_cases hid : (propsOf g.fbProps n).id = none <;>
            simp [bindFramebuffer, Gl.forward, hid, h1, h2, h3]
        | undef => simp [bindFramebuffer, Gl.forward, h1, h2, h3]
        | null => simp [bindFramebuffer, Gl.forward, h1, h2, h3]

/-! ## The texture calls -/

theorem TexFrame.texSame (g : Gl) : TexFrame g g := by
  unfold TexFrame; rfl

theorem TexFrame.texThen (a b c : Gl) (h1 : TexFrame a b) (h2 : TexFrame b c) : TexFrame a c := by
  unfold TexFrame at *
  rw [h2, h1]

theorem activeTexture_frame (g : Gl) (slot : Val) : TexFrame g (activeTexture g slot) := by
  rw [activeTexture_eq]; unfold TexFrame; rfl

theorem bindTexture_frame (g : Gl) (t : Val) (x : Handle) : TexFrame g (bindTexture g t x) := by
  unfold bindTexture TexFrame Gl.forward; rfl

theorem restoreTextureUnit_frame (textures : List TexEntry) (g : Gl) (i : Nat) :
    TexFrame g (restoreTextureUnit textures g i) := by
  unfold restoreTextureUnit
  dsimp only
  split
  · exact TexFrame.texSame g
  · split
    · exact TexFrame.texThen _ _ _ (activeTexture_frame g _) (bindTexture_frame _ _ _)
    · exact TexFrame.texThen _ _ _ (activeTexture_frame g _) (bindTexture_frame _ _ _)

theorem foldl_texFrame (step : Gl → Nat → Gl) (hs : ∀ g k, TexFrame g (step g k))
    (ks : List Nat) (g : Gl) : TexFrame g (ks.foldl step g) := by
  induction ks generalizing g with
  | nil => exact TexFrame.texSame g
  | cons k ks ih => exact TexFrame.texThen _ _ _ (hs g k) (ih (step g k))

theorem restoreTextureBindings_frame (g : Gl) (textures : List TexEntry) (currentActive : Val) :
    TexFrame g (restoreTextureBindings g textures currentActive) := by
  unfold restoreTextureBindings
  exact TexFrame.texThen _ _ _ (foldl_texFrame _ (restoreTextureUnit_frame textures) _ g)
    (activeTexture_frame _ _)

theorem restoreTextureBindings_activeTexture (g : Gl) (textures : List TexEntry) (currentActive : Val) :
    (restoreTextureBindings g textures currentActive).state.activeTexture = currentActive := by
  unfold restoreTextureBindings
  rw [activeTexture_eq]

theorem Prims.one {g g1 : Gl} (h : Prim g g1) : Prims g g1 := Prims.tail (Prims.refl g) h

theorem Prims.append {a b c : Gl} (h1 : Prims a b) (h2 : Prims b c) : Prims a c := by
  induction h2 with
  | refl => exact h1
  | tail _ hp ih => exact Prims.tail ih hp

theorem Prims.ite {g x : Gl} (c : Prop) [Decidable c] (f : Gl → Gl) (hx : Prims g x)
    (hf : ∀ a, Prims a (f a)) : Prims g (if c then f x else x) := by
  split
  · exact hx.append (hf x)
  · exact hx

theorem Prims.ofSetter (c : Setter) (g : Gl) : Prims g (c.run g) := Prims.one (Prim.setter c g)

theorem Prims.viewport {g a : Gl} (h : Prims g a) (x0 x1 x2 x3 : Val) :
    Prims g (Multistate.viewport a x0 x1 x2 x3) :=
  Prims.tail h (Prim.setter (.viewport x0 x1 x2 x3) a)

theorem Prims.blendColor {g a : Gl} (h : Prims g a) (x0 x1 x2 x3 : Elem) :
    Prims g (Multistate.blendColor a x0 x1 x2 x3) :=
  Prims.tail h (Prim.setter (.blendColor x0 x1 x2 x3) a)

theorem Prims.blendEquation {g a : Gl} (h : Prims g a) (x0 : Val) :
    Prims g (Multistate.blendEquation a x0) :=
  Prims.tail h (Prim.setter (.blendEquation x0) a)

theorem Prims.blendEquationSeparate {g a : Gl} (h : Prims g a) (x0 x1 : Val) :
    Prims g (Multistate.blendEquationSeparate a x0 x1) :=
  Prims.tail h (Prim.setter (.blendEquationSeparate x0 x1) a)

theorem Prims.blendFunc {g a : Gl} (h : Prims g a) (x0 x1 : Val) :
    Prims g (Multistate.blendFunc a x0 x1) :=
  Prims.tail h (Prim.setter (.blendFunc x0 x1) a)

theorem Prims.blendFuncSeparate {g a : Gl} (h : Prims g a) (x0 x1 x2 x3 : Val) :
    Prims g (Multistate.blendFuncSeparate a x0 x1 x2 x3) :=
  Prims.tail h (Prim.setter (.blendFuncSeparate x0 x1 x2 x3) a)

theorem Prims.cullFace {g a : Gl} (h : Prims g a) (x0 : Val) :
    Prims g (Multistate.cullFace a x0) :=
  Prims.tail h (Prim.setter (.cullFace x0) a)

theorem Prims.frontFace {g a : Gl} (h : Prims g a) (x0 : Val) :
    Prims g (Multistate.frontFace a x0) :=
  Prims.tail h (Prim.setter (.frontFace x0) a)

theorem Prims.lineWidth {g a : Gl} (h : Prims g a) (x0 : Val) :
    Prims g (Multistate.lineWidth a x0) :=
  Prims.tail h (Prim.setter (.lineWidth x0) a)

theorem Prims.clearColor {g a : Gl} (h : Prims g a) (x0 x1 x2 x3 : Elem) :
    Prims g (Multistate.clearColor a x0 x1 x2 x3) :=
  Prims.tail h (Prim.setter (.clearColor x0 x1 x2 x3) a)

theorem Prims.colorMask {g a : Gl} (h : Prims g a) (x0 x1 x2 x3 : Val) :
    Prims g (Multistate.colorMask a x0 x1 x2 x3) :=
  Prims.tail h (Prim.setter (.colorMask x0 x1 x2 x3) a)

theorem Prims.clearDepth {g a : Gl} (h : Prims g a) (x0 : Val) :
    Prims g (Multistate.clearDepth a x0) :=
  Prims.tail h (Prim.setter (.clearDepth x0) a)

theorem Prims.depthFunc {g a : Gl} (h : Prims g a) (x0 : Val) :
    Prims g (Multistate.depthFunc a x0) :=
  Prims.tail h (Prim.setter (.depthFunc x0) a)

theorem Prims.depthMask {g a : Gl} (h : Prims g a) (x0 : Val) :
    Prims g (Multistate.depthMask a x0) :=
  Prims.tail h (Prim.setter (.depthMask x0) a)

theorem Prims.depthRange {g a : Gl} (h : Prims g a) (x0 x1 : Val) :
    Prims g (Multistate.depthRange a x0 x1) :=
  Prims.tail h (Prim.setter (.depthRange x0 x1) a)

theorem Prims.polygonOffset {g a : Gl} (h : Prims g a) (x0 x1 : Val) :
    Prims g (Multistate.polygonOffset a x0 x1) :=
  Prims.tail h (Prim.setter (.polygonOffset x0 x1) a)

theorem Prims.sampleCoverage {g a : Gl} (h : Prims g a) (x0 x1 : Val) :
    Prims g (Multistate.sampleCoverage a x0 x1) :=
  Prims.tail h (Prim.setter (.sampleCoverage x0 x1) a)

theorem Prims.scissor {g a : Gl} (h : Prims g a) (x0 x1 x2 x3 : Val) :
    Prims g (Multistate.scissor a x0 x1 x2 x3) :=
  Prims.tail h (Prim.setter (.scissor x0 x1 x2 x3) a)

theorem Prims.stencilFunc {g a : Gl} (h : Prims g a) (x0 x1 x2 : Val) :
    Prims g (Multistate.stencilFunc a x0 x1 x2) :=
  Prims.tail h (Prim.setter (.stencilFunc x0 x1 x2) a)

theorem Prims.stencilOp {g a : Gl} (h : Prims g a) (x0 x1 x2 : Val) :
    Prims g (Multistate.stencilOp a x0 x1 x2) :=
  Prims.tail h (Prim.setter (.stencilOp x0 x1 x2) a)

theorem Prims.stencilMask {g a : Gl} (h : Prims g a) (x0 : Val) :
    Prims g (Multistate.stencilMask a x0) :=
  Prims.tail h (Prim.setter (.stencilMask x0) a)

theorem Prims.clearStencil {g a : Gl} (h : Prims g a) (x0 : Val) :
    Prims g (Multistate.clearStencil a x0) :=
  Prims.tail h (Prim.setter (.clearStencil x0) a)

theorem Prims.pixelStorei {g a : Gl} (h : Prims g a) (x0 : Nat) (x1 : Val) :
    Prims g (Multistate.pixelStorei a x0 x1) :=
  Prims.tail h (Prim.setter (.pixelStorei x0 x1) a)

theorem Prims.enable {g a : Gl} (h : Prims g a) (x0 : Nat) :
    Prims g (Multistate.enable a x0) :=
  Prims.tail h (Prim.setter (.enable x0) a)

theorem Prims.disable {g a : Gl} (h : Prims g a) (x0 : Nat) :
    Prims g (Multistate.disable a x0) :=
  Prims.tail h (Prim.setter (.disable x0) a)

theorem Prims.activeTexture {g a : Gl} (h : Prims g a) (x0 : Val) :
    Prims g (Multistate.activeTexture a x0) :=
  Prims.tail h (Prim.setter (.activeTexture x0) a)

theorem Prims.useProgram {g a : Gl} (h : Prims g a) (x0 : Handle) :
    Prims g (Multistate.useProgram a x0) :=
  Prims.tail h (Prim.setter (.useProgram x0) a)

theorem Prims.bindVertexArray {g a : Gl} (h : Prims g a) (x0 : Handle) :
    Prims g (Multistate.bindVertexArray a x0) :=
  Prims.tail h (Prim.setter (.bindVertexArray x0) a)

theorem Prims.stencilFuncSeparate {g a : Gl} (h : Prims g a) (x0 x1 x2 x3 : Val) :
    Prims g (Multistate.stencilFuncSeparate a x0 x1 x2 x3) :=
  Prims.tail h (Prim.setter (.stencilFuncSeparate x0 x1 x2 x3) a)

theorem Prims.stencilOpSeparate {g a : Gl} (h : Prims g a) (x0 x1 x2 x3 : Val) :
    Prims g (Multistate.stencilOpSeparate a x0 x1 x2 x3) :=
  Prims.tail h (Prim.setter (.stencilOpSeparate x0 x1 x2 x3) a)

theorem Prims.stencilMaskSeparate {g a : Gl} (h : Prims g a) (x0 x1 : Val) :
    Prims g (Multistate.stencilMaskSeparate a x0 x1) :=
  Prims.tail h (Prim.setter (.stencilMaskSeparate x0 x1) a)

theorem Prims.foldl (step : Gl → Nat → Gl) (hs : ∀ g k, Prims g (step g k)) (ks : List Nat) (g : Gl) :
    Prims g (ks.foldl step g) := by
  induction ks generalizing g with
  | nil => exact Prims.refl g
  | cons k ks ih => exact (hs g k).append (ih (step g k))

theorem Prims.andThen (g : Gl) (r : Res Gl) (f : Gl → Res Gl) (h1 : Prims g r.val)
    (h2 : ∀ a, Prims a (f a).val) : Prims g (r.andThen f).val :=
  Res.andThen_val_rel (R := Prims) (fun _ _ _ => Prims.append) g r f h1 h2

theorem setGLFeaturesPartial_prims (g : Gl) (feats : JSMap) : Prims g (setGLFeaturesPartial g feats) := by
  unfold setGLFeaturesPartial
  apply Prims.foldl
  intro g k
  dsimp only
  split
  · exact Prims.refl g
  · split
    · exact Prims.ofSetter (.enable k) g
    · exact Prims.ofSetter (.disable k) g

theorem setValuesPartial_prims (g : Gl) (s : PatchState) : Prims g (setValuesPartial g s) := by
  unfold setValuesPartial
  lift_lets
  intro g1 g2 g3 g4 g5 g6 g7 g8 g9 g10 g11 g12 g13 g14 g15 g16 g17 g18 g19 g20 g21 g22 g23
  have h1 : Prims g g1 := by
    simp only [g1]
    split
    · exact setGLFeaturesPartial_prims g _
    · exact Prims.refl g
  have h2 : Prims g g2 := by
    simp only [g2]
    split
    · exact h1.append (Prims.ofSetter (.viewport _ _ _ _) _)
    · exact h1
  have h3 : Prims g g3 := by
    simp only [g3]
    split
    · exact h2.append (Prims.ofSetter (.blendColor _ _ _ _) _)
    · exact h2
  have h4 : Prims g g4 := by
    simp only [g4]
    split
    · exact h3.append (Prims.ofSetter (.blendEquationSeparate _ _) _)
    · exact h3
  have h5 : Prims g g5 := by
    simp only [g5]
    split
    · exact h4.append (Prims.ofSetter (.cullFace _) _)
    · exact h4
  have h6 : Prims g g6 := by
    simp only [g6]
    split
    · exact h5.append (Prims.ofSetter (.depthFunc _) _)
    · exact h5
  have h7 : Prims g g7 := by
    simp only [g7]
    split
    · exact h6.append (Prims.ofSetter (.frontFace _) _)
    · exact h6
  have h8 : Prims g g8 := by
    simp only [g8]
    split
    · exact h7.append (Prims.ofSetter (.lineWidth _) _)
    · exact h7
  have h9 : Prims g g9 := by
    simp only [g9]
    split
    · exact h8.append (Prims.ofSetter (.blendFuncSeparate _ _ _ _) _)
    · exact h8
  have h10 : Prims g g10 := by
    simp only [g10]
    split
    · exact h9.append (Prims.ofSetter (.clearColor _ _ _ _) _)
    · exact h9
  have h11 : Prims g g11 := by
    simp only [g11]
    split
    · exact h10.append (Prims.ofSetter (.colorMask _ _ _ _) _)
    · exact h10
  have h12 : Prims g g12 := by
    simp only [g12]
    split
    · exact h11.append (Prims.ofSetter (.clearDepth _) _)
    · exact h11
  have h13 : Prims g g13 := by
    simp only [g13]
    split
    · exact h12.append (Prims.ofSetter (.depthMask _) _)
    · exact h12
  have h14 : Prims g g14 := by
    simp only [g14]
    split
    · exact h13.append (Prims.ofSetter (.depthRange _ _) _)
    · exact h13
  have h15 : Prims g g15 := by
    simp only [g15]
    split
    · exact h14.append (Prims.ofSetter (.polygonOffset _ _) _)
    · exact h14
  have h16 : Prims g g16 := by
    simp only [g16]
    split
    · exact h15.append (Prims.ofSetter (.sampleCoverage _ _) _)
    · exact h15
  have h17 : Prims g g17 := by
    simp only [g17]
    split
    · exact h16.append (Prims.ofSetter (.scissor _ _ _ _) _)
    · exact h16
  have h18 : Prims g g18 := by
    simp only [g18]
    split
    · exact h17.append (Prims.ofSetter (.stencilFunc _ _ _) _)
    · exact h17
  have h19 : Prims g g19 := by
    simp only [g19]
    split
    · exact h18.append (Prims.ofSetter (.stencilOp _ _ _) _)
    · exact h18
  have h20 : Prims g g20 := by
    simp only [g20]
    split
    · exact h19.append (Prims.ofSetter (.stencilMask _) _)
    · exact h19
  have h21 : Prims g g21 := by
    simp only [g21]
    split
    · exact h20.append (Prims.ofSetter (.clearStencil _) _)
    · exact h20
  have h22 : Prims g g22 := by
    simp only [g22]
    split
    · exact h21.append (Prims.ofSetter (.stencilFuncSeparate _ _ _ _) _)
    · exact h21
  have h23 : Prims g g23 := by
    simp only [g23]
    split
    · exact h22.append (Prims.ofSetter (.stencilOpSeparate _ _ _ _) _)
    · exact h22
  split
  · exact h23.append (Prims.ofSetter (.stencilMaskSeparate _ _) _)
  · exact h23

theorem restoreGLFeatures_prims (g : Gl) (feats : JSMap) : Prims g (restoreGLFeatures g feats) := by
  unfold restoreGLFeatures
  apply Prims.foldl
  intro g k
  dsimp only
  split
  · exact Prims.refl g
  · split
    · exact Prims.ofSetter (.enable k) g
    · exact Prims.ofSetter (.disable k) g

theorem restoreStorei_prims (g : Gl) (storei : JSMap) : Prims g (restoreStorei g storei) := by
  unfold restoreStorei
  apply Prims.foldl
  intro g k
  dsimp only
  split
  · exact Prims.refl g
  · exact Prims.ofSetter (.pixelStorei k _) g

theorem restoreValues_prims (g : Gl) (s : TrackedState) : Prims g (restoreValues g s) := by
  unfold restoreValues
  lift_lets
  intro g1 g2 g3 g4 g5 g6 g7 g8 g9 g10 g11 g12 g13 g14 g15 g16 g17 g18 g19 g20 g21 g22 g23 g24
  have h1 : Prims g g1 := restoreGLFeatures_prims g s.feats
  have h2 : Prims g g2 := h1.append (restoreStorei_prims g1 s.storei)
  have h3 : Prims g g3 := Prims.viewport h2 _ _ _ _
  have h4 : Prims g g4 := Prims.blendColor h3 _ _ _ _
  have h5 : Prims g g5 := Prims.blendEquationSeparate h4 _ _
  have h6 : Prims g g6 := Prims.cullFace h5 _
  have h7 : Prims g g7 := Prims.depthFunc h6 _
  have h8 : Prims g g8 := Prims.frontFace h7 _
  have h9 : Prims g g9 := Prims.lineWidth h8 _
  have h10 : Prims g g10 := Prims.blendFuncSeparate h9 _ _ _ _
  have h11 : Prims g g11 := Prims.clearColor h10 _ _ _ _
  have h12 : Prims g g12 := Prims.colorMask h11 _ _ _ _
  have h13 : Prims g g13 := Prims.clearDepth h12 _
  have h14 : Prims g g14 := Prims.depthMask h13 _
  have h15 : Prims g g15 := Prims.depthRange h14 _ _
  have h16 : Prims g g16 := Prims.polygonOffset h15 _ _
  have h17 : Prims g g17 := Prims.sampleCoverage h16 _ _
  have h18 : Prims g g18 := Prims.scissor h17 _ _ _ _
  have h19 : Prims g g19 := Prims.stencilFunc h18 _ _ _
  have h20 : Prims g g20 := Prims.stencilOp h19 _ _ _
  have h21 : Prims g g21 := Prims.stencilMask h20 _
  have h22 : Prims g g22 := Prims.clearStencil h21 _
  have h23 : Prims g g23 := Prims.stencilFuncSeparate h22 _ _ _ _
  have h24 : Prims g g24 := Prims.stencilOpSeparate h23 _ _ _ _
  exact Prims.stencilMaskSeparate h24 _ _

/-- The method `gl.resetToDefaults` calls itself until the stack is exhausted: whatever
the depth available, it throws and leaves the context as it was. -/
theorem Gl.resetToDefaults_thrown (g : Gl) (frames : Nat) :
    g.resetToDefaults frames = .thrown g := by
  induction frames with
  | zero => rfl
  | succ n ih => simpa [Gl.resetToDefaults] using ih

theorem defaultPixelStore_prims (g : Gl) : Prims g (defaultPixelStore g) := by
  unfold defaultPixelStore
  lift_lets
  intro g1 g2 g3 g4
  have h1 : Prims g g1 := Prims.ite _ (fun a => pixelStorei a _ _) (Prims.refl g)
    (fun a => Prims.ofSetter (.pixelStorei _ _) a)
  have h2 : Prims g g2 := Prims.ite _ (fun a => pixelStorei a _ _) h1
    (fun a => Prims.ofSetter (.pixelStorei _ _) a)
  have h3 : Prims g g3 := Prims.ite _ (fun a => pixelStorei a _ _) h2
    (fun a => Prims.ofSetter (.pixelStorei _ _) a)
  have h4 : Prims g g4 := Prims.ite _ (fun a => pixelStorei a _ _) h3
    (fun a => Prims.ofSetter (.pixelStorei _ _) a)
  exact Prims.ite _ (fun a => pixelStorei a _ _) h4 (fun a => Prims.ofSetter (.pixelStorei _ _) a)

theorem restoreTextureUnit_prims (textures : List TexEntry) (g : Gl) (i : Nat) :
    Prims g (restoreTextureUnit textures g i) := by
  unfold restoreTextureUnit
  dsimp only
  split
  · exact Prims.refl g
  · split
    · exact (Prims.ofSetter (.activeTexture _) g).append (Prims.one (Prim.bindTexture _ _ _))
    · exact (Prims.ofSetter (.activeTexture _) g).append (Prims.one (Prim.bindTexture _ _ _))

theorem restoreTextureBindings_prims (g : Gl) (textures : List TexEntry) (currentActive : Val) :
    Prims g (restoreTextureBindings g textures currentActive) := by
  unfold restoreTextureBindings
  exact (Prims.foldl _ (restoreTextureUnit_prims textures) _ g).append (Prims.ofSetter (.activeTexture _) _)

theorem bindFramebufferWithReadDrawConfig_prims (g : Gl) (t : Int) (p : FbPack) :
    Prims g (bindFramebufferWithReadDrawConfig g t p).val := by
  unfold bindFramebufferWithReadDrawConfig
  dsimp only
  split
  · exact Prims.one (Prim.bindFramebuffer _ _ _)
  · apply Prims.andThen
    · split
      · exact (Prims.one (Prim.bindFramebuffer _ _ _)).append (Prims.one (Prim.drawBuffers _ _))
      · exact Prims.one (Prim.bindFramebuffer _ _ _)
    · intro a
      split
      · exact Prims.one (Prim.readBuffer _ _)
      · exact Prims.refl a

theorem bindFramebufferConfigOpt_prims (g : Gl) (t : Int) (p : Option FbPack) :
    Prims g (bindFramebufferConfigOpt g t p).val := by
  unfold bindFramebufferConfigOpt
  split
  · exact bindFramebufferWithReadDrawConfig_prims g t _
  · exact Prims.refl g

theorem restoreFramebuffers_prims (g : Gl) (sgl : Sgl) : Prims g (restoreFramebuffers g sgl).val := by
  unfold restoreFramebuffers
  apply Prims.andThen
  · exact bindFramebufferWithReadDrawConfig_prims g _ _
  · intro a
    apply Prims.andThen
    · split
      · exact bindFramebufferWithReadDrawConfig_prims a _ _
      · exact Prims.refl a
    · intro b
      split
      · exact bindFramebufferWithReadDrawConfig_prims b _ _
      · exact Prims.refl b

theorem setFramebuffersPartial_prims (g : Gl) (s : PatchState) :
    Prims g (setFramebuffersPartial g s).val := by
  unfold setFramebuffersPartial
  apply Prims.andThen
  · split
    · split
      · apply Prims.andThen
        · exact bindFramebufferConfigOpt_prims g _ _
        · intro a; exact bindFramebufferConfigOpt_prims a _ _
      · exact Prims.refl g
    · exact Prims.refl g
  · intro a
    apply Prims.andThen
    · split
      · exact bindFramebufferWithReadDrawConfig_prims a _ _
      · exact Prims.refl a
    · intro b
      apply Prims.andThen
      · split
        · split
          · exact bindFramebufferWithReadDrawConfig_prims b _ _
          · exact Prims.refl b
        · exact Prims.refl b
      · intro c
        split
        · split
          · exact bindFramebufferWithReadDrawConfig_prims c _ _
          · exact Prims.refl c
        · exact Prims.refl c

theorem restoreBindings_prims (g : Gl) (sgl : Sgl) : Prims g (restoreBindings g sgl) := by
  simp only [restoreBindings]
  refine Prims.tail ?_ (Prim.bindBuffer _ _ _)
  refine Prims.tail ?_ (Prim.bindBuffer _ _ _)
  refine Prims.tail ?_ (Prim.setter (.bindVertexArray _) _)
  exact Prims.ofSetter (.useProgram _) g

theorem setBindingsPartial_prims (g : Gl) (sgl : PatchSgl) (s : Option PatchState) :
    Prims g (setBindingsPartial g sgl s) := by
  unfold setBindingsPartial
  lift_lets
  intro g1 g2 g3 g4 g5 activeTex
  have h1 : Prims g g1 := Prims.ite _ (fun a => useProgram a _) (Prims.refl g)
    (fun a => Prims.ofSetter (.useProgram _) a)
  have h2 : Prims g g2 := Prims.ite _ (fun a => bindVertexArray a _) h1
    (fun a => Prims.ofSetter (.bindVertexArray _) a)
  have h3 : Prims g g3 := Prims.ite _ (fun a => bindBuffer a _ _) h2
    (fun a => Prims.one (Prim.bindBuffer _ _ _))
  have h4 : Prims g g4 := Prims.ite _ (fun a => bindBuffer a _ _) h3
    (fun a => Prims.one (Prim.bindBuffer _ _ _))
  have h5 : Prims g g5 := Prims.ite _ (fun a => bindBuffer a _ _) h4
    (fun a => Prims.one (Prim.bindBuffer _ _ _))
  split
  · exact h5.append (restoreTextureBindings_prims _ _ _)
  · exact h5

theorem setGLState_prims (g : Gl) (b : Snapshot) : Prims g (setGLState g b).val := by
  unfold setGLState
  apply Prims.andThen
  · have h1 := restoreBindings_prims g b.sgl
    have h2 := restoreValues_prims (restoreBindings g b.sgl) b.state
    have h3 := restoreFramebuffers_prims (restoreValues (restoreBindings g b.sgl) b.state) b.sgl
    exact (h1.append h2).append h3
  · intro a
    simp only [Res.val]
    exact restoreTextureBindings_prims a _ _

theorem setGLStatePartial_prims (g : Gl) (p : Patch) : Prims g (setGLStatePartial g p).val := by
  unfold setGLStatePartial
  have h1 : Prims g (match p.sgl with
      | some sgl => setBindingsPartial g sgl p.state
      | none => g) := by
    split
    · exact setBindingsPartial_prims g _ _
    · exact Prims.refl g
  dsimp only
  split
  · exact h1
  · rename_i st _
    exact Prims.append (Prims.append h1 (setValuesPartial_prims _ st)) (setFramebuffersPartial_prims _ st)

theorem saveState_prims (g : Gl) : Prims g (match saveState g none with
    | .ok r => Res.ok r.1
    | .thrown r => Res.thrown r.1).val := by
  unfold saveState
  dsimp only
  cases copySnapshot g g.savedState g.asSource with
  | ok t => exact Prims.one (Prim.saved g t)
  | thrown t => exact Prims.one (Prim.saved g t)

theorem Op.run_prims (op : Op) (g : Gl) : Prims g (op.run g).val := by
  cases op with
  | setter c => exact Prims.ofSetter c g
  | bindTexture t x => exact Prims.one (Prim.bindTexture g t x)
  | drawBuffers bs => exact Prims.one (Prim.drawBuffers g bs)
  | readBuffer b => exact Prims.one (Prim.readBuffer g b)
  | bindFramebuffer t fb => exact Prims.one (Prim.bindFramebuffer g t fb)
  | bindBuffer t b => exact Prims.one (Prim.bindBuffer g t b)
  | saveState => exact saveState_prims g
  | restoreState s =>
    simp only [Op.run, restoreState]
    exact setGLState_prims g (s.getD g.savedState)
  | setState p =>
    simp only [Op.run, setState]
    exact setGLStatePartial_prims g p
  | resetToDefaults frames =>
    simp only [Op.run, Gl.resetToDefaults_thrown, Res.val]
    exact Prims.refl g
  | defaultPixelStore =>
    simp only [Op.run, Res.val]
    exact defaultPixelStore_prims g

/-- Induction over the reachable states, one primitive call at a time. -/
theorem Reachable.induction_prim {P : Gl → Prop} (hinit : ∀ raw, P (enhanceWebGLContext raw))
    (hstep : ∀ g g1, Prim g g1 → P g → P g1) {g : Gl} (h : Reachable g) : P g := by
  induction h with
  | init raw => exact hinit raw
  | @step g0 op _ ih =>
    have hp := Op.run_prims op g0
    generalize (op.run g0).val = g1 at hp
    induction hp with
    | refl => exact ih
    | tail _ hprim ih2 => exact hstep _ _ hprim ih2

/-! ## The binding invariant -/

theorem bindBuffer_eq (g : Gl) (t : Val) (b : Handle) :
    bindBuffer g t b =
      if g.sgl.boundBufferTarget = t ∧ g.sgl.boundBuffer = b then g
      else
        { g with
          sgl := { g.sgl with
            arrayBufferBinding := if t = .num ARRAY_BUFFER then b else g.sgl.arrayBufferBinding
            elementArrayBufferBinding :=
              if t = .num ELEMENT_ARRAY_BUFFER then b else g.sgl.elementArrayBufferBinding
            uniformBufferBinding := if t = .num UNIFORM_BUFFER then b else g.sgl.uniformBufferBinding
            boundBufferTarget := t
            boundBuffer := b }
          log := g.log ++ [.bindBuffer t b] } := by
  have hc : (ARRAY_BUFFER ≠ ELEMENT_ARRAY_BUFFER) ∧ (ARRAY_BUFFER ≠ UNIFORM_BUFFER)
      ∧ (ELEMENT_ARRAY_BUFFER ≠ UNIFORM_BUFFER) := by decide
  obtain ⟨c1, c2, c3⟩ := hc
  unfold bindBuffer
  split
  · rfl
  · by_cases h1 : t = .num ARRAY_BUFFER
    · subst h1; simp [Gl.forward, c1, c2]
    · by_cases h2 : t = .num ELEMENT_ARRAY_BUFFER
      · subst h2; simp [Gl.forward, c1.symm, c3]
      · by_cases h3 : t = .num UNIFORM_BUFFER
        · subst h3; simp [Gl.forward, c2.symm, c3.symm]
        · simp [Gl.forward, h1, h2, h3]

theorem bindBuffer_inv (g : Gl) (t : Val) (b : Handle) (h : g.Inv) : (bindBuffer g t b).Inv := by
  have hc : (ARRAY_BUFFER ≠ ELEMENT_ARRAY_BUFFER) ∧ (ARRAY_BUFFER ≠ UNIFORM_BUFFER)
      ∧ (ELEMENT_ARRAY_BUFFER ≠ UNIFORM_BUFFER) := by decide
  obtain ⟨c1, c2, c3⟩ := hc
  rw [bindBuffer_eq]
  split
  · exact h
  · obtain ⟨_, _, _, h4, h5⟩ := h
    refine ⟨?_, ?_, ?_, h4, h5⟩
    · intro ht; simp only at ht; simp [ht]
    · intro ht; simp only at ht; simp [ht]
    · intro ht; simp only at ht; simp [ht]

theorem bindFramebuffer_inv (g : Gl) (t : Val) (fb : Handle) (h : g.Inv) :
    (bindFramebuffer g t fb).Inv := by
  have hc : (FRAMEBUFFER ≠ DRAW_FRAMEBUFFER) ∧ (FRAMEBUFFER ≠ READ_FRAMEBUFFER)
      ∧ (DRAW_FRAMEBUFFER ≠ READ_FRAMEBUFFER) := by decide
  obtain ⟨c1, c2, c3⟩ := hc
  rw [bindFramebuffer_eq]
  obtain ⟨h1, h2, h3, h4, h5⟩ := h
  refine ⟨h1, h2, h3, ?_, ?_⟩
  · simp only
    by_cases e1 : t = .num FRAMEBUFFER
    · simp [e1]
    · by_cases e2 : t = .num DRAW_FRAMEBUFFER
      · simp [e2]
      · simpa [e1, e2] using h4
  · simp only
    by_cases e1 : t = .num FRAMEBUFFER
    · simp [e1]
    · by_cases e2 : t = .num READ_FRAMEBUFFER
      · simp [e2]
      · simpa [e1, e2] using h5

theorem drawBuffers_inv (g : Gl) (bs : Option (List Val)) (h : g.Inv) : (drawBuffers g bs).val.Inv := by
  unfold drawBuffers
  split
  · exact h
  · exact h

theorem readBuffer_inv (g : Gl) (b : Val) (h : g.Inv) : (readBuffer g b).val.Inv := by
  unfold readBuffer
  split
  · exact h
  · exact h

theorem setter_inv (c : Setter) (g : Gl) (h : g.Inv) : (c.run g).Inv := by
  cases c <;>
    simp only [Setter.run, viewport_eq, blendColor_eq, blendEquation_eq, blendEquationSeparate_eq,
      blendFunc_eq, blendFuncSeparate_eq, cullFace_eq, frontFace_eq, lineWidth_eq, clearColor_eq,
      colorMask_eq, clearDepth_eq, depthFunc_eq, depthMask_eq, depthRange_eq, polygonOffset_eq,
      sampleCoverage_eq, scissor_eq, stencilFunc_eq, stencilOp_eq, stencilMask_eq, clearStencil_eq,
      activeTexture_eq, useProgram_eq, bindVertexArray_eq, pixelStorei_eq, enable_eq, disable_eq,
      stencilFuncSeparate_eq, stencilOpSeparate_eq, stencilMaskSeparate_eq] <;>
    exact h

theorem prim_inv (g g1 : Gl) (hp : Prim g g1) (h : g.Inv) : g1.Inv := by
  cases hp with
  | setter c => exact setter_inv c g h
  | bindTexture => exact h
  | bindFramebuffer => exact bindFramebuffer_inv _ _ _ h
  | bindBuffer => exact bindBuffer_inv _ _ _ h
  | drawBuffers => exact drawBuffers_inv _ _ h
  | readBuffer => exact readBuffer_inv _ _ h
  | saved => exact h

theorem enhance_inv (raw : RawContext) : (enhanceWebGLContext raw).Inv := by
  unfold enhanceWebGLContext
  dsimp only
  split <;> simp [Gl.Inv, wrapStatefulGLFunctions, slowFetchGLState]

theorem Reachable.inv {g : Gl} (h : Reachable g) : g.Inv :=
  Reachable.induction_prim enhance_inv prim_inv h

/-! ## The framebuffer phase on complete entries -/

theorem drawBuffers_ok (g : Gl) (n : Nat) (bs : List Val) (h : g.lastDrawBufferBound = .obj n) :
    ∃ g1, drawBuffers g (some bs) = .ok g1 ∧ PropsFrame g g1 ∧ g1.log = g.log ++ [.drawBuffers bs] := by
  unfold drawBuffers
  rw [h]
  refine ⟨_, rfl, ?_, rfl⟩
  unfold PropsFrame
  simp [Gl.forward, h]

theorem readBuffer_ok (g : Gl) (n : Nat) (b : Val) (h : g.lastReadBufferBound = .obj n) :
    ∃ g1, readBuffer g b = .ok g1 ∧ PropsFrame g g1 ∧ g1.log = g.log ++ [.readBuffer b] := by
  unfold readBuffer
  rw [h]
  refine ⟨_, rfl, ?_, rfl⟩
  unfold PropsFrame
  simp [Gl.forward, h]

theorem bindFramebuffer_rebound_fb (g : Gl) (fb : Handle) :
    Rebound g (bindFramebuffer g (.num FRAMEBUFFER) fb) true true true fb := by
  rw [bindFramebuffer_eq]; simp [Rebound]

theorem bindFramebuffer_rebound_draw (g : Gl) (fb : Handle) :
    Rebound g (bindFramebuffer g (.num DRAW_FRAMEBUFFER) fb) false true false fb := by
  rw [bindFramebuffer_eq]; simp [Rebound, FRAMEBUFFER, DRAW_FRAMEBUFFER, READ_FRAMEBUFFER]

theorem bindFramebuffer_rebound_read (g : Gl) (fb : Handle) :
    Rebound g (bindFramebuffer g (.num READ_FRAMEBUFFER) fb) false false true fb := by
  rw [bindFramebuffer_eq]; simp [Rebound, FRAMEBUFFER, DRAW_FRAMEBUFFER, READ_FRAMEBUFFER]

theorem Rebound.propsFrame {g g1 g2 : Gl} {c d r : Bool} {fb : Handle} (h : Rebound g g1 c d r fb)
    (h2 : PropsFrame g1 g2) : Rebound g g2 c d r fb := by
  unfold PropsFrame at h2
  unfold Rebound at *
  rw [h2]
  exact h

theorem bindCombined_ok (g : Gl) (p : FbPack) (hp : p.Complete true) :
    ∃ g1, bindFramebufferWithReadDrawConfig g FRAMEBUFFER p = .ok g1
      ∧ Rebound g g1 true true true p.buffer := by
  obtain ⟨hu, hd⟩ := hp
  unfold bindFramebufferWithReadDrawConfig
  dsimp only
  split
  · exact ⟨_, rfl, bindFramebuffer_rebound_fb g _⟩
  · rename_i hnull
    have hr := bindFramebuffer_rebound_fb g p.buffer
    generalize bindFramebuffer g (.num FRAMEBUFFER) p.buffer = g0 at hr
    cases hb : p.buffer with
    | undef => exact absurd hb hu
    | null => exact absurd hb hnull
    | obj n =>
      cases hdb : p.drawBuffers with
      | none => exact absurd hdb (hd rfl hnull)
      | some bs =>
        rw [hb] at hr
        obtain ⟨g1, e1, f1, _⟩ := drawBuffers_ok g0 n bs (by rw [hr.2.2.1]; rfl)
        have hr1 := hr.propsFrame f1
        obtain ⟨g2, e2, f2, _⟩ := readBuffer_ok g1 n p.readBuffer (by rw [hr1.2.2.2]; rfl)
        refine ⟨g2, ?_, hr1.propsFrame f2⟩
        simp [e1, e2, Res.andThen]

theorem bindDraw_ok (g : Gl) (p : FbPack) (hp : p.Complete true) :
    ∃ g1, bindFramebufferWithReadDrawConfig g DRAW_FRAMEBUFFER p = .ok g1
      ∧ Rebound g g1 false true false p.buffer := by
  obtain ⟨hu, hd⟩ := hp
  unfold bindFramebufferWithReadDrawConfig
  dsimp only
  split
  · exact ⟨_, rfl, bindFramebuffer_rebound_draw g _⟩
  · rename_i hnull
    have hr := bindFramebuffer_rebound_draw g p.buffer
    generalize bindFramebuffer g (.num DRAW_FRAMEBUFFER) p.buffer = g0 at hr
    cases hb : p.buffer with
    | undef => exact absurd hb hu
    | null => exact absurd hb hnull
    | obj n =>
      cases hdb : p.drawBuffers with
      | none => exact absurd hdb (hd rfl hnull)
      | some bs =>
        rw [hb] at hr
        obtain ⟨g1, e1, f1, _⟩ := drawBuffers_ok g0 n bs (by rw [hr.2.2.1]; rfl)
        refine ⟨g1, ?_, hr.propsFrame f1⟩
        simp [e1, Res.andThen, FRAMEBUFFER, DRAW_FRAMEBUFFER, READ_FRAMEBUFFER]

theorem bindRead_ok (g : Gl) (p : FbPack) (hp : p.Complete false) :
    ∃ g1, bindFramebufferWithReadDrawConfig g READ_FRAMEBUFFER p = .ok g1
      ∧ Rebound g g1 false false true p.buffer := by
  obtain ⟨hu, _⟩ := hp
  unfold bindFramebufferWithReadDrawConfig
  dsimp only
  split
  · exact ⟨_, rfl, bindFramebuffer_rebound_read g _⟩
  · rename_i hnull
    have hr := bindFramebuffer_rebound_read g p.buffer
    generalize bindFramebuffer g (.num READ_FRAMEBUFFER) p.buffer = g0 at hr
    cases hb : p.buffer with
    | undef => exact absurd hb hu
    | null => exact absurd hb hnull
    | obj n =>
      rw [hb] at hr
      obtain ⟨g1, e1, f1, _⟩ := readBuffer_ok g0 n p.readBuffer (by rw [hr.2.2.2]; rfl)
      refine ⟨g1, ?_, hr.propsFrame f1⟩
      simp [e1, Res.andThen, FRAMEBUFFER, DRAW_FRAMEBUFFER, READ_FRAMEBUFFER]

theorem restoreFramebuffers_ok (g : Gl) (sgl : Sgl) (hf : sgl.framebuffer.Complete true)
    (hd : sgl.drawingBuffer.Complete true) (hr : sgl.readingBuffer.Complete false) :
    ∃ g1, restoreFramebuffers g sgl = .ok g1 ∧ g1.state = g.state ∧
      g1.sgl = { g.sgl with
        boundFramebuffer := sgl.framebuffer.buffer
        boundDrawingBuffer :=
          if sgl.lastDrawBufferBound = sgl.drawingBuffer.buffer
              ∧ sgl.lastDrawBufferBound ≠ sgl.framebuffer.buffer then sgl.drawingBuffer.buffer
          else sgl.framebuffer.buffer
        boundReadingBuffer :=
          if sgl.lastReadBufferBound = sgl.readingBuffer.buffer
              ∧ sgl.lastReadBufferBound ≠ sgl.framebuffer.buffer then sgl.readingBuffer.buffer
          else sgl.framebuffer.buffer } := by
  unfold restoreFramebuffers
  obtain ⟨g1, e1, s1, b1, _, _⟩ := bindCombined_ok g sgl.framebuffer hf
  rw [e1]
  simp only [Res.andThen]
  by_cases cd : sgl.lastDrawBufferBound = sgl.drawingBuffer.buffer
      ∧ sgl.lastDrawBufferBound ≠ sgl.framebuffer.buffer
  · obtain ⟨g2, e2, s2, b2, _, _⟩ := bindDraw_ok g1 sgl.drawingBuffer hd
    rw [if_pos cd, e2]
    simp only
    by_cases cr : sgl.lastReadBufferBound = sgl.readingBuffer.buffer
        ∧ sgl.lastReadBufferBound ≠ sgl.framebuffer.buffer
    · obtain ⟨g3, e3, s3, b3, _, _⟩ := bindRead_ok g2 sgl.readingBuffer hr
      rw [if_pos cr, e3]
      refine ⟨g3, rfl, by rw [s3, s2, s1], ?_⟩
      rw [b3, b2, b1, if_pos cd, if_pos cr]
      simp
    · rw [if_neg cr]
      refine ⟨g2, rfl, by rw [s2, s1], ?_⟩
      rw [b2, b1, if_pos cd, if_neg cr]
      simp
  · rw [if_neg cd]
    simp only
    by_cases cr : sgl.lastReadBufferBound = sgl.readingBuffer.buffer
        ∧ sgl.lastReadBufferBound ≠ sgl.framebuffer.buffer
    · obtain ⟨g3, e3, s3, b3, _, _⟩ := bindRead_ok g1 sgl.readingBuffer hr
      rw [if_pos cr, e3]
      refine ⟨g3, rfl, by rw [s3, s1], ?_⟩
      rw [b3, b1, if_neg cd, if_pos cr]
      simp
    · rw [if_neg cr]
      refine ⟨g1, rfl, s1, ?_⟩
      rw [b1, if_neg cd, if_neg cr]
      simp

theorem bindBuffer_state (g : Gl) (t : Val) (b : Handle) : (bindBuffer g t b).state = g.state := by
  rw [bindBuffer_eq]
  split <;> rfl

theorem restoreBindings_state (g : Gl) (sgl : Sgl) : (restoreBindings g sgl).state = g.state := by
  simp only [restoreBindings, bindBuffer_state, useProgram_eq, bindVertexArray_eq]

theorem restoreBindings_sgl (g : Gl) (sgl : Sgl) (h : g.Inv) :
    (restoreBindings g sgl).sgl.activeProgram = sgl.activeProgram ∧
    (restoreBindings g sgl).sgl.vertexArrayBinding = sgl.vertexArrayBinding ∧
    (restoreBindings g sgl).sgl.arrayBufferBinding = sgl.arrayBufferBinding ∧
    (restoreBindings g sgl).sgl.uniformBufferBinding = sgl.uniformBufferBinding := by
  have hc : (ARRAY_BUFFER ≠ ELEMENT_ARRAY_BUFFER) ∧ (ARRAY_BUFFER ≠ UNIFORM_BUFFER)
      ∧ (ELEMENT_ARRAY_BUFFER ≠ UNIFORM_BUFFER) := by decide
  obtain ⟨c1, c2, c3⟩ := hc
  obtain ⟨h1, _, _, _, _⟩ := h
  simp only [restoreBindings, useProgram_eq, bindVertexArray_eq, bindBuffer_eq]
  by_cases e1 : g.sgl.boundBufferTarget = .num ARRAY_BUFFER ∧ g.sgl.boundBuffer = sgl.arrayBufferBinding
  · have := h1 e1.1
    simp [e1, c2, c2.symm, this]
  · simp [e1, c2, c2.symm]

set_option maxRecDepth 100000 in
/-- C3 (restore correctness for values and plain bindings), refuted on the typed-array
mirrors.  The snapshot `sampleWideBox` is complete and holds `[0, 0, 2147483648, 1]` as
viewport and as scissor box: after `restoreState` on the fresh sample context the
mirrored viewport, a plain array, equals the snapshot's, and the mirrored scissor box,
an `Int32Array`, holds `-2147483648` in its third slot.  The snapshot taken by
`createState()` after `gl.clearColor(1e39, 0, 0, 1)` is complete and records `null` as
the red value: after `restoreState` of it on that same state the mirrored clear colour,
a `Float32Array`, holds `0` there. -/
theorem restoreState_converts_typed_array_fields :
    sampleWideBox.Complete ∧
    (∃ g1, restoreState sampleGl (some sampleWideBox) = .ok g1 ∧
      g1.state.viewport = sampleWideBox.state.viewport ∧
      g1.state.scissor = ⟨.num 0, .num 0, .num (-2147483648), .num 1⟩ ∧
      g1.state.scissor ≠ sampleWideBox.state.scissor) ∧
    createState sampleOverflowColor = some sampleOverflowSnapshot ∧
    sampleOverflowSnapshot.Complete ∧
    sampleOverflowSnapshot.state.clearColor
      = ⟨.val .null, .val (.num 0), .val (.num 0), .val (.num 1)⟩ ∧
    (∃ g1, restoreState sampleOverflowColor (some sampleOverflowSnapshot) = .ok g1 ∧
      g1.state.clearColor = ⟨.val (.num 0), .val (.num 0), .val (.num 0), .val (.num 1)⟩ ∧
      g1.state.clearColor ≠ sampleOverflowSnapshot.state.clearColor) := by
  refine ⟨by decide, ⟨(restoreState sampleGl (some sampleWideBox)).val, ?_, ?_, ?_, ?_⟩, ?_, ?_, ?_,
    ⟨(restoreState sampleOverflowColor (some sampleOverflowSnapshot)).val, ?_, ?_, ?_⟩⟩ <;> decide

/-! ## Forwarded calls -/

theorem forwards_iff (P : Call → Prop) (g g1 : Gl) :
    Forwards P g g1 ↔ ∃ l : List Call, g1.log = g.log ++ l ∧ ∀ c ∈ l, P c := by
  constructor
  · intro h
    exact ⟨_, h.1, h.2⟩
  · rintro ⟨l, e, p⟩
    have hl : forwarded g g1 = l := by simp [forwarded, e]
    unfold Forwards
    rw [hl]
    exact ⟨e, p⟩

theorem Forwards.fwdSame (P : Call → Prop) (g : Gl) : Forwards P g g :=
  (forwards_iff P g g).mpr ⟨[], by simp, by simp⟩

theorem Forwards.fwdThen {P : Call → Prop} (a b c : Gl) (h1 : Forwards P a b) (h2 : Forwards P b c) :
    Forwards P a c := by
  obtain ⟨l1, e1, p1⟩ := (forwards_iff P a b).mp h1
  obtain ⟨l2, e2, p2⟩ := (forwards_iff P b c).mp h2
  refine (forwards_iff P a c).mpr ⟨l1 ++ l2, by rw [e2, e1, List.append_assoc], ?_⟩
  intro c hc
  rcases List.mem_append.mp hc with h | h
  · exact p1 c h
  · exact p2 c h

theorem Forwards.mono {P Q : Call → Prop} {g g1 : Gl} (h : Forwards P g g1) (hpq : ∀ c, P c → Q c) :
    Forwards Q g g1 := by
  obtain ⟨l, e, p⟩ := (forwards_iff P g g1).mp h
  exact (forwards_iff Q g g1).mpr ⟨l, e, fun c hc => hpq c (p c hc)⟩

theorem Forwards.fwdOne {P : Call → Prop} {g g1 : Gl} (c : Call) (h : g1.log = g.log ++ [c]) (hc : P c) :
    Forwards P g g1 :=
  (forwards_iff P g g1).mpr ⟨[c], h, by simpa using hc⟩

theorem bindBuffer_forwards (g : Gl) (t : Val) (b : Handle) :
    Forwards Call.isBindBuffer g (bindBuffer g t b) := by
  rw [bindBuffer_eq]
  split
  · exact Forwards.fwdSame _ g
  · exact Forwards.fwdOne (.bindBuffer t b) rfl trivial

theorem bindFramebuffer_forwards (g : Gl) (t : Val) (fb : Handle) :
    Forwards Call.isFramebufferCall g (bindFramebuffer g t fb) := by
  rw [bindFramebuffer_eq]
  exact Forwards.fwdOne (.bindFramebuffer t fb) rfl trivial

theorem drawBuffers_forwards (g : Gl) (bs : Option (List Val)) :
    Forwards Call.isFramebufferCall g (drawBuffers g bs).val := by
  unfold drawBuffers
  split
  · exact Forwards.fwdOne (.drawBuffers _) rfl trivial
  · exact Forwards.fwdSame _ g

theorem readBuffer_forwards (g : Gl) (b : Val) :
    Forwards Call.isFramebufferCall g (readBuffer g b).val := by
  unfold readBuffer
  split
  · exact Forwards.fwdOne (.readBuffer b) rfl trivial
  · exact Forwards.fwdSame _ g

theorem bindFramebufferWithReadDrawConfig_forwards (g : Gl) (t : Int) (p : FbPack) :
    Forwards Call.isFramebufferCall g (bindFramebufferWithReadDrawConfig g t p).val := by
  unfold bindFramebufferWithReadDrawConfig
  dsimp only
  split
  · exact bindFramebuffer_forwards g _ _
  · apply Res.andThen_val_rel Forwards.fwdThen
    · split
      · exact Forwards.fwdThen _ _ _ (bindFramebuffer_forwards g _ _) (drawBuffers_forwards _ _)
      · exact bindFramebuffer_forwards g _ _
    · intro a
      split
      · exact readBuffer_forwards a _
      · exact Forwards.fwdSame _ a

theorem restoreFramebuffers_forwards (g : Gl) (sgl : Sgl) :
    Forwards Call.isFramebufferCall g (restoreFramebuffers g sgl).val := by
  unfold restoreFramebuffers
  apply Res.andThen_val_rel Forwards.fwdThen
  · exact bindFramebufferWithReadDrawConfig_forwards g _ _
  · intro a
    apply Res.andThen_val_rel Forwards.fwdThen
    · split
      · exact bindFramebufferWithReadDrawConfig_forwards a _ _
      · exact Forwards.fwdSame _ a
    · intro b
      split
      · exact bindFramebufferWithReadDrawConfig_forwards b _ _
      · exact Forwards.fwdSame _ b

/-! ## Restoring what is already there -/

theorem foldl_self (step : Gl → Nat → Gl) (g : Gl) (ks : List Nat) (h : ∀ k, step g k = g) :
    ks.foldl step g = g := by
  induction ks with
  | nil => rfl
  | cons k ks ih => rw [List.foldl_cons, h k, ih]

theorem restoreGLFeatures_self (g : Gl) : restoreGLFeatures g g.state.feats = g := by
  unfold restoreGLFeatures
  apply foldl_self
  intro k
  simp

theorem restoreStorei_self (g : Gl) : restoreStorei g g.state.storei = g := by
  unfold restoreStorei
  apply foldl_self
  intro k
  simp

theorem restoreTextureBindings_self (g : Gl) :
    restoreTextureBindings g g.sgl.textures g.state.activeTexture = g := by
  unfold restoreTextureBindings
  rw [foldl_self]
  · simp [activeTexture]
  · intro k
    simp [restoreTextureUnit]

theorem viewport_self (g : Gl) :
    viewport g g.state.viewport.x0 g.state.viewport.x1 g.state.viewport.x2 g.state.viewport.x3 = g := by
  simp [viewport, arr4Eq]

theorem Elem.strictEq_self (e : Elem) (h : e.jsonSlot = e) : e.strictEq e = true := by
  cases e <;> simp_all [Elem.strictEq, Elem.jsonSlot]

theorem Vec4F.arr4Eq_self (v : Vec4F) (h : v.jsonClone = v) :
    v.arr4Eq v.x0 v.x1 v.x2 v.x3 = true := by
  obtain ⟨a, b, c, d⟩ := v
  simp only [Vec4F.jsonClone, Vec4F.mk.injEq] at h
  simp [Vec4F.arr4Eq, Elem.strictEq_self, h.1, h.2.1, h.2.2.1, h.2.2.2]

theorem Vec4F.store_self (v : Vec4F) (h : v.jsonClone = v) : v.store v = v := by
  simp [Vec4F.store, Vec4F.arr4Eq_self v h]

theorem Vec4.storeInt32_self (v : Vec4) : v.storeInt32 v = v := by
  simp [Vec4.storeInt32, arr4Eq]

theorem blendColor_self (g : Gl) (h : g.state.blendColor.jsonClone = g.state.blendColor) :
    blendColor g g.state.blendColor.x0 g.state.blendColor.x1 g.state.blendColor.x2 g.state.blendColor.x3 = g := by
  simp [blendColor, Vec4F.arr4Eq_self _ h]

theorem blendFuncSeparate_self (g : Gl) :
    blendFuncSeparate g g.state.blendFuncSeparate.x0 g.state.blendFuncSeparate.x1 g.state.blendFuncSeparate.x2 g.state.blendFuncSeparate.x3 = g := by
  simp [blendFuncSeparate, arr4Eq]

theorem clearColor_self (g : Gl) (h : g.state.clearColor.jsonClone = g.state.clearColor) :
    clearColor g g.state.clearColor.x0 g.state.clearColor.x1 g.state.clearColor.x2 g.state.clearColor.x3 = g := by
  simp [clearColor, Vec4F.arr4Eq_self _ h]

theorem colorMask_self (g : Gl) :
    colorMask g g.state.colorMask.x0 g.state.colorMask.x1 g.state.colorMask.x2 g.state.colorMask.x3 = g := by
  simp [colorMask, arr4Eq]

theorem scissor_self (g : Gl) :
    scissor g g.state.scissor.x0 g.state.scissor.x1 g.state.scissor.x2 g.state.scissor.x3 = g := by
  simp [scissor, arr4Eq]

theorem cullFace_self (g : Gl) : cullFace g g.state.cullFaceMode = g := by
  simp [cullFace]

theorem frontFace_self (g : Gl) : frontFace g g.state.frontFace = g := by
  simp [frontFace]

theorem lineWidth_self (g : Gl) : lineWidth g g.state.lineWidth = g := by
  simp [lineWidth]

theorem clearDepth_self (g : Gl) : clearDepth g g.state.clearDepth = g := by
  simp [clearDepth]

theorem depthFunc_self (g : Gl) : depthFunc g g.state.depthFunc = g := by
  simp [depthFunc]

theorem depthMask_self (g : Gl) : depthMask g g.state.depthMask = g := by
  simp [depthMask]

theorem depthRange_self (g : Gl) : depthRange g g.state.depthRange.x0 g.state.depthRange.x1 = g := by
  simp [depthRange]

theorem polygonOffset_self (g : Gl) : polygonOffset g g.state.polygonOffset.x0 g.state.polygonOffset.x1 = g := by
  simp [polygonOffset]

theorem sampleCoverage_self (g : Gl) : sampleCoverage g g.state.sampleCoverage.x0 g.state.sampleCoverage.x1 = g := by
  simp [sampleCoverage]

theorem blendEquationSeparate_self (g : Gl) :
    blendEquationSeparate g g.state.blendEquationRgb g.state.blendEquationAlpha = g := by
  simp [blendEquationSeparate]

theorem restoreValues_self_forwards (g : Gl)
    (hb : g.state.blendColor.jsonClone = g.state.blendColor)
    (hc : g.state.clearColor.jsonClone = g.state.clearColor) :
    Forwards (Call.roundTripAllowed g) g (restoreValues g g.state) := by
  simp only [restoreValues, restoreGLFeatures_self, restoreStorei_self, blendEquationSeparate_self, viewport_self, blendColor_self g hb, blendFuncSeparate_self, clearColor_self g hc, colorMask_self, scissor_self, cullFace_self, frontFace_self, lineWidth_self, clearDepth_self, depthFunc_self, depthMask_self, depthRange_self, polygonOffset_self, sampleCoverage_self]
  simp only [stencilFunc_eq, stencilOp_eq, stencilMask_eq, clearStencil_eq,
      stencilFuncSeparate_eq, stencilOpSeparate_eq, stencilMaskSeparate_eq, selectsBack_BACK,
      not_selectsFront_BACK, if_true, if_false]
  rw [forwards_iff]
  have eta3 : ∀ v : Vec3, (⟨v.x0, v.x1, v.x2⟩ : Vec3) = v := fun _ => rfl
  have c1 : (g.state.stencilFunc = g.state.stencilBackFunc)
      = (g.state.stencilBackFunc = g.state.stencilFunc) := propext eq_comm
  have c2 : (g.state.stencilOp = g.state.stencilBackOp)
      = (g.state.stencilBackOp = g.state.stencilOp) := propext eq_comm
  have c3 : (g.state.stencilMask = g.state.stencilBackMask)
      = (g.state.stencilBackMask = g.state.stencilMask) := propext eq_comm
  by_cases h1 : g.state.stencilBackFunc = g.state.stencilFunc <;>
    by_cases h2 : g.state.stencilBackOp = g.state.stencilOp <;>
    by_cases h3 : g.state.stencilBackMask = g.state.stencilMask <;>
    simp [Call.roundTripAllowed, eta3, c1, c2, c3, h1, h2, h3]

/-! ## What `createState` records -/

theorem packFramebuffer_some (g : Gl) (h : Handle) (t : Int) (p : FbPack)
    (ht : t = FRAMEBUFFER ∨ t = READ_FRAMEBUFFER ∨ t = DRAW_FRAMEBUFFER)
    (hp : packFramebuffer g h t = some p) :
    p.buffer = h ∧ h ≠ .undef ∧
      (t = FRAMEBUFFER ∨ t = DRAW_FRAMEBUFFER → h ≠ .null → p.drawBuffers ≠ none) := by
  unfold packFramebuffer at hp
  cases h with
  | null =>
    simp only [Option.some.injEq] at hp
    subst hp
    simp
  | undef =>
    rcases ht with ht | ht | ht <;> simp [ht] at hp
  | obj n =>
    simp only [Option.some.injEq] at hp
    subst hp
    refine ⟨rfl, by simp, ?_⟩
    intro h1 _
    simp [h1]

theorem createState_some (g : Gl) (b : Snapshot) (h : createState g = some b) :
    b.state = g.state.jsonClone ∧
    b.sgl.activeProgram = g.sgl.activeProgram ∧
    b.sgl.vertexArrayBinding = g.sgl.vertexArrayBinding ∧
    b.sgl.arrayBufferBinding = g.sgl.arrayBufferBinding ∧
    b.sgl.elementArrayBufferBinding = g.sgl.elementArrayBufferBinding ∧
    b.sgl.uniformBufferBinding = g.sgl.uniformBufferBinding ∧
    b.sgl.textures = g.sgl.textures ∧
    b.sgl.lastDrawBufferBound = g.lastDrawBufferBound ∧
    b.sgl.lastReadBufferBound = g.lastReadBufferBound ∧
    packFramebuffer g g.sgl.boundFramebuffer FRAMEBUFFER = some b.sgl.framebuffer ∧
    packFramebuffer g g.sgl.boundReadingBuffer READ_FRAMEBUFFER = some b.sgl.readingBuffer ∧
    packFramebuffer g g.sgl.boundDrawingBuffer DRAW_FRAMEBUFFER = some b.sgl.drawingBuffer := by
  unfold createState at h
  split at h
  · rename_i fb rb db e1 e2 e3
    simp only [Option.some.injEq] at h
    subst h
    exact ⟨rfl, rfl, rfl, rfl, rfl, rfl, rfl, rfl, rfl, e1, e2, e3⟩
  · exact absurd h (by simp)

theorem createState_slots (g : Gl) (b : Snapshot) (h : createState g = some b) :
    b.sgl.framebuffer.buffer = g.sgl.boundFramebuffer ∧
    b.sgl.drawingBuffer.buffer = g.sgl.boundDrawingBuffer ∧
    b.sgl.readingBuffer.buffer = g.sgl.boundReadingBuffer := by
  obtain ⟨_, _, _, _, _, _, _, _, _, e1, e2, e3⟩ := createState_some g b h
  exact ⟨(packFramebuffer_some g _ _ _ (Or.inl rfl) e1).1,
    (packFramebuffer_some g _ _ _ (Or.inr (Or.inr rfl)) e3).1,
    (packFramebuffer_some g _ _ _ (Or.inr (Or.inl rfl)) e2).1⟩

theorem createState_complete (g : Gl) (b : Snapshot) (h : createState g = some b) : b.Complete := by
  obtain ⟨_, _, _, _, _, _, _, _, _, e1, e2, e3⟩ := createState_some g b h
  obtain ⟨a1, a2, a3⟩ := packFramebuffer_some g _ _ _ (Or.inl rfl) e1
  obtain ⟨b1, b2, _⟩ := packFramebuffer_some g _ _ _ (Or.inr (Or.inl rfl)) e2
  obtain ⟨c1, c2, c3⟩ := packFramebuffer_some g _ _ _ (Or.inr (Or.inr rfl)) e3
  refine ⟨⟨by rw [a1]; exact a2, fun _ hn => a3 (Or.inl rfl) (by rw [← a1]; exact hn)⟩,
    ⟨by rw [c1]; exact c2, fun _ hn => c3 (Or.inr rfl) (by rw [← c1]; exact hn)⟩,
    ⟨by rw [b1]; exact b2, fun hf => absurd hf (by simp)⟩⟩

theorem roundTripAllowed_congr (g g1 : Gl) (h : g1.state = g.state) :
    Call.roundTripAllowed g1 = Call.roundTripAllowed g := by
  funext c
  cases c <;> simp [Call.roundTripAllowed, h]

theorem restoreBindings_self_forwards (g : Gl) (sgl : Sgl) (h1 : sgl.activeProgram = g.sgl.activeProgram)
    (h2 : sgl.vertexArrayBinding = g.sgl.vertexArrayBinding) :
    Forwards Call.isBindBuffer g (restoreBindings g sgl) := by
  simp only [restoreBindings, h1, h2, useProgram, bindVertexArray, if_true]
  exact Forwards.fwdThen _ _ _ (bindBuffer_forwards _ _ _) (bindBuffer_forwards _ _ _)

theorem bindBuffer_textures (g : Gl) (t : Val) (b : Handle) :
    (bindBuffer g t b).sgl.textures = g.sgl.textures := by
  rw [bindBuffer_eq]
  split <;> rfl

theorem restoreBindings_textures (g : Gl) (sgl : Sgl) :
    (restoreBindings g sgl).sgl.textures = g.sgl.textures := by
  simp only [restoreBindings, bindBuffer_textures, useProgram_eq, bindVertexArray_eq]

/-- C4, counterexample.  On the freshly enhanced sample context, `createState()` returns
the snapshot `sampleSnapshot`, and `restoreState` of it, issued at once, forwards three
calls to the context: two buffer binds and the bind of the combined framebuffer target. -/
theorem round_trip_forwards_calls :
    createState sampleGl = some sampleSnapshot ∧ sampleGl.log = [] ∧
      (restoreState sampleGl (some sampleSnapshot)).val.log =
        [.bindBuffer (.num ARRAY_BUFFER) .null, .bindBuffer (.num UNIFORM_BUFFER) .null,
          .bindFramebuffer (.num FRAMEBUFFER) .null] := by
  set_option maxRecDepth 100000 in decide

/-- C4, amended.  In every state whose tracked values survive serialisation unchanged
(no array slot or mapping entry holds `undefined`, `NaN` or an infinity, the values that
`JSON.stringify` writes as `null`), `restoreState(createState())` issued right after
`createState()` completes, leaves the tracked state as it was, and every call it forwards
is a buffer bind, a call of the framebuffer phase (`bindFramebuffer`, `drawBuffers`,
`readBuffer`), or a stencil setter of a stencil parameter whose mirrored front and back
values differ. -/
theorem round_trip_forwards_only_bindings (g : Gl) (b : Snapshot)
    (hs : g.state.jsonClone = g.state) (hb : createState g = some b) :
    ∃ g1, restoreState g (some b) = .ok g1 ∧ g1.state = g.state ∧
      Forwards (Call.roundTripAllowed g) g g1 := by
  obtain ⟨e0, e1, e2, _, _, _, e7, _, _, _, _, _⟩ := createState_some g b hb
  rw [hs] at e0
  obtain ⟨hf, hd, hr⟩ := createState_complete g b hb
  have s1 := restoreBindings_state g b.sgl
  have t1 := restoreBindings_textures g b.sgl
  have f1 := restoreBindings_self_forwards g b.sgl e1 e2
  simp only [restoreState, Option.getD, setGLState]
  generalize restoreBindings g b.sgl = G1 at s1 t1 f1 ⊢
  have hbs : b.state = G1.state := by rw [e0, s1]
  have hbc : G1.state.blendColor.jsonClone = G1.state.blendColor := by
    rw [s1]; exact congrArg TrackedState.blendColor hs
  have hcc : G1.state.clearColor.jsonClone = G1.state.clearColor := by
    rw [s1]; exact congrArg TrackedState.clearColor hs
  have f2 := restoreValues_self_forwards G1 hbc hcc
  have s2 := restoreValues_state G1 G1.state
  have fr2 := restoreValues_frame G1 G1.state
  rw [restoreGLFeatures_self, restoreStorei_self] at s2
  obtain ⟨G3, e3, s3, b3⟩ := restoreFramebuffers_ok (restoreValues G1 G1.state) b.sgl hf hd hr
  have f3 := restoreFramebuffers_forwards (restoreValues G1 G1.state) b.sgl
  rw [e3] at f3
  have hs2 : (restoreValues G1 G1.state).state = G1.state := by
    rw [s2, Vec4F.store_self _ hbc, Vec4F.store_self _ hcc, Vec4.storeInt32_self]
  have ht2 : (restoreValues G1 G1.state).sgl = G1.sgl := by rw [fr2]
  have hG3s : G3.state = g.state := by rw [s3, hs2, s1]
  have hG3t : G3.sgl.textures = g.sgl.textures := by rw [b3, ht2, t1]
  refine ⟨G3, ?_, hG3s, ?_⟩
  · rw [hbs, e3]
    simp only [Res.andThen]
    have := restoreTextureBindings_self G3
    rw [hG3t, ← e7, hG3s, ← e0] at this
    rw [← hbs, this]
  · rw [roundTripAllowed_congr g G1 s1] at f2
    refine Forwards.fwdThen _ _ _ (f1.mono ?_) (Forwards.fwdThen _ _ _ f2 (f3.mono ?_))
    · intro c hc
      cases c <;> simp [Call.isBindBuffer, Call.roundTripAllowed] at hc ⊢
    · intro c hc
      cases c <;> simp [Call.isFramebufferCall, Call.roundTripAllowed] at hc ⊢

set_option maxRecDepth 100000 in
/-- Witness for the amended C4: the fresh sample context and its own snapshot. -/
theorem round_trip_forwards_only_bindings_witness :
    sampleGl.state.jsonClone = sampleGl.state ∧ createState sampleGl = some sampleSnapshot ∧
      ∃ g1, restoreState sampleGl (some sampleSnapshot) = .ok g1 ∧ g1.state = sampleGl.state ∧
        Forwards (Call.roundTripAllowed sampleGl) sampleGl g1 :=
  ⟨by decide, by decide,
    round_trip_forwards_only_bindings sampleGl sampleSnapshot (by decide) (by decide)⟩

theorem restoreState_slots (G : Gl) (b : Snapshot) (hc : b.Complete)
    (hd : b.sgl.drawingBuffer.buffer ≠ b.sgl.framebuffer.buffer →
      b.sgl.lastDrawBufferBound = b.sgl.drawingBuffer.buffer)
    (hr : b.sgl.readingBuffer.buffer ≠ b.sgl.framebuffer.buffer →
      b.sgl.lastReadBufferBound = b.sgl.readingBuffer.buffer) :
    ∃ g1, restoreState G (some b) = .ok g1 ∧
      g1.sgl.boundFramebuffer = b.sgl.framebuffer.buffer ∧
      g1.sgl.boundDrawingBuffer = b.sgl.drawingBuffer.buffer ∧
      g1.sgl.boundReadingBuffer = b.sgl.readingBuffer.buffer := by
  obtain ⟨c1, c2, c3⟩ := hc
  obtain ⟨G3, e3, _, b3⟩ :=
    restoreFramebuffers_ok (restoreValues (restoreBindings G b.sgl) b.state) b.sgl c1 c2 c3
  have ht := restoreTextureBindings_frame G3 b.sgl.textures b.state.activeTexture
  have e : (restoreTextureBindings G3 b.sgl.textures b.state.activeTexture).sgl =
      { G3.sgl with
        textures := (restoreTextureBindings G3 b.sgl.textures b.state.activeTexture).sgl.textures } := by
    rw [ht]
  refine ⟨restoreTextureBindings G3 b.sgl.textures b.state.activeTexture, ?_, ?_, ?_, ?_⟩
  · simp [restoreState, setGLState, e3, Res.andThen]
  · rw [e, b3]
  · rw [e, b3]
    simp only
    by_cases h : b.sgl.drawingBuffer.buffer = b.sgl.framebuffer.buffer
    · split
      · rfl
      · exact h.symm
    · have h1 := hd h
      rw [if_pos ⟨h1, by rw [h1]; exact h⟩]
  · rw [e, b3]
    simp only
    by_cases h : b.sgl.readingBuffer.buffer = b.sgl.framebuffer.buffer
    · split
      · rfl
      · exact h.symm
    · have h1 := hr h
      rw [if_pos ⟨h1, by rw [h1]; exact h⟩]

theorem restoreState_createState_slots (g G : Gl) (b : Snapshot) (hg : g.Inv)
    (hb : createState g = some b) :
    ∃ g1, restoreState G (some b) = .ok g1 ∧
      g1.sgl.boundFramebuffer = b.sgl.framebuffer.buffer ∧
      g1.sgl.boundDrawingBuffer = b.sgl.drawingBuffer.buffer ∧
      g1.sgl.boundReadingBuffer = b.sgl.readingBuffer.buffer ∧
      b.sgl.framebuffer.buffer = g.sgl.boundFramebuffer ∧
      b.sgl.drawingBuffer.buffer = g.sgl.boundDrawingBuffer ∧
      b.sgl.readingBuffer.buffer = g.sgl.boundReadingBuffer := by
  obtain ⟨s1, s2, s3⟩ := createState_slots g b hb
  obtain ⟨_, _, _, _, _, _, _, l1, l2, _, _, _⟩ := createState_some g b hb
  obtain ⟨_, _, _, i4, i5⟩ := hg
  obtain ⟨g1, e, r1, r2, r3⟩ := restoreState_slots G b (createState_complete g b hb)
    (by rw [s1, s2, l1]; exact i4) (by rw [s1, s3, l2]; exact i5)
  exact ⟨g1, e, r1, r2, r3, s1, s2, s3⟩

/-- C5 (framebuffer restore, last write wins).  For every reachable state, every
snapshot `b` that `createState` returns there and every later sequence of
`bindFramebuffer` calls, `restoreState b` completes and leaves the combined, draw-only
and read-only slots of the mirror equal to the three handles recorded in `b`, which are
the slots at the time of capture.  In particular, for a snapshot captured after binding
draw-only to `d` and then combined to `c`, the draw-only slot after the restore is `c`;
and for one captured after binding combined to `c` and then draw-only to `d`, the
draw-only slot after the restore is `d` and the combined slot is `c`. -/
theorem framebuffer_restore_last_write_wins (g : Gl) (hg : Reachable g) :
    (∀ (b : Snapshot) (binds : List (Val × Handle)), createState g = some b →
      ∃ g1, restoreState (runBinds g binds) (some b) = .ok g1 ∧
        g1.sgl.boundFramebuffer = b.sgl.framebuffer.buffer ∧
        g1.sgl.boundDrawingBuffer = b.sgl.drawingBuffer.buffer ∧
        g1.sgl.boundReadingBuffer = b.sgl.readingBuffer.buffer ∧
        b.sgl.framebuffer.buffer = g.sgl.boundFramebuffer ∧
        b.sgl.drawingBuffer.buffer = g.sgl.boundDrawingBuffer ∧
        b.sgl.readingBuffer.buffer = g.sgl.boundReadingBuffer) ∧
    (∀ (d c : Handle) (b : Snapshot) (binds : List (Val × Handle)),
      createState (bindFramebuffer (bindFramebuffer g (.num DRAW_FRAMEBUFFER) d) (.num FRAMEBUFFER) c)
        = some b →
      ∃ g1, restoreState
          (runBinds (bindFramebuffer (bindFramebuffer g (.num DRAW_FRAMEBUFFER) d) (.num FRAMEBUFFER) c)
            binds) (some b) = .ok g1 ∧
        g1.sgl.boundDrawingBuffer = c) ∧
    (∀ (d c : Handle) (b : Snapshot) (binds : List (Val × Handle)),
      createState (bindFramebuffer (bindFramebuffer g (.num FRAMEBUFFER) c) (.num DRAW_FRAMEBUFFER) d)
        = some b →
      ∃ g1, restoreState
          (runBinds (bindFramebuffer (bindFramebuffer g (.num FRAMEBUFFER) c) (.num DRAW_FRAMEBUFFER) d)
            binds) (some b) = .ok g1 ∧
        g1.sgl.boundDrawingBuffer = d ∧ g1.sgl.boundFramebuffer = c) := by
  refine ⟨?_, ?_, ?_⟩
  · intro b binds hb
    exact restoreState_createState_slots g _ b hg.inv hb
  · intro d c b binds hb
    have hi := bindFramebuffer_inv _ (.num FRAMEBUFFER) c
      (bindFramebuffer_inv g (.num DRAW_FRAMEBUFFER) d hg.inv)
    obtain ⟨g1, e, _, r2, _, _, s2, _⟩ := restoreState_createState_slots _ (runBinds _ binds) b hi hb
    refine ⟨g1, e, ?_⟩
    rw [r2, s2, bindFramebuffer_eq]
    simp
  · intro d c b binds hb
    have hi := bindFramebuffer_inv _ (.num DRAW_FRAMEBUFFER) d
      (bindFramebuffer_inv g (.num FRAMEBUFFER) c hg.inv)
    obtain ⟨g1, e, r1, r2, _, s1, s2, _⟩ := restoreState_createState_slots _ (runBinds _ binds) b hi hb
    refine ⟨g1, e, ?_, ?_⟩
    · rw [r2, s2, bindFramebuffer_eq]
      simp
    · rw [r1, s1, bindFramebuffer_eq, bindFramebuffer_eq]
      simp [FRAMEBUFFER, DRAW_FRAMEBUFFER]

set_option maxRecDepth 100000 in
/-- Witness for C5: on the fresh sample context, the snapshot taken there is restored
after a later bind of framebuffer object 1 to the draw-only target. -/
theorem framebuffer_restore_last_write_wins_witness :
    Reachable sampleGl ∧ createState sampleGl = some sampleSnapshot ∧
      ∃ g1, restoreState (runBinds sampleGl [(.num DRAW_FRAMEBUFFER, .obj 1)]) (some sampleSnapshot)
          = .ok g1 ∧
        g1.sgl.boundFramebuffer = sampleSnapshot.sgl.framebuffer.buffer ∧
        g1.sgl.boundDrawingBuffer = sampleSnapshot.sgl.drawingBuffer.buffer ∧
        g1.sgl.boundReadingBuffer = sampleSnapshot.sgl.readingBuffer.buffer ∧
        sampleSnapshot.sgl.framebuffer.buffer = sampleGl.sgl.boundFramebuffer ∧
        sampleSnapshot.sgl.drawingBuffer.buffer = sampleGl.sgl.boundDrawingBuffer ∧
        sampleSnapshot.sgl.readingBuffer.buffer = sampleGl.sgl.boundReadingBuffer :=
  ⟨Reachable.init sampleRaw, by decide,
    (framebuffer_restore_last_write_wins sampleGl (Reachable.init sampleRaw)).1 sampleSnapshot
      [(.num DRAW_FRAMEBUFFER, .obj 1)] (by decide)⟩

set_option maxRecDepth 100000 in
/-- C6, the code at the failing input.  After `bindFramebuffer(DRAW_FRAMEBUFFER, fb)` on
the sample context, `createState()` records `fb` as the last draw-bound framebuffer,
while `saveState(target)` writes `null` (the value read at bootstrap) into the target;
restoring the `createState` snapshot leaves the draw-only slot at `fb`, restoring the
saved target leaves it at `null`. -/
theorem saveState_misses_last_bound_framebuffer :
    (createState sampleDrawBound).map (fun b => b.sgl.lastDrawBufferBound) = some (.obj 1) ∧
    (saveState sampleDrawBound (some sampleSnapshot)).val.2.sgl.lastDrawBufferBound = .null ∧
    (createState sampleDrawBound).map
        (fun b => (restoreState sampleDrawBound (some b)).val.sgl.boundDrawingBuffer) = some (.obj 1) ∧
    (restoreState sampleDrawBound
        (some (saveState sampleDrawBound (some sampleSnapshot)).val.2)).val.sgl.boundDrawingBuffer
      = .null := by
  decide

set_option maxRecDepth 100000 in
/-- C7, the code at the failing input.  The snapshot taken on the fresh sample context
has no entry for `RASTERIZER_DISCARD`; after `enable(RASTERIZER_DISCARD)`, restoring the
snapshot forwards no `disable` and the mirror still holds `true` for that key. -/
theorem restore_keeps_late_capability :
    sampleSnapshot.state.feats.get RASTERIZER_DISCARD = .undef ∧
    (restoreState sampleDiscarding (some sampleSnapshot)).val.state.feats.get RASTERIZER_DISCARD
      = .bool true ∧
    Call.disable RASTERIZER_DISCARD ∉ (restoreState sampleDiscarding (some sampleSnapshot)).val.log := by
  decide

set_option maxRecDepth 100000 in
/-- C8, the code at the failing input.  A patch holding only `stencilFunc` changes the
mirrored `stencilBackFunc`, which the patch does not contain. -/
theorem partial_stencilFunc_overwrites_back :
    sampleGl.state.stencilBackFunc = ⟨.num ALWAYS, .num 0, .num 0x7FFFFFFF⟩ ∧
    (setState sampleGl patchStencilFunc).val.state.stencilBackFunc = ⟨.num 514, .num 1, .num 255⟩ := by
  decide

set_option maxRecDepth 100000 in
/-- C9, the code at the failing input.  A patch whose `stencilMask`, `stencilBackMask`
and `clearStencil` are `0` and whose `activeProgram` is `null` is applied without error
and changes none of these fields: the mirror keeps its stencil masks, clear value 5 and
program, and nothing is forwarded. -/
theorem partial_skips_zero_and_null :
    (setState sampleBusy patchZeroes).isOk = true ∧
    (setState sampleBusy patchZeroes).val.state.stencilMask = .num 0xFFFFFFFF ∧
    (setState sampleBusy patchZeroes).val.state.stencilBackMask = .num 0xFFFFFFFF ∧
    (setState sampleBusy patchZeroes).val.state.clearStencil = .num 5 ∧
    (setState sampleBusy patchZeroes).val.sgl.activeProgram = .obj 7 ∧
    (setState sampleBusy patchZeroes).val.log = sampleBusy.log := by
  decide

set_option maxRecDepth 100000 in
/-- C10, the code at the failing input.  A patch whose pixel-store params set
`UNPACK_ALIGNMENT` to 1 leaves the mirrored value at 4 and forwards nothing. -/
theorem partial_ignores_pixel_store :
    (setState sampleGl patchStorei).isOk = true ∧
    (setState sampleGl patchStorei).val.state.storei.get UNPACK_ALIGNMENT = .num 4 ∧
    (setState sampleGl patchStorei).val.log = [] := by
  decide

/-! ## Partial restore and the framebuffer slots -/

set_option maxRecDepth 100000 in
/-- C11, the code at the failing input.  The snapshot `sampleSnapshot` is the one
`createState` returns on the fresh sample context (all three framebuffer slots `null`).
After a later `bindFramebuffer(FRAMEBUFFER, fb)`, a reachable state, `restoreState` of
the snapshot completes and leaves the three slots at `null`, while `setState` of the same
snapshot completes, forwards no framebuffer call and leaves the three slots at `fb`. -/
theorem setState_skips_snapshot_framebuffers :
    Reachable sampleFbBound ∧ createState sampleGl = some sampleSnapshot ∧
    (restoreState sampleFbBound (some sampleSnapshot)).isOk = true ∧
    (restoreState sampleFbBound (some sampleSnapshot)).val.sgl.boundFramebuffer = .null ∧
    (restoreState sampleFbBound (some sampleSnapshot)).val.sgl.boundDrawingBuffer = .null ∧
    (restoreState sampleFbBound (some sampleSnapshot)).val.sgl.boundReadingBuffer = .null ∧
    (setState sampleFbBound sampleSnapshot.toPatch).isOk = true ∧
    (setState sampleFbBound sampleSnapshot.toPatch).val.sgl.boundFramebuffer = .obj 1 ∧
    (setState sampleFbBound sampleSnapshot.toPatch).val.sgl.boundDrawingBuffer = .obj 1 ∧
    (setState sampleFbBound sampleSnapshot.toPatch).val.sgl.boundReadingBuffer = .obj 1 ∧
    (∀ c ∈ forwarded sampleFbBound (setState sampleFbBound sampleSnapshot.toPatch).val,
      ¬ c.isFramebufferCall) :=
  ⟨Reachable.step (.bindFramebuffer (.num FRAMEBUFFER) (.obj 1)) (Reachable.init sampleRaw),
    by decide⟩

/-! ## The mirror update of `bindFramebuffer` -/

/-- C12 (framebuffer binding mirror update).  For every state and handle `fb`:
`bindFramebuffer(FRAMEBUFFER, fb)` sets the combined, draw-only and read-only slots and
both last-bound memories to `fb`; `bindFramebuffer(DRAW_FRAMEBUFFER, fb)` sets the
draw-only slot and the last-bound-draw memory only; `bindFramebuffer(READ_FRAMEBUFFER,
fb)` sets the read-only slot and the last-bound-read memory only.  In each case every
other field of `gl.sgl`, the whole of `gl.state`, the default draw-target list and the
stored snapshots are unchanged. -/
theorem bindFramebuffer_mirror_update (g : Gl) (fb : Handle) :
    ((bindFramebuffer g (.num FRAMEBUFFER) fb).sgl =
        { g.sgl with boundFramebuffer := fb, boundDrawingBuffer := fb, boundReadingBuffer := fb } ∧
      (bindFramebuffer g (.num FRAMEBUFFER) fb).lastDrawBufferBound = fb ∧
      (bindFramebuffer g (.num FRAMEBUFFER) fb).lastReadBufferBound = fb ∧
      (bindFramebuffer g (.num FRAMEBUFFER) fb).state = g.state ∧
      (bindFramebuffer g (.num FRAMEBUFFER) fb).defaultDrawBuffers = g.defaultDrawBuffers ∧
      (bindFramebuffer g (.num FRAMEBUFFER) fb).defaultState = g.defaultState ∧
      (bindFramebuffer g (.num FRAMEBUFFER) fb).savedState = g.savedState) ∧
    ((bindFramebuffer g (.num DRAW_FRAMEBUFFER) fb).sgl = { g.sgl with boundDrawingBuffer := fb } ∧
      (bindFramebuffer g (.num DRAW_FRAMEBUFFER) fb).lastDrawBufferBound = fb ∧
      (bindFramebuffer g (.num DRAW_FRAMEBUFFER) fb).lastReadBufferBound = g.lastReadBufferBound ∧
      (bindFramebuffer g (.num DRAW_FRAMEBUFFER) fb).state = g.state ∧
      (bindFramebuffer g (.num DRAW_FRAMEBUFFER) fb).defaultDrawBuffers = g.defaultDrawBuffers ∧
      (bindFramebuffer g (.num DRAW_FRAMEBUFFER) fb).defaultState = g.defaultState ∧
      (bindFramebuffer g (.num DRAW_FRAMEBUFFER) fb).savedState = g.savedState) ∧
    ((bindFramebuffer g (.num READ_FRAMEBUFFER) fb).sgl = { g.sgl with boundReadingBuffer := fb } ∧
      (bindFramebuffer g (.num READ_FRAMEBUFFER) fb).lastReadBufferBound = fb ∧
      (bindFramebuffer g (.num READ_FRAMEBUFFER) fb).lastDrawBufferBound = g.lastDrawBufferBound ∧
      (bindFramebuffer g (.num READ_FRAMEBUFFER) fb).state = g.state ∧
      (bindFramebuffer g (.num READ_FRAMEBUFFER) fb).defaultDrawBuffers = g.defaultDrawBuffers ∧
      (bindFramebuffer g (.num READ_FRAMEBUFFER) fb).defaultState = g.defaultState ∧
      (bindFramebuffer g (.num READ_FRAMEBUFFER) fb).savedState = g.savedState) := by
  have hc : (FRAMEBUFFER ≠ DRAW_FRAMEBUFFER) ∧ (FRAMEBUFFER ≠ READ_FRAMEBUFFER)
      ∧ (DRAW_FRAMEBUFFER ≠ READ_FRAMEBUFFER) := by decide
  obtain ⟨c1, c2, c3⟩ := hc
  refine ⟨?_, ?_, ?_⟩
  · rw [bindFramebuffer_eq]
    simp
  · rw [bindFramebuffer_eq]
    simp [c1, c1.symm, c3]
  · rw [bindFramebuffer_eq]
    simp [c2, c2.symm, c3, c3.symm]

/-! ## Combined and face-separate setters -/

/-- C13 (combined setters short-circuit only on a full match).  For every state:
`blendFunc(s, d)` forwards nothing if and only if the mirrored blend function is
`[s, d, s, d]`; `blendEquation(m)` if and only if both mirrored equations are `m`;
`stencilFunc`, `stencilOp` and `stencilMask` if and only if both the front and the back
mirrored values equal the arguments.  In every other case, a partial match included,
exactly one call is forwarded.  After the call all affected mirror fields hold the
arguments and nothing else in the context has changed. -/
theorem combined_setters_forward_unless_full_match (g : Gl) :
    (∀ s d : Val,
      ((blendFunc g s d).log = g.log ↔ g.state.blendFuncSeparate = ⟨s, d, s, d⟩) ∧
      blendFunc g s d =
        { g with
          state := { g.state with blendFuncSeparate := ⟨s, d, s, d⟩ }
          log := if g.state.blendFuncSeparate = ⟨s, d, s, d⟩ then g.log
            else g.log ++ [.blendFunc s d] }) ∧
    (∀ m : Val,
      ((blendEquation g m).log = g.log ↔
        (g.state.blendEquationRgb = m ∧ g.state.blendEquationAlpha = m)) ∧
      blendEquation g m =
        { g with
          state := { g.state with blendEquationRgb := m, blendEquationAlpha := m }
          log := if g.state.blendEquationRgb = m ∧ g.state.blendEquationAlpha = m then g.log
            else g.log ++ [.blendEquation m] }) ∧
    (∀ func ref mask : Val,
      ((stencilFunc g func ref mask).log = g.log ↔
        (g.state.stencilFunc = ⟨func, ref, mask⟩ ∧ g.state.stencilBackFunc = ⟨func, ref, mask⟩)) ∧
      stencilFunc g func ref mask =
        { g with
          state := { g.state with
            stencilFunc := ⟨func, ref, mask⟩, stencilBackFunc := ⟨func, ref, mask⟩ }
          log :=
            if g.state.stencilFunc = ⟨func, ref, mask⟩ ∧ g.state.stencilBackFunc = ⟨func, ref, mask⟩
            then g.log else g.log ++ [.stencilFunc func ref mask] }) ∧
    (∀ fail zfail zpass : Val,
      ((stencilOp g fail zfail zpass).log = g.log ↔
        (g.state.stencilOp = ⟨fail, zfail, zpass⟩ ∧ g.state.stencilBackOp = ⟨fail, zfail, zpass⟩)) ∧
      stencilOp g fail zfail zpass =
        { g with
          state := { g.state with
            stencilOp := ⟨fail, zfail, zpass⟩, stencilBackOp := ⟨fail, zfail, zpass⟩ }
          log :=
            if g.state.stencilOp = ⟨fail, zfail, zpass⟩ ∧ g.state.stencilBackOp = ⟨fail, zfail, zpass⟩
            then g.log else g.log ++ [.stencilOp fail zfail zpass] }) ∧
    (∀ mask : Val,
      ((stencilMask g mask).log = g.log ↔
        (g.state.stencilMask = mask ∧ g.state.stencilBackMask = mask)) ∧
      stencilMask g mask =
        { g with
          state := { g.state with stencilMask := mask, stencilBackMask := mask }
          log := if g.state.stencilMask = mask ∧ g.state.stencilBackMask = mask then g.log
            else g.log ++ [.stencilMask mask] }) := by
  refine ⟨?_, ?_, ?_, ?_, ?_⟩
  · intro s d
    refine ⟨?_, blendFunc_eq g s d⟩
    rw [blendFunc_eq]
    by_cases h : g.state.blendFuncSeparate = ⟨s, d, s, d⟩ <;> simp [h]
  · intro m
    refine ⟨?_, blendEquation_eq g m⟩
    rw [blendEquation_eq]
    by_cases h : g.state.blendEquationRgb = m ∧ g.state.blendEquationAlpha = m
    · simp [h]
    · simp only [if_neg h]
      simp [h]
  · intro a b c
    refine ⟨?_, stencilFunc_eq g a b c⟩
    rw [stencilFunc_eq]
    by_cases h : g.state.stencilFunc = ⟨a, b, c⟩ ∧ g.state.stencilBackFunc = ⟨a, b, c⟩
    · simp [h]
    · simp only [if_neg h]
      simp [h]
  · intro a b c
    refine ⟨?_, stencilOp_eq g a b c⟩
    rw [stencilOp_eq]
    by_cases h : g.state.stencilOp = ⟨a, b, c⟩ ∧ g.state.stencilBackOp = ⟨a, b, c⟩
    · simp [h]
    · simp only [if_neg h]
      simp [h]
  · intro m
    refine ⟨?_, stencilMask_eq g m⟩
    rw [stencilMask_eq]
    by_cases h : g.state.stencilMask = m ∧ g.state.stencilBackMask = m
    · simp [h]
    · simp only [if_neg h]
      simp [h]

/-- C14 (face-separate setters).  For every state and each of the selectors `FRONT`,
`BACK` and `FRONT_AND_BACK`, the call of `stencilFuncSeparate`, `stencilOpSeparate` or
`stencilMaskSeparate` sets the mirror field of each selected face to the arguments,
leaves the field of an unselected face and everything else in the context unchanged, and
forwards exactly one call when the mirrored value of a selected face differed from the
arguments, and none otherwise. -/
theorem face_separate_setters_update_selected_faces (g : Gl) :
    (∀ func ref mask : Val,
      stencilFuncSeparate g (.num FRONT) func ref mask =
        { g with
          state := { g.state with stencilFunc := ⟨func, ref, mask⟩ }
          log := if g.state.stencilFunc = ⟨func, ref, mask⟩ then g.log
            else g.log ++ [.stencilFuncSeparate (.num FRONT) func ref mask] } ∧
      stencilFuncSeparate g (.num BACK) func ref mask =
        { g with
          state := { g.state with stencilBackFunc := ⟨func, ref, mask⟩ }
          log := if g.state.stencilBackFunc = ⟨func, ref, mask⟩ then g.log
            else g.log ++ [.stencilFuncSeparate (.num BACK) func ref mask] } ∧
      stencilFuncSeparate g (.num FRONT_AND_BACK) func ref mask =
        { g with
          state := { g.state with
            stencilFunc := ⟨func, ref, mask⟩, stencilBackFunc := ⟨func, ref, mask⟩ }
          log :=
            if g.state.stencilFunc = ⟨func, ref, mask⟩ ∧ g.state.stencilBackFunc = ⟨func, ref, mask⟩
            then g.log else g.log ++ [.stencilFuncSeparate (.num FRONT_AND_BACK) func ref mask] }) ∧
    (∀ fail zfail zpass : Val,
      stencilOpSeparate g (.num FRONT) fail zfail zpass =
        { g with
          state := { g.state with stencilOp := ⟨fail, zfail, zpass⟩ }
          log := if g.state.stencilOp = ⟨fail, zfail, zpass⟩ then g.log
            else g.log ++ [.stencilOpSeparate (.num FRONT) fail zfail zpass] } ∧
      stencilOpSeparate g (.num BACK) fail zfail zpass =
        { g with
          state := { g.state with stencilBackOp := ⟨fail, zfail, zpass⟩ }
          log := if g.state.stencilBackOp = ⟨fail, zfail, zpass⟩ then g.log
            else g.log ++ [.stencilOpSeparate (.num BACK) fail zfail zpass] } ∧
      stencilOpSeparate g (.num FRONT_AND_BACK) fail zfail zpass =
        { g with
          state := { g.state with
            stencilOp := ⟨fail, zfail, zpass⟩, stencilBackOp := ⟨fail, zfail, zpass⟩ }
          log :=
            if g.state.stencilOp = ⟨fail, zfail, zpass⟩ ∧ g.state.stencilBackOp = ⟨fail, zfail, zpass⟩
            then g.log else g.log ++ [.stencilOpSeparate (.num FRONT_AND_BACK) fail zfail zpass] }) ∧
    (∀ mask : Val,
      stencilMaskSeparate g (.num FRONT) mask =
        { g with
          state := { g.state with stencilMask := mask }
          log := if g.state.stencilMask = mask then g.log
            else g.log ++ [.stencilMaskSeparate (.num FRONT) mask] } ∧
      stencilMaskSeparate g (.num BACK) mask =
        { g with
          state := { g.state with stencilBackMask := mask }
          log := if g.state.stencilBackMask = mask then g.log
            else g.log ++ [.stencilMaskSeparate (.num BACK) mask] } ∧
      stencilMaskSeparate g (.num FRONT_AND_BACK) mask =
        { g with
          state := { g.state with stencilMask := mask, stencilBackMask := mask }
          log := if g.state.stencilMask = mask ∧ g.state.stencilBackMask = mask then g.log
            else g.log ++ [.stencilMaskSeparate (.num FRONT_AND_BACK) mask] }) := by
  have hF : selectsFront (.num FRONT) ∧ ¬ selectsBack (.num FRONT) := by
    unfold selectsFront selectsBack; decide
  have hB : ¬ selectsFront (.num BACK) ∧ selectsBack (.num BACK) := by
    unfold selectsFront selectsBack; decide
  have hA : selectsFront (.num FRONT_AND_BACK) ∧ selectsBack (.num FRONT_AND_BACK) := by
    unfold selectsFront selectsBack; decide
  obtain ⟨f1, f2⟩ := hF
  obtain ⟨b1, b2⟩ := hB
  obtain ⟨a1, a2⟩ := hA
  refine ⟨?_, ?_, ?_⟩
  · intro a b c
    refine ⟨?_, ?_, ?_⟩
    · rw [stencilFuncSeparate_eq]; simp [f1, f2]
    · rw [stencilFuncSeparate_eq]; simp [b1, b2]
    · rw [stencilFuncSeparate_eq]; simp [a1, a2]
  · intro a b c
    refine ⟨?_, ?_, ?_⟩
    · rw [stencilOpSeparate_eq]; simp [f1, f2]
    · rw [stencilOpSeparate_eq]; simp [b1, b2]
    · rw [stencilOpSeparate_eq]; simp [a1, a2]
  · intro m
    refine ⟨?_, ?_, ?_⟩
    · rw [stencilMaskSeparate_eq]; simp [f1, f2]
    · rw [stencilMaskSeparate_eq]; simp [b1, b2]
    · rw [stencilMaskSeparate_eq]; simp [a1, a2]

/-! ## Texture and framebuffer binds are never suppressed -/

theorem propsOf_setProps_self (h : List (Nat × FbProps)) (n : Nat) (p : FbProps) :
    propsOf (setProps h n p) n = p := by
  induction h with
  | nil => simp [setProps, propsOf]
  | cons kq h ih =>
    obtain ⟨k, q⟩ := kq
    by_cases e : k = n
    · simp [setProps, propsOf, e]
    · simp [setProps, propsOf, e, ih]

theorem arraySet_arraySet (a : List TexEntry) (i : Option Int) (v : TexEntry) :
    arraySet (arraySet a i v) i v = arraySet a i v := by
  cases i with
  | none => rfl
  | some z =>
    cases z with
    | negSucc n => rfl
    | ofNat n =>
      by_cases h : n < a.length
      · simp [arraySet, h]
      · have hl : (a ++ List.replicate (n - a.length) TexEntry.undef).length = n := by
          simp; omega
        simp only [arraySet, if_neg h]
        have h2 : n < (a ++ List.replicate (n - a.length) TexEntry.undef ++ [v]).length := by
          simp; omega
        rw [if_pos h2]
        conv_lhs => rw [List.set_append_right _ _ (by rw [hl])]
        simp [hl]

theorem bindTexture_twice (g : Gl) (type : Val) (texture : Handle) :
    bindTexture (bindTexture g type texture) type texture =
      { bindTexture g type texture with
        log := g.log ++ [.bindTexture type texture, .bindTexture type texture] } := by
  simp only [bindTexture, Gl.forward]
  split <;> simp [arraySet_arraySet]

theorem bindFramebuffer_fbProps (g : Gl) (t : Val) (fb : Handle) :
    (bindFramebuffer g t fb).fbProps =
        (match fb with
          | .obj n =>
            if (propsOf g.fbProps n).id = none then
              setProps g.fbProps n { propsOf g.fbProps n with id := some g.nextId }
            else g.fbProps
          | _ => g.fbProps) ∧
      (bindFramebuffer g t fb).nextId =
        (match fb with
          | .obj n => if (propsOf g.fbProps n).id = none then g.nextId + 1 else g.nextId
          | _ => g.nextId) := by
  have hc : (FRAMEBUFFER ≠ DRAW_FRAMEBUFFER) ∧ (FRAMEBUFFER ≠ READ_FRAMEBUFFER)
      ∧ (DRAW_FRAMEBUFFER ≠ READ_FRAMEBUFFER) := by decide
  obtain ⟨c1, c2, c3⟩ := hc
  by_cases h1 : t = .num FRAMEBUFFER
  · subst h1
    cases fb with
    | obj n =>
      by_cases hid : (propsOf g.fbProps n).id = none <;>
        simp [bindFramebuffer, Gl.forward, hid]
    | undef => simp [bindFramebuffer, Gl.forward]
    | null => simp [bindFramebuffer, Gl.forward]
  · by_cases h2 : t = .num DRAW_FRAMEBUFFER
    · subst h2
      cases fb with
      | obj n =>
        by_cases hid : (propsOf g.fbProps n).id = none <;>
          simp [bindFramebuffer, Gl.forward, hid, c1, c1.symm, c3]
      | undef => simp [bindFramebuffer, Gl.forward, c1, c1.symm, c3]
      | null => simp [bindFramebuffer, Gl.forward, c1, c1.symm, c3]
    · by_cases h3 : t = .num READ_FRAMEBUFFER
      · subst h3
        cases fb with
        | obj n =>
          by_cases hid : (propsOf g.fbProps n).id = none <;>
            simp [bindFramebuffer, Gl.forward, hid, c2, c2.symm, c3, c3.symm]
        | undef => simp [bindFramebuffer, Gl.forward, c2, c2.symm, c3, c3.symm]
        | null => simp [bindFramebuffer, Gl.forward, c2, c2.symm, c3, c3.symm]
      · cases fb with
        | obj n =>
          by_cases hid : (propsOf g.fbProps n).id = none <;>
            simp [bindFramebuffer, Gl.forward, hid, h1, h2, h3]
        | undef => simp [bindFramebuffer, Gl.forward, h1, h2, h3]
        | null => simp [bindFramebuffer, Gl.forward, h1, h2, h3]

theorem bindFramebuffer_twice (g : Gl) (fbType : Val) (fb : Handle) :
    bindFramebuffer (bindFramebuffer g fbType fb) fbType fb =
      { bindFramebuffer g fbType fb with
        log := g.log ++ [.bindFramebuffer fbType fb, .bindFramebuffer fbType fb] } := by
  obtain ⟨q1, q2⟩ := bindFramebuffer_fbProps g fbType fb
  obtain ⟨r1, r2⟩ := bindFramebuffer_fbProps (bindFramebuffer g fbType fb) fbType fb
  have hp : (bindFramebuffer (bindFramebuffer g fbType fb) fbType fb).fbProps
        = (bindFramebuffer g fbType fb).fbProps ∧
      (bindFramebuffer (bindFramebuffer g fbType fb) fbType fb).nextId
        = (bindFramebuffer g fbType fb).nextId := by
    rw [r1, r2]
    cases fb with
    | obj n =>
      by_cases hid : (propsOf g.fbProps n).id = none
      · simp only [q1, q2, hid, if_true, propsOf_setProps_self]
        simp
      · simp only [q1, q2, hid, if_false]
        simp [hid]
    | undef => simp
    | null => simp
  obtain ⟨p1, p2⟩ := hp
  have f1 : fbType = .num FRAMEBUFFER → (bindFramebuffer g fbType fb).sgl.boundFramebuffer = fb := by
    intro h; rw [bindFramebuffer_eq]; simp [h]
  have f2 : fbType = .num FRAMEBUFFER ∨ fbType = .num DRAW_FRAMEBUFFER →
      (bindFramebuffer g fbType fb).sgl.boundDrawingBuffer = fb ∧
      (bindFramebuffer g fbType fb).lastDrawBufferBound = fb := by
    intro h; rw [bindFramebuffer_eq]; simp [h]
  have f3 : fbType = .num FRAMEBUFFER ∨ fbType = .num READ_FRAMEBUFFER →
      (bindFramebuffer g fbType fb).sgl.boundReadingBuffer = fb ∧
      (bindFramebuffer g fbType fb).lastReadBufferBound = fb := by
    intro h; rw [bindFramebuffer_eq]; simp [h]
  have f4 : (bindFramebuffer g fbType fb).log = g.log ++ [.bindFramebuffer fbType fb] := by
    rw [bindFramebuffer_eq]
  rw [bindFramebuffer_eq (bindFramebuffer g fbType fb), p1, p2, f4]
  generalize bindFramebuffer g fbType fb = G at f1 f2 f3 ⊢
  obtain ⟨st, sgl, ld, lr, dd, ds, ss, fp, ni, lg⟩ := G
  cases sgl
  simp only at f1 f2 f3
  simp only [List.append_assoc, List.singleton_append, List.nil_append]
  have hc : (FRAMEBUFFER ≠ DRAW_FRAMEBUFFER) ∧ (FRAMEBUFFER ≠ READ_FRAMEBUFFER)
      ∧ (DRAW_FRAMEBUFFER ≠ READ_FRAMEBUFFER) := by decide
  obtain ⟨c1, c2, c3⟩ := hc
  by_cases h1 : fbType = .num FRAMEBUFFER
  · obtain ⟨e2, e3⟩ := f2 (Or.inl h1)
    obtain ⟨e4, e5⟩ := f3 (Or.inl h1)
    simp [h1, f1 h1, e2, e3, e4, e5]
  · by_cases h2 : fbType = .num DRAW_FRAMEBUFFER
    · obtain ⟨e2, e3⟩ := f2 (Or.inr h2)
      simp [h2, e2, e3, c1, c1.symm, c3]
    · by_cases h3 : fbType = .num READ_FRAMEBUFFER
      · obtain ⟨e4, e5⟩ := f3 (Or.inr h3)
        simp [h3, e4, e5, c2, c2.symm, c3, c3.symm]
      · simp [h1, h2, h3]

set_option maxRecDepth 100000 in
/-- C15, counterexample.  On the sample context, `bindTexture(TEXTURE_2D, t)` issued
twice in succession on the same unit forwards two calls, although the mirror of the unit
holds `[TEXTURE_2D, t]` before the second; and `bindFramebuffer(FRAMEBUFFER, fb)` issued
twice forwards two calls, although the combined slot holds `fb` before the second. -/
theorem binds_twice_forward_twice :
    arrayGet (bindTexture sampleGl (.num TEXTURE_2D) (.obj 5)).sgl.textures 0
      = .pair (.num TEXTURE_2D) (.obj 5) ∧
    (bindTexture (bindTexture sampleGl (.num TEXTURE_2D) (.obj 5)) (.num TEXTURE_2D) (.obj 5)).log
      = [.bindTexture (.num TEXTURE_2D) (.obj 5), .bindTexture (.num TEXTURE_2D) (.obj 5)] ∧
    (bindFramebuffer sampleGl (.num FRAMEBUFFER) (.obj 1)).sgl.boundFramebuffer = .obj 1 ∧
    (bindFramebuffer (bindFramebuffer sampleGl (.num FRAMEBUFFER) (.obj 1))
        (.num FRAMEBUFFER) (.obj 1)).log
      = [.bindFramebuffer (.num FRAMEBUFFER) (.obj 1), .bindFramebuffer (.num FRAMEBUFFER) (.obj 1)] := by
  decide

/-- C15, amended.  In every state, each call of `bindTexture` and each call of
`bindFramebuffer` forwards exactly one call to the context; two calls in succession with
identical arguments forward two, and the second leaves the context, the log apart, as
the first left it. -/
theorem binds_forward_every_call (g : Gl) :
    (∀ (type : Val) (texture : Handle),
      (bindTexture g type texture).log = g.log ++ [.bindTexture type texture] ∧
      bindTexture (bindTexture g type texture) type texture =
        { bindTexture g type texture with
          log := g.log ++ [.bindTexture type texture, .bindTexture type texture] }) ∧
    (∀ (fbType : Val) (fb : Handle),
      (bindFramebuffer g fbType fb).log = g.log ++ [.bindFramebuffer fbType fb] ∧
      bindFramebuffer (bindFramebuffer g fbType fb) fbType fb =
        { bindFramebuffer g fbType fb with
          log := g.log ++ [.bindFramebuffer fbType fb, .bindFramebuffer fbType fb] }) := by
  refine ⟨?_, ?_⟩
  · intro type texture
    exact ⟨rfl, bindTexture_twice g type texture⟩
  · intro fbType fb
    refine ⟨?_, bindFramebuffer_twice g fbType fb⟩
    rw [bindFramebuffer_eq]

/-! ## The guard of `bindBuffer` -/

set_option maxRecDepth 100000 in
/-- C16, counterexample.  After `bindBuffer(ARRAY_BUFFER, a)` and
`bindBuffer(UNIFORM_BUFFER, u)` on the sample context, a reachable state, the mirrored
array-buffer binding is `a`, and `bindBuffer(ARRAY_BUFFER, a)` forwards a third call. -/
theorem bindBuffer_forwards_after_other_target :
    Reachable sampleTwoBuffers ∧ sampleTwoBuffers.sgl.arrayBufferBinding = .obj 1 ∧
    (bindBuffer sampleTwoBuffers (.num ARRAY_BUFFER) (.obj 1)).log =
      [.bindBuffer (.num ARRAY_BUFFER) (.obj 1), .bindBuffer (.num UNIFORM_BUFFER) (.obj 2),
        .bindBuffer (.num ARRAY_BUFFER) (.obj 1)] :=
  ⟨Reachable.step (.bindBuffer (.num UNIFORM_BUFFER) (.obj 2))
      (Reachable.step (.bindBuffer (.num ARRAY_BUFFER) (.obj 1)) (Reachable.init sampleRaw)),
    by decide⟩

/-- C16, amended.  In every reachable state, `bindBuffer(target, b)` forwards nothing
if and only if the target and buffer remembered from the last forwarded `bindBuffer`
call are `target` and `b`, and forwards exactly one call otherwise; a second call with
the same arguments right after changes nothing; and after `bindBuffer` on one of the
three tracked targets the binding mirrored for that target is `b`, whether or not the
call was forwarded. -/
theorem bindBuffer_suppresses_last_pair_only (g : Gl) (hg : Reachable g) :
    (∀ (target : Val) (b : Handle),
      ((bindBuffer g target b).log = g.log ↔
        (g.sgl.boundBufferTarget = target ∧ g.sgl.boundBuffer = b)) ∧
      (bindBuffer g target b).log =
        (if g.sgl.boundBufferTarget = target ∧ g.sgl.boundBuffer = b then g.log
          else g.log ++ [.bindBuffer target b]) ∧
      bindBuffer (bindBuffer g target b) target b = bindBuffer g target b) ∧
    (∀ b : Handle,
      (bindBuffer g (.num ARRAY_BUFFER) b).sgl.arrayBufferBinding = b ∧
      (bindBuffer g (.num ELEMENT_ARRAY_BUFFER) b).sgl.elementArrayBufferBinding = b ∧
      (bindBuffer g (.num UNIFORM_BUFFER) b).sgl.uniformBufferBinding = b) := by
  obtain ⟨i1, i2, i3, _, _⟩ := hg.inv
  refine ⟨?_, ?_⟩
  · intro target b
    by_cases h : g.sgl.boundBufferTarget = target ∧ g.sgl.boundBuffer = b
    · refine ⟨?_, ?_, ?_⟩
      · rw [bindBuffer_eq, if_pos h]; simp [h]
      · rw [bindBuffer_eq, if_pos h, if_pos h]
      · rw [bindBuffer_eq g, if_pos h, bindBuffer_eq g, if_pos h]
    · refine ⟨?_, ?_, ?_⟩
      · rw [bindBuffer_eq, if_neg h]; simp [h]
      · rw [bindBuffer_eq, if_neg h, if_neg h]
      · rw [bindBuffer_eq g, if_neg h, bindBuffer_eq, if_pos ⟨rfl, rfl⟩]
  · intro b
    refine ⟨?_, ?_, ?_⟩
    · rw [bindBuffer_eq]
      split
      · rename_i h; rw [i1 h.1, h.2]
      · simp
    · rw [bindBuffer_eq]
      split
      · rename_i h; rw [i2 h.1, h.2]
      · simp
    · rw [bindBuffer_eq]
      split
      · rename_i h; rw [i3 h.1, h.2]
      · simp

set_option maxRecDepth 100000 in
/-- Witness for C16, amended: the sample context after two buffer binds. -/
theorem bindBuffer_suppresses_last_pair_only_witness :
    Reachable sampleTwoBuffers ∧
    (∀ (target : Val) (b : Handle),
      ((bindBuffer sampleTwoBuffers target b).log = sampleTwoBuffers.log ↔
        (sampleTwoBuffers.sgl.boundBufferTarget = target ∧ sampleTwoBuffers.sgl.boundBuffer = b)) ∧
      (bindBuffer sampleTwoBuffers target b).log =
        (if sampleTwoBuffers.sgl.boundBufferTarget = target ∧ sampleTwoBuffers.sgl.boundBuffer = b
          then sampleTwoBuffers.log else sampleTwoBuffers.log ++ [.bindBuffer target b]) ∧
      bindBuffer (bindBuffer sampleTwoBuffers target b) target b
        = bindBuffer sampleTwoBuffers target b) ∧
    (∀ b : Handle,
      (bindBuffer sampleTwoBuffers (.num ARRAY_BUFFER) b).sgl.arrayBufferBinding = b ∧
      (bindBuffer sampleTwoBuffers (.num ELEMENT_ARRAY_BUFFER) b).sgl.elementArrayBufferBinding = b ∧
      (bindBuffer sampleTwoBuffers (.num UNIFORM_BUFFER) b).sgl.uniformBufferBinding = b) :=
  ⟨Reachable.step (.bindBuffer (.num UNIFORM_BUFFER) (.obj 2))
      (Reachable.step (.bindBuffer (.num ARRAY_BUFFER) (.obj 1)) (Reachable.init sampleRaw)),
    bindBuffer_suppresses_last_pair_only sampleTwoBuffers
      (Reachable.step (.bindBuffer (.num UNIFORM_BUFFER) (.obj 2))
        (Reachable.step (.bindBuffer (.num ARRAY_BUFFER) (.obj 1)) (Reachable.init sampleRaw)))⟩

/-! ## Texture units -/

theorem arrayGet_arraySet_self (a : List TexEntry) (k : Nat) (v : TexEntry) :
    arrayGet (arraySet a (some (Int.ofNat k)) v) k = v := by
  by_cases h : k < a.length
  · simp [arrayGet, arraySet, h, List.getD_eq_getElem?_getD]
  · have hl : (a ++ List.replicate (k - a.length) TexEntry.undef).length = k := by
      simp; omega
    simp only [arrayGet, arraySet, if_neg h, List.getD_eq_getElem?_getD]
    rw [List.getElem?_append_right (by rw [hl])]
    simp [hl]

theorem arrayGet_arraySet_of_ne (a : List TexEntry) (k i : Nat) (v : TexEntry) (hi : i ≠ k) :
    arrayGet (arraySet a (some (Int.ofNat k)) v) i = arrayGet a i := by
  by_cases h : k < a.length
  · simp [arrayGet, arraySet, h, List.getD_eq_getElem?_getD, List.getElem?_set, hi.symm]
  · have hl : (a ++ List.replicate (k - a.length) TexEntry.undef).length = k := by
      simp; omega
    have hk : a.length ≤ k := by omega
    simp only [arrayGet, arraySet, if_neg h, List.getD_eq_getElem?_getD]
    by_cases h1 : i < a.length
    · rw [List.append_assoc, List.getElem?_append_left h1]
    · have h2 : a.length ≤ i := by omega
      rw [List.getElem?_eq_none (l := a) h2]
      by_cases h3 : i < k
      · rw [List.getElem?_append_left (by rw [hl]; exact h3),
          List.getElem?_append_right h2]
        rw [List.getElem?_replicate]
        split <;> rfl
      · have h4 : k < i := by omega
        rw [List.getElem?_eq_none]
        simp
        omega

/-- C17 (texture unit isolation).  In every state whose active texture unit is unit
`k` (`gl.state.activeTexture = gl.TEXTURE0 + k`), `bindTexture(type, texture)` sets the
mirrored binding of unit `k` to `[type, texture]`, or to `null` when `texture` is not an
object; the mirrored binding of every other unit reads as before; and nothing else in
the context changes (the active unit and all other mirrored fields included) except
that one call is forwarded. -/
theorem bindTexture_changes_active_unit_only (g : Gl) (k : Nat) (type : Val) (texture : Handle)
    (hk : g.state.activeTexture = .num (TEXTURE0 + k)) :
    arrayGet (bindTexture g type texture).sgl.textures k =
      (if texture.truthy then TexEntry.pair type texture else TexEntry.null) ∧
    (∀ i : Nat, i ≠ k →
      arrayGet (bindTexture g type texture).sgl.textures i = arrayGet g.sgl.textures i) ∧
    bindTexture g type texture =
      { g with
        sgl := { g.sgl with textures := (bindTexture g type texture).sgl.textures }
        log := g.log ++ [.bindTexture type texture] } := by
  have e : (g.state.activeTexture.toNumber).map (fun n => n - TEXTURE0) = some (Int.ofNat k) := by
    rw [hk]
    simp [Val.toNumber]
  refine ⟨?_, ?_, ?_⟩
  · simp only [bindTexture, Gl.forward, e]
    cases texture <;> simp [Handle.truthy] <;> exact arrayGet_arraySet_self _ _ _
  · intro i hi
    simp only [bindTexture, Gl.forward, e]
    cases texture <;> simp [Handle.truthy] <;> exact arrayGet_arraySet_of_ne _ _ _ _ hi
  · simp only [bindTexture, Gl.forward]

set_option maxRecDepth 100000 in
/-- Witness for C17: the sample context with unit 3 active, binding a 2D texture. -/
theorem bindTexture_changes_active_unit_only_witness :
    sampleUnit3.state.activeTexture = .num (TEXTURE0 + (3 : Nat)) ∧
    arrayGet (bindTexture sampleUnit3 (.num TEXTURE_2D) (.obj 5)).sgl.textures 3 =
      (if (Handle.obj 5).truthy then TexEntry.pair (.num TEXTURE_2D) (.obj 5) else TexEntry.null) ∧
    (∀ i : Nat, i ≠ 3 →
      arrayGet (bindTexture sampleUnit3 (.num TEXTURE_2D) (.obj 5)).sgl.textures i
        = arrayGet sampleUnit3.sgl.textures i) ∧
    bindTexture sampleUnit3 (.num TEXTURE_2D) (.obj 5) =
      { sampleUnit3 with
        sgl := { sampleUnit3.sgl with
          textures := (bindTexture sampleUnit3 (.num TEXTURE_2D) (.obj 5)).sgl.textures }
        log := sampleUnit3.log ++ [.bindTexture (.num TEXTURE_2D) (.obj 5)] } :=
  ⟨by decide,
    bindTexture_changes_active_unit_only sampleUnit3 3 (.num TEXTURE_2D) (.obj 5) (by decide)⟩

/-! ## The active unit after a full restore -/

set_option maxRecDepth 100000 in
/-- C18, counterexample.  The snapshot `sampleSnapshot` was taken with unit 0 active.
With unit 3 active, `restoreState` of it completes and leaves unit 0 active, not
unit 3. -/
theorem restoreState_moves_active_unit :
    createState sampleGl = some sampleSnapshot ∧
    sampleUnit3.state.activeTexture = .num (TEXTURE0 + 3) ∧
    (restoreState sampleUnit3 (some sampleSnapshot)).isOk = true ∧
    (restoreState sampleUnit3 (some sampleSnapshot)).val.state.activeTexture = .num TEXTURE0 := by
  decide

/-- C18, amended.  For every state and every complete snapshot `b`, `restoreState(b)`
completes and the mirrored active texture unit is the one recorded in `b`. -/
theorem restoreState_sets_snapshot_active_unit (g : Gl) (b : Snapshot) (hb : b.Complete) :
    ∃ g1, restoreState g (some b) = .ok g1 ∧ g1.state.activeTexture = b.state.activeTexture := by
  obtain ⟨hf, hd, hr⟩ := hb
  obtain ⟨g3, e3, _, _⟩ :=
    restoreFramebuffers_ok (restoreValues (restoreBindings g b.sgl) b.state) b.sgl hf hd hr
  refine ⟨restoreTextureBindings g3 b.sgl.textures b.state.activeTexture, ?_, ?_⟩
  · simp [restoreState, setGLState, e3, Res.andThen]
  · exact restoreTextureBindings_activeTexture g3 b.sgl.textures b.state.activeTexture

set_option maxRecDepth 100000 in
/-- Witness for C18, amended: the sample context with unit 3 active and the snapshot
taken with unit 0 active. -/
theorem restoreState_sets_snapshot_active_unit_witness :
    sampleSnapshot.Complete ∧
    ∃ g1, restoreState sampleUnit3 (some sampleSnapshot) = .ok g1 ∧
      g1.state.activeTexture = sampleSnapshot.state.activeTexture :=
  ⟨by decide, restoreState_sets_snapshot_active_unit sampleUnit3 sampleSnapshot (by decide)⟩

/-! ## The texture loop of the full restore -/

theorem Reachable.afterSetter {g : Gl} (h : Reachable g) (c : Setter) : Reachable (c.run g) :=
  Reachable.step (.setter c) h

theorem Reachable.afterBindTexture {g : Gl} (h : Reachable g) (type : Val) (texture : Handle) :
    Reachable (bindTexture g type texture) :=
  Reachable.step (.bindTexture type texture) h

set_option maxRecDepth 100000 in
/-- C19, the code at the failing input.  On a context that reports 32 texture image
units, the snapshot taken by `createState` has 32 texture entries, all `null`.  After a
texture is bound on unit 3 and another on unit 20, a reachable state, `restoreState` of
the snapshot completes and unbinds unit 3, but the mirror of unit 20 still holds the
texture bound there: the loop of `restoreTextureBindings` stops at unit 15. -/
theorem restoreState_skips_units_above_15 :
    Reachable sampleTwoTextures ∧
    sampleRaw32.MAX_TEXTURE_IMAGE_UNITS = 32 ∧
    createState sampleGl32 = some sampleSnapshot32 ∧
    sampleSnapshot32.sgl.textures.length = 32 ∧
    arrayGet sampleSnapshot32.sgl.textures 3 = .null ∧
    arrayGet sampleSnapshot32.sgl.textures 20 = .null ∧
    arrayGet sampleTwoTextures.sgl.textures 3 = .pair (.num TEXTURE_2D) (.obj 5) ∧
    arrayGet sampleTwoTextures.sgl.textures 20 = .pair (.num TEXTURE_2D) (.obj 6) ∧
    (restoreState sampleTwoTextures (some sampleSnapshot32)).isOk = true ∧
    arrayGet (restoreState sampleTwoTextures (some sampleSnapshot32)).val.sgl.textures 3 = .null ∧
    arrayGet (restoreState sampleTwoTextures (some sampleSnapshot32)).val.sgl.textures 20
      = .pair (.num TEXTURE_2D) (.obj 6) :=
  ⟨((((Reachable.init sampleRaw32).afterSetter (.activeTexture (.num (TEXTURE0 + 3)))).afterBindTexture
      (.num TEXTURE_2D) (.obj 5)).afterSetter (.activeTexture (.num (TEXTURE0 + 20)))).afterBindTexture
      (.num TEXTURE_2D) (.obj 6),
    by decide⟩

/-! ## Copying one snapshot into another -/

set_option maxRecDepth 100000 in
/-- C20, the code at the failing input.  The source snapshot `sampleOther` records line
width 3, `null` framebuffers and no texture on unit 0.  On a context where framebuffer
`fb` is bound to the combined target and texture `t` on unit 0, `copyState(target,
source)` completes and copies the line width from the source, but the three framebuffer
entries of the target hold `fb` and its texture entry for unit 0 holds `t`: they are read
from the context, not from the source. -/
theorem copyState_takes_framebuffers_and_textures_from_context :
    sampleOther.state.lineWidth = .num 3 ∧
    sampleOther.sgl.framebuffer.buffer = .null ∧
    sampleOther.sgl.drawingBuffer.buffer = .null ∧
    sampleOther.sgl.readingBuffer.buffer = .null ∧
    arrayGet sampleOther.sgl.textures 0 = .null ∧
    (copyState sampleLive sampleSnapshot (some sampleOther)).isOk = true ∧
    (copyState sampleLive sampleSnapshot (some sampleOther)).val.state.lineWidth = .num 3 ∧
    (copyState sampleLive sampleSnapshot (some sampleOther)).val.sgl.framebuffer.buffer = .obj 1 ∧
    (copyState sampleLive sampleSnapshot (some sampleOther)).val.sgl.drawingBuffer.buffer = .obj 1 ∧
    (copyState sampleLive sampleSnapshot (some sampleOther)).val.sgl.readingBuffer.buffer = .obj 1 ∧
    arrayGet (copyState sampleLive sampleSnapshot (some sampleOther)).val.sgl.textures 0
      = .pair (.num TEXTURE_2D) (.obj 5) := by
  decide

/-! ## What `createState` captures -/

theorem jsonSlot_of_exact (v : Val) (h : v.exact = true) : v.jsonSlot = v := by
  cases v <;> simp_all [Val.exact, Val.jsonSlot]

theorem vec2_jsonClone_of_exact (v : Vec2) (h : v.exact = true) : v.jsonClone = v := by
  obtain ⟨a, b⟩ := v
  simp only [Vec2.exact, Bool.and_eq_true] at h
  simp [Vec2.jsonClone, jsonSlot_of_exact, h]

theorem vec3_jsonClone_of_exact (v : Vec3) (h : v.exact = true) : v.jsonClone = v := by
  obtain ⟨a, b, c⟩ := v
  simp only [Vec3.exact, Bool.and_eq_true] at h
  simp [Vec3.jsonClone, jsonSlot_of_exact, h]

theorem vec4_jsonClone_of_exact (v : Vec4) (h : v.exact = true) : v.jsonClone = v := by
  obtain ⟨a, b, c, d⟩ := v
  simp only [Vec4.exact, Bool.and_eq_true] at h
  simp [Vec4.jsonClone, jsonSlot_of_exact, h]

theorem elem_jsonSlot_of_exact (e : Elem) (h : e.exact = true) : e.jsonSlot = e := by
  cases e <;> simp_all [Elem.exact, Elem.jsonSlot, jsonSlot_of_exact]

theorem vec4F_jsonClone_of_exact (v : Vec4F) (h : v.exact = true) : v.jsonClone = v := by
  obtain ⟨a, b, c, d⟩ := v
  simp only [Vec4F.exact, Bool.and_eq_true] at h
  simp [Vec4F.jsonClone, elem_jsonSlot_of_exact, h]

theorem jsmap_jsonClone_of_exact (m : JSMap) (h : m.exact = true) : m.jsonClone = m := by
  unfold JSMap.jsonClone
  rw [List.filter_eq_self]
  intro kv hkv
  have := (List.all_eq_true.mp h) kv hkv
  cases hv : kv.2 <;> simp_all [Val.exact]

theorem state_jsonClone_of_exact (s : TrackedState) (h : s.Exact) : s.jsonClone = s := by
  obtain ⟨h1, h2, _, h4, h5, _, _, _, _, _, _, h12, h13, h14, _, _, h17, h18, h19, h20, h21, h22,
    _, _, h25, h26, _⟩ := h
  unfold TrackedState.jsonClone
  rw [jsmap_jsonClone_of_exact _ h1, jsmap_jsonClone_of_exact _ h2, vec4_jsonClone_of_exact _ h4,
    vec4F_jsonClone_of_exact _ h5, vec4_jsonClone_of_exact _ h12, vec4F_jsonClone_of_exact _ h13,
    vec4_jsonClone_of_exact _ h14, vec2_jsonClone_of_exact _ h17, vec2_jsonClone_of_exact _ h18,
    vec2_jsonClone_of_exact _ h19, vec4_jsonClone_of_exact _ h20, vec3_jsonClone_of_exact _ h21,
    vec3_jsonClone_of_exact _ h22, vec3_jsonClone_of_exact _ h25, vec3_jsonClone_of_exact _ h26]

theorem packFramebuffer_isSome (g : Gl) (h : Handle) (t : Int) (hh : h ≠ .undef) :
    ∃ p, packFramebuffer g h t = some p := by
  cases h with
  | undef => exact absurd rfl hh
  | null => exact ⟨_, rfl⟩
  | obj n => exact ⟨_, rfl⟩

/-- C21 (createState captures the mirror by value).  In every state whose tracked
values are exact and whose three framebuffer slots hold a framebuffer or `null`,
`createState()` returns a snapshot whose state part equals the mirror's tracked state
(every mapping, scalar and vector) and whose program, array-buffer, element-array-buffer,
uniform-buffer and vertex-array handles and texture bindings are the mirror's.  The
method is a function of the context that returns the snapshot only: its body assigns
nothing on `gl` and calls no wrapper, so nothing is forwarded and the mirror is as
before. -/
theorem createState_captures_mirror (g : Gl) (hv : g.state.Exact)
    (hf : g.sgl.boundFramebuffer ≠ .undef ∧ g.sgl.boundReadingBuffer ≠ .undef ∧
      g.sgl.boundDrawingBuffer ≠ .undef) :
    ∃ b, createState g = some b ∧ b.state = g.state ∧
      b.sgl.activeProgram = g.sgl.activeProgram ∧
      b.sgl.arrayBufferBinding = g.sgl.arrayBufferBinding ∧
      b.sgl.elementArrayBufferBinding = g.sgl.elementArrayBufferBinding ∧
      b.sgl.uniformBufferBinding = g.sgl.uniformBufferBinding ∧
      b.sgl.vertexArrayBinding = g.sgl.vertexArrayBinding ∧
      b.sgl.textures = g.sgl.textures := by
  obtain ⟨f1, f2, f3⟩ := hf
  obtain ⟨p1, e1⟩ := packFramebuffer_isSome g _ FRAMEBUFFER f1
  obtain ⟨p2, e2⟩ := packFramebuffer_isSome g _ READ_FRAMEBUFFER f2
  obtain ⟨p3, e3⟩ := packFramebuffer_isSome g _ DRAW_FRAMEBUFFER f3
  have hb : ∃ b, createState g = some b := by
    unfold createState
    rw [e1, e2, e3]
    exact ⟨_, rfl⟩
  obtain ⟨b, hb⟩ := hb
  obtain ⟨s1, s2, s3, s4, s5, s6, s7, _⟩ := createState_some g b hb
  refine ⟨b, hb, ?_, s2, s4, s5, s6, s3, s7⟩
  rw [s1, state_jsonClone_of_exact _ hv]

set_option maxRecDepth 100000 in
/-- Witness for C21: the fresh sample context. -/
theorem createState_captures_mirror_witness :
    sampleGl.state.Exact ∧
    ∃ b, createState sampleGl = some b ∧ b.state = sampleGl.state ∧
      b.sgl.activeProgram = sampleGl.sgl.activeProgram ∧
      b.sgl.arrayBufferBinding = sampleGl.sgl.arrayBufferBinding ∧
      b.sgl.elementArrayBufferBinding = sampleGl.sgl.elementArrayBufferBinding ∧
      b.sgl.uniformBufferBinding = sampleGl.sgl.uniformBufferBinding ∧
      b.sgl.vertexArrayBinding = sampleGl.sgl.vertexArrayBinding ∧
      b.sgl.textures = sampleGl.sgl.textures :=
  ⟨by decide, createState_captures_mirror sampleGl (by decide) (by decide)⟩

/-! ## The read source and draw-target list recorded for a framebuffer -/

set_option maxRecDepth 100000 in
/-- C22, the code at the failing input.  With framebuffer `fb` bound to the combined
target, `readBuffer(NONE)` completes and stores `NONE` on `fb`, but the snapshots taken
afterwards by `createState` and by `saveState` record `COLOR_ATTACHMENT0` as the read
source of `fb`, and restoring the snapshot forwards `readBuffer(COLOR_ATTACHMENT0)`.
For comparison, after `readBuffer(COLOR_ATTACHMENT1)` and `drawBuffers([NONE,
COLOR_ATTACHMENT1])` the snapshot records that read source and that list. -/
theorem snapshot_records_attachment0_for_read_source_none :
    (readBuffer sampleFbBound (.num NONE)).isOk = true ∧
    (propsOf sampleReadNone.fbProps 1).currentReadBuffer = .num NONE ∧
    (createState sampleReadNone).map (fun b => b.sgl.framebuffer.readBuffer)
      = some (.num COLOR_ATTACHMENT0) ∧
    (createState sampleReadNone).map (fun b => b.sgl.readingBuffer.readBuffer)
      = some (.num COLOR_ATTACHMENT0) ∧
    (saveState sampleReadNone (some sampleSnapshot)).isOk = true ∧
    (saveState sampleReadNone (some sampleSnapshot)).val.2.sgl.framebuffer.readBuffer
      = .num COLOR_ATTACHMENT0 ∧
    (createState sampleReadNone).map
        (fun b => decide (Call.readBuffer (.num COLOR_ATTACHMENT0) ∈
          forwarded sampleReadNone (restoreState sampleReadNone (some b)).val))
      = some true ∧
    (createState sampleReadAttachment1).map (fun b => b.sgl.framebuffer.readBuffer)
      = some (.num (COLOR_ATTACHMENT0 + 1)) ∧
    (createState sampleReadAttachment1).map (fun b => b.sgl.framebuffer.drawBuffers)
      = some (some [.num NONE, .num (COLOR_ATTACHMENT0 + 1)]) := by
  decide

/-! ## Reset to defaults -/

set_option maxRecDepth 100000 in
/-- C23 (reset-to-defaults postcondition), refuted.  The method `gl.resetToDefaults` is
a named function expression whose body calls `resetToDefaults`, the name of the expression
itself: from every state and whatever the stack depth available, the call throws and the
context is as it was, mirror and log of forwarded calls alike.  On the fresh sample
context the `DITHER` flag is `true` before the call and still `true` after it; the
function `resetToDefaults(gl)` of the module, which no call reaches, would leave it
`false`. -/
theorem gl_resetToDefaults_always_throws (g : Gl) (frames : Nat) :
    g.resetToDefaults frames = .thrown g ∧
    Op.run (.resetToDefaults frames) g = .thrown g ∧
    sampleGl.state.feats.get DITHER = .bool true ∧
    (Op.run (.resetToDefaults frames) sampleGl).val.state.feats.get DITHER = .bool true ∧
    (resetToDefaults sampleGl).state.feats.get DITHER = .bool false := by
  refine ⟨Gl.resetToDefaults_thrown g frames, ?_, by decide, ?_, by decide⟩
  · simp only [Op.run, Gl.resetToDefaults_thrown]
  · simp only [Op.run, Gl.resetToDefaults_thrown, Res.val]
    decide

set_option maxRecDepth 100000 in
/-- C24 (reset-to-defaults stencil masks are all-ones), refuted.  After
`gl.stencilMask(5)` on the sample context both mirrored stencil write masks are 5;
`gl.resetToDefaults()` then throws, forwards nothing and leaves both masks at 5, not at
`0xFFFFFFFF`.  The function `resetToDefaults(gl)` of the module, which no call reaches,
passes the literal `0xFF`. -/
theorem gl_resetToDefaults_keeps_stencil_masks (frames : Nat) :
    sampleMask5.state.stencilMask = .num 5 ∧
    sampleMask5.state.stencilBackMask = .num 5 ∧
    Op.run (.resetToDefaults frames) sampleMask5 = .thrown sampleMask5 ∧
    (Op.run (.resetToDefaults frames) sampleMask5).val.state.stencilMask = .num 5 ∧
    (Op.run (.resetToDefaults frames) sampleMask5).val.state.stencilBackMask = .num 5 ∧
    (Op.run (.resetToDefaults frames) sampleMask5).val.log = sampleMask5.log ∧
    (resetToDefaults sampleMask5).state.stencilMask = .num 0xFF ∧
    (resetToDefaults sampleMask5).state.stencilBackMask = .num 0xFF := by
  have e : Op.run (.resetToDefaults frames) sampleMask5 = .thrown sampleMask5 := by
    simp only [Op.run, Gl.resetToDefaults_thrown]
  rw [e]
  refine ⟨by decide, by decide, rfl, by decide, by decide, rfl, by decide, by decide⟩

/-! ## The stencil mask quirk at bootstrap -/

/-- C25 (stencil mask quirk at bootstrap).  For every answer of the context,
`slowFetchGLState` stores `0xFFFFFFFF` as the front stencil write mask when the context
reports `0x7FFFFFFF` for `STENCIL_WRITEMASK` and the reported value otherwise, and the
same for the back mask and `STENCIL_BACK_WRITEMASK`; the mirror of the enhanced context
holds these stored values. -/
theorem slowFetchGLState_widens_stencil_masks (raw : RawContext) :
    (slowFetchGLState raw).state.stencilMask =
      (if raw.STENCIL_WRITEMASK = .num 0x7FFFFFFF then .num 0xFFFFFFFF else raw.STENCIL_WRITEMASK) ∧
    (slowFetchGLState raw).state.stencilBackMask =
      (if raw.STENCIL_BACK_WRITEMASK = .num 0x7FFFFFFF then .num 0xFFFFFFFF
        else raw.STENCIL_BACK_WRITEMASK) ∧
    (enhanceWebGLContext raw).state.stencilMask = (slowFetchGLState raw).state.stencilMask ∧
    (enhanceWebGLContext raw).state.stencilBackMask = (slowFetchGLState raw).state.stencilBackMask := by
  refine ⟨rfl, rfl, ?_, ?_⟩
  · unfold enhanceWebGLContext
    dsimp only
    split <;> rfl
  · unfold enhanceWebGLContext
    dsimp only
    split <;> rfl

/-! ## The calls a full restore forwards, part by part -/

theorem setter_log (c : Setter) (g : Gl) :
    (c.run g).log = g.log ∨ (c.run g).log = g.log ++ [c.call] := by
  cases c <;>
    simp only [Setter.run, Setter.call, viewport_eq, blendColor_eq, blendEquation_eq,
      blendEquationSeparate_eq, blendFunc_eq, blendFuncSeparate_eq, cullFace_eq, frontFace_eq,
      lineWidth_eq, clearColor_eq, colorMask_eq, clearDepth_eq, depthFunc_eq, depthMask_eq,
      depthRange_eq, polygonOffset_eq, sampleCoverage_eq, scissor_eq, stencilFunc_eq, stencilOp_eq,
      stencilMask_eq, clearStencil_eq, pixelStorei_eq, enable_eq, disable_eq, activeTexture_eq,
      useProgram_eq, bindVertexArray_eq, stencilFuncSeparate_eq, stencilOpSeparate_eq,
      stencilMaskSeparate_eq] <;>
    split <;> simp

theorem Forwards.ofLogEq (P : Call → Prop) {g g1 : Gl} (h : g1.log = g.log) : Forwards P g g1 :=
  (forwards_iff P g g1).mpr ⟨[], by simp [h], by simp⟩

theorem setter_forwards (P : Call → Prop) (c : Setter) (g : Gl) (h : P c.call) :
    Forwards P g (c.run g) := by
  rcases setter_log c g with e | e
  · exact Forwards.ofLogEq P e
  · exact Forwards.fwdOne c.call e h

theorem runSetters_forwards (P : Call → Prop) (cs : List Setter) (h : ∀ c ∈ cs, P c.call) (g : Gl) :
    Forwards P g (runSetters g cs) := by
  induction cs generalizing g with
  | nil => exact Forwards.fwdSame P g
  | cons c cs ih =>
    exact Forwards.fwdThen _ _ _ (setter_forwards P c g (h c (List.mem_cons_self _ _)))
      (ih (fun d hd => h d (List.mem_cons_of_mem _ hd)) (c.run g))

theorem Forwards.fwdFoldl (P : Call → Prop) (step : Gl → Nat → Gl)
    (hs : ∀ g k, Forwards P g (step g k)) (ks : List Nat) (g : Gl) :
    Forwards P g (ks.foldl step g) := by
  induction ks generalizing g with
  | nil => exact Forwards.fwdSame P g
  | cons k ks ih => exact Forwards.fwdThen _ _ _ (hs g k) (ih (step g k))

theorem Res.andThen_forwards (P : Call → Prop) (r : Res Gl) (f : Gl → Res Gl)
    (hf : ∀ a, Forwards P a (f a).val) : Forwards P r.val (r.andThen f).val := by
  cases r with
  | ok a => exact hf a
  | thrown a => exact Forwards.fwdSame P a

theorem restoreGLFeatures_forwards (g : Gl) (feats : JSMap) :
    Forwards (fun c => c.phase = 1) g (restoreGLFeatures g feats) := by
  unfold restoreGLFeatures
  apply Forwards.fwdFoldl
  intro a k
  dsimp only
  split
  · exact Forwards.fwdSame _ a
  · split
    · exact setter_forwards _ (.enable k) a rfl
    · exact setter_forwards _ (.disable k) a rfl

theorem restoreStorei_forwards (g : Gl) (storei : JSMap) :
    Forwards (fun c => c.phase = 1) g (restoreStorei g storei) := by
  unfold restoreStorei
  apply Forwards.fwdFoldl
  intro a k
  dsimp only
  split
  · exact Forwards.fwdSame _ a
  · exact setter_forwards _ (.pixelStorei k _) a rfl

theorem restoreValues_eq_runSetters (g : Gl) (s : TrackedState) :
    restoreValues g s =
      runSetters (restoreStorei (restoreGLFeatures g s.feats) s.storei)
        [.viewport s.viewport.x0 s.viewport.x1 s.viewport.x2 s.viewport.x3,
          .blendColor s.blendColor.x0 s.blendColor.x1 s.blendColor.x2 s.blendColor.x3,
          .blendEquationSeparate s.blendEquationRgb s.blendEquationAlpha,
          .cullFace s.cullFaceMode, .depthFunc s.depthFunc, .frontFace s.frontFace,
          .lineWidth s.lineWidth,
          .blendFuncSeparate s.blendFuncSeparate.x0 s.blendFuncSeparate.x1 s.blendFuncSeparate.x2
            s.blendFuncSeparate.x3,
          .clearColor s.clearColor.x0 s.clearColor.x1 s.clearColor.x2 s.clearColor.x3,
          .colorMask s.colorMask.x0 s.colorMask.x1 s.colorMask.x2 s.colorMask.x3,
          .clearDepth s.clearDepth, .depthMask s.depthMask,
          .depthRange s.depthRange.x0 s.depthRange.x1,
          .polygonOffset s.polygonOffset.x0 s.polygonOffset.x1,
          .sampleCoverage s.sampleCoverage.x0 s.sampleCoverage.x1,
          .scissor s.scissor.x0 s.scissor.x1 s.scissor.x2 s.scissor.x3,
          .stencilFunc s.stencilFunc.x0 s.stencilFunc.x1 s.stencilFunc.x2,
          .stencilOp s.stencilOp.x0 s.stencilOp.x1 s.stencilOp.x2,
          .stencilMask s.stencilMask, .clearStencil s.clearStencil,
          .stencilFuncSeparate (.num BACK) s.stencilBackFunc.x0 s.stencilBackFunc.x1 s.stencilBackFunc.x2,
          .stencilOpSeparate (.num BACK) s.stencilBackOp.x0 s.stencilBackOp.x1 s.stencilBackOp.x2,
          .stencilMaskSeparate (.num BACK) s.stencilBackMask] := by
  simp only [restoreValues, runSetters, List.foldl, Setter.run]

theorem restoreValues_forwards (g : Gl) (s : TrackedState) :
    Forwards (fun c => c.phase = 1) g (restoreValues g s) := by
  rw [restoreValues_eq_runSetters]
  refine Forwards.fwdThen _ _ _ (restoreGLFeatures_forwards g s.feats)
    (Forwards.fwdThen _ _ _ (restoreStorei_forwards _ s.storei) (runSetters_forwards _ _ ?_ _))
  intro c hc
  simp only [List.mem_cons, List.mem_singleton, List.not_mem_nil, or_false] at hc
  rcases hc with h | h | h | h | h | h | h | h | h | h | h | h | h | h | h | h | h | h | h | h | h | h | h <;>
    subst h <;> rfl

theorem restoreTextureUnit_forwards (textures : List TexEntry) (g : Gl) (i : Nat) :
    Forwards (fun c => c.phase = 3) g (restoreTextureUnit textures g i) := by
  unfold restoreTextureUnit
  dsimp only
  split
  · exact Forwards.fwdSame _ g
  · split
    · exact Forwards.fwdThen _ _ _ (setter_forwards _ (.activeTexture _) g rfl)
        (Forwards.fwdOne (.bindTexture _ _) rfl rfl)
    · exact Forwards.fwdThen _ _ _ (setter_forwards _ (.activeTexture _) g rfl)
        (Forwards.fwdOne (.bindTexture _ _) rfl rfl)

theorem restoreTextureBindings_forwards (g : Gl) (textures : List TexEntry) (currentActive : Val) :
    Forwards (fun c => c.phase = 3) g (restoreTextureBindings g textures currentActive) := by
  unfold restoreTextureBindings
  exact Forwards.fwdThen _ _ _ (Forwards.fwdFoldl _ _ (restoreTextureUnit_forwards textures) _ g)
    (setter_forwards _ (.activeTexture currentActive) _ rfl)

theorem restoreBindings_log (g : Gl) (sgl : Sgl) :
    ∃ l, (restoreBindings g sgl).log = g.log ++ l ∧
      l.Sublist [.useProgram sgl.activeProgram, .bindVertexArray sgl.vertexArrayBinding,
        .bindBuffer (.num ARRAY_BUFFER) sgl.arrayBufferBinding,
        .bindBuffer (.num UNIFORM_BUFFER) sgl.uniformBufferBinding] := by
  have step : ∀ (a b : Gl) (c : Call), (b.log = a.log ∨ b.log = a.log ++ [c]) →
      ∃ l, b.log = a.log ++ l ∧ l.Sublist [c] := by
    intro a b c h
    rcases h with e | e
    · exact ⟨[], by simp [e], by simp⟩
    · exact ⟨[c], e, List.Sublist.refl _⟩
  have hb : ∀ (a : Gl) (t : Val) (x : Handle),
      (bindBuffer a t x).log = a.log ∨ (bindBuffer a t x).log = a.log ++ [.bindBuffer t x] := by
    intro a t x
    rw [bindBuffer_eq]
    split
    · exact Or.inl rfl
    · exact Or.inr rfl
  unfold restoreBindings
  dsimp only
  obtain ⟨l1, e1, s1⟩ := step g _ _ (setter_log (.useProgram sgl.activeProgram) g)
  obtain ⟨l2, e2, s2⟩ := step _ _ _
    (setter_log (.bindVertexArray sgl.vertexArrayBinding) (useProgram g sgl.activeProgram))
  obtain ⟨l3, e3, s3⟩ := step _ _ _
    (hb (bindVertexArray (useProgram g sgl.activeProgram) sgl.vertexArrayBinding)
      (.num ARRAY_BUFFER) sgl.arrayBufferBinding)
  obtain ⟨l4, e4, s4⟩ := step _ _ _
    (hb (bindBuffer (bindVertexArray (useProgram g sgl.activeProgram) sgl.vertexArrayBinding)
      (.num ARRAY_BUFFER) sgl.arrayBufferBinding) (.num UNIFORM_BUFFER) sgl.uniformBufferBinding)
  simp only [Setter.run] at e1 e2
  refine ⟨l1 ++ (l2 ++ (l3 ++ l4)), ?_, ?_⟩
  · rw [e4, e3, e2, e1]
    simp only [List.append_assoc]
  · exact List.Sublist.append s1 (List.Sublist.append s2 (List.Sublist.append s3 s4))

/-! ## The framebuffer part of a full restore -/

theorem drawBuffers_forwards_select (g : Gl) (bs : Option (List Val)) :
    Forwards (fun c => c.phase = 2 ∧ ¬ c.isCombinedBind) g (drawBuffers g bs).val := by
  unfold drawBuffers
  split
  · exact Forwards.fwdOne (.drawBuffers _) rfl ⟨rfl, fun h => h⟩
  · exact Forwards.fwdSame _ g

theorem readBuffer_forwards_select (g : Gl) (b : Val) :
    Forwards (fun c => c.phase = 2 ∧ ¬ c.isCombinedBind) g (readBuffer g b).val := by
  unfold readBuffer
  split
  · exact Forwards.fwdOne (.readBuffer b) rfl ⟨rfl, fun h => h⟩
  · exact Forwards.fwdSame _ g

theorem bindConfig_tail_forwards (g : Gl) (t : Int) (p : FbPack) :
    Forwards (fun c => c.phase = 2 ∧ ¬ c.isCombinedBind)
      (bindFramebuffer g (.num t) p.buffer) (bindFramebufferWithReadDrawConfig g t p).val := by
  unfold bindFramebufferWithReadDrawConfig
  dsimp only
  split
  · exact Forwards.fwdSame _ _
  · apply Res.andThen_val_rel Forwards.fwdThen
    · split
      · exact drawBuffers_forwards_select _ _
      · exact Forwards.fwdSame _ _
    · intro a
      split
      · exact readBuffer_forwards_select a _
      · exact Forwards.fwdSame _ a

theorem bindConfig_side_forwards (g : Gl) (t : Int) (p : FbPack) (ht : t ≠ FRAMEBUFFER) :
    Forwards (fun c => c.phase = 2 ∧ ¬ c.isCombinedBind) g
      (bindFramebufferWithReadDrawConfig g t p).val := by
  refine Forwards.fwdThen _ _ _ ?_ (bindConfig_tail_forwards g t p)
  refine Forwards.fwdOne (.bindFramebuffer (.num t) p.buffer) ?_ ⟨rfl, ?_⟩
  · rw [bindFramebuffer_eq]
  · intro h
    simp only [Call.isCombinedBind, Val.num.injEq] at h
    exact ht h

theorem restoreFramebuffers_log (g : Gl) (sgl : Sgl) :
    ∃ l, (restoreFramebuffers g sgl).val.log =
        g.log ++ .bindFramebuffer (.num FRAMEBUFFER) sgl.framebuffer.buffer :: l ∧
      ∀ c ∈ l, c.phase = 2 ∧ ¬ c.isCombinedBind := by
  have h1 := bindConfig_tail_forwards g FRAMEBUFFER sgl.framebuffer
  have h2 : Forwards (fun c => c.phase = 2 ∧ ¬ c.isCombinedBind)
      (bindFramebufferWithReadDrawConfig g FRAMEBUFFER sgl.framebuffer).val
      (restoreFramebuffers g sgl).val := by
    unfold restoreFramebuffers
    apply Res.andThen_forwards
    intro a
    apply Res.andThen_val_rel Forwards.fwdThen
    · split
      · exact bindConfig_side_forwards a _ _ (by decide)
      · exact Forwards.fwdSame _ a
    · intro b
      split
      · exact bindConfig_side_forwards b _ _ (by decide)
      · exact Forwards.fwdSame _ b
  obtain ⟨l, e, p⟩ := (forwards_iff _ _ _).mp (Forwards.fwdThen _ _ _ h1 h2)
  refine ⟨l, ?_, p⟩
  rw [e, bindFramebuffer_eq]
  simp

/-- The calls `restoreState` forwards, part by part: a selection of the four opening
binds, then capability, pixel-store and scalar setter calls, then the bind of the
combined framebuffer target followed by framebuffer calls that are no such bind, then
texture calls. -/
theorem restoreState_log (g : Gl) (snapshot : Option Snapshot) :
    ∃ l1 l2 l3 l4 : List Call,
      (restoreState g snapshot).val.log =
        g.log ++ (l1 ++ (l2 ++
          (.bindFramebuffer (.num FRAMEBUFFER) (snapshot.getD g.savedState).sgl.framebuffer.buffer
            :: l3 ++ l4))) ∧
      l1.Sublist [.useProgram (snapshot.getD g.savedState).sgl.activeProgram,
        .bindVertexArray (snapshot.getD g.savedState).sgl.vertexArrayBinding,
        .bindBuffer (.num ARRAY_BUFFER) (snapshot.getD g.savedState).sgl.arrayBufferBinding,
        .bindBuffer (.num UNIFORM_BUFFER) (snapshot.getD g.savedState).sgl.uniformBufferBinding] ∧
      (∀ c ∈ l2, c.phase = 1) ∧ (∀ c ∈ l3, c.phase = 2 ∧ ¬ c.isCombinedBind) ∧
      (∀ c ∈ l4, c.phase = 3) := by
  simp only [restoreState]
  generalize snapshot.getD g.savedState = b
  obtain ⟨l1, e1, s1⟩ := restoreBindings_log g b.sgl
  obtain ⟨l2, e2, s2⟩ := (forwards_iff _ _ _).mp (restoreValues_forwards (restoreBindings g b.sgl) b.state)
  obtain ⟨l3, e3, s3⟩ := restoreFramebuffers_log (restoreValues (restoreBindings g b.sgl) b.state) b.sgl
  have h4 : Forwards (fun c => c.phase = 3)
      (restoreFramebuffers (restoreValues (restoreBindings g b.sgl) b.state) b.sgl).val
      (setGLState g b).val := by
    unfold setGLState
    generalize restoreFramebuffers (restoreValues (restoreBindings g b.sgl) b.state) b.sgl = r
    cases r with
    | ok a =>
      simp only [Res.andThen, Res.val]
      exact restoreTextureBindings_forwards a _ _
    | thrown a => exact Forwards.fwdSame _ a
  obtain ⟨l4, e4, s4⟩ := (forwards_iff _ _ _).mp h4
  refine ⟨l1, l2, l3, l4, ?_, s1, s2, s3, s4⟩
  rw [e4, e3, e2, e1]
  simp only [List.append_assoc, List.cons_append]

/-! ## The element-array-buffer binding across a full restore -/

theorem bindBuffer_elementArray (g : Gl) (t : Val) (b : Handle)
    (ht : t ≠ .num ELEMENT_ARRAY_BUFFER) :
    (bindBuffer g t b).sgl.elementArrayBufferBinding = g.sgl.elementArrayBufferBinding := by
  rw [bindBuffer_eq]
  split
  · rfl
  · simp [ht]

theorem restoreBindings_elementArray (g : Gl) (sgl : Sgl) :
    (restoreBindings g sgl).sgl.elementArrayBufferBinding = g.sgl.elementArrayBufferBinding := by
  unfold restoreBindings
  dsimp only
  rw [bindBuffer_elementArray _ _ _ (by decide), bindBuffer_elementArray _ _ _ (by decide),
    bindVertexArray_eq, useProgram_eq]

theorem bindConfig_elementArray (g : Gl) (t : Int) (p : FbPack) :
    (bindFramebufferWithReadDrawConfig g t p).val.sgl.elementArrayBufferBinding
      = g.sgl.elementArrayBufferBinding := by
  have hd : ∀ (a : Gl) (bs : Option (List Val)),
      (drawBuffers a bs).val.sgl.elementArrayBufferBinding = a.sgl.elementArrayBufferBinding := by
    intro a bs
    unfold drawBuffers
    split <;> rfl
  have hr : ∀ (a : Gl) (b : Val),
      (readBuffer a b).val.sgl.elementArrayBufferBinding = a.sgl.elementArrayBufferBinding := by
    intro a b
    unfold readBuffer
    split <;> rfl
  have hb : (bindFramebuffer g (.num t) p.buffer).sgl.elementArrayBufferBinding
      = g.sgl.elementArrayBufferBinding := by
    rw [bindFramebuffer_eq]
  unfold bindFramebufferWithReadDrawConfig
  dsimp only
  split
  · exact hb
  · apply Res.andThen_val_rel
      (R := fun a b => b.sgl.elementArrayBufferBinding = a.sgl.elementArrayBufferBinding)
      (fun _ _ _ h1 h2 => h2.trans h1)
    · split
      · exact (hd _ _).trans hb
      · exact hb
    · intro a
      split
      · exact hr a _
      · rfl

theorem restoreFramebuffers_elementArray (g : Gl) (sgl : Sgl) :
    (restoreFramebuffers g sgl).val.sgl.elementArrayBufferBinding
      = g.sgl.elementArrayBufferBinding := by
  unfold restoreFramebuffers
  apply Res.andThen_val_rel
    (R := fun a b => b.sgl.elementArrayBufferBinding = a.sgl.elementArrayBufferBinding)
    (fun _ _ _ h1 h2 => h2.trans h1)
  · exact bindConfig_elementArray g _ _
  · intro a
    apply Res.andThen_val_rel
      (R := fun a b => b.sgl.elementArrayBufferBinding = a.sgl.elementArrayBufferBinding)
      (fun _ _ _ h1 h2 => h2.trans h1)
    · split
      · exact bindConfig_elementArray a _ _
      · rfl
    · intro b
      split
      · exact bindConfig_elementArray b _ _
      · rfl

theorem setGLState_elementArray (g : Gl) (b : Snapshot) :
    (setGLState g b).val.sgl.elementArrayBufferBinding = g.sgl.elementArrayBufferBinding := by
  have h1 := restoreBindings_elementArray g b.sgl
  have h2 : (restoreValues (restoreBindings g b.sgl) b.state).sgl = (restoreBindings g b.sgl).sgl := by
    have hv := restoreValues_frame (restoreBindings g b.sgl) b.state
    unfold StateFrame at hv
    rw [hv]
  have h3 := restoreFramebuffers_elementArray (restoreValues (restoreBindings g b.sgl) b.state) b.sgl
  unfold setGLState
  generalize restoreFramebuffers (restoreValues (restoreBindings g b.sgl) b.state) b.sgl = r at h3 ⊢
  cases r with
  | ok a =>
    simp only [Res.andThen, Res.val] at h3 ⊢
    have ht := restoreTextureBindings_frame a b.sgl.textures b.state.activeTexture
    unfold TexFrame at ht
    rw [ht]
    simp only
    rw [h3, h2, h1]
  | thrown a =>
    simp only [Res.andThen, Res.val] at h3 ⊢
    rw [h3, h2, h1]

theorem phase_of_isElementArrayBind (c : Call) (h : c.isElementArrayBind) : c.phase = 0 := by
  cases c <;> simp_all [Call.isElementArrayBind, Call.phase]

/-- C26 (full restore does not touch the element-array-buffer binding).  For every
state and every argument of `restoreState` (a snapshot, or none for `gl.savedState`),
whether the call completes or throws: the mirrored element-array-buffer binding is the
one before the call, and none of the calls forwarded is a `bindBuffer` on
`ELEMENT_ARRAY_BUFFER`. -/
theorem restoreState_leaves_element_array_buffer (g : Gl) (snapshot : Option Snapshot) :
    (restoreState g snapshot).val.sgl.elementArrayBufferBinding = g.sgl.elementArrayBufferBinding ∧
    Forwards (fun c => ¬ c.isElementArrayBind) g (restoreState g snapshot).val := by
  have hc : (ARRAY_BUFFER ≠ ELEMENT_ARRAY_BUFFER) ∧ (UNIFORM_BUFFER ≠ ELEMENT_ARRAY_BUFFER) := by decide
  obtain ⟨c1, c2⟩ := hc
  refine ⟨setGLState_elementArray g _, ?_⟩
  obtain ⟨l1, l2, l3, l4, e, s1, s2, s3, s4⟩ := restoreState_log g snapshot
  refine (forwards_iff _ _ _).mpr ⟨_, e, ?_⟩
  intro c hc he
  have hp := phase_of_isElementArrayBind c he
  simp only [List.mem_append, List.mem_cons] at hc
  rcases hc with h | h | (h | h) | h
  · have hm := s1.subset h
    simp only [List.mem_cons, List.mem_singleton, List.not_mem_nil, or_false] at hm
    rcases hm with r | r | r | r <;> subst r <;>
      simp [Call.isElementArrayBind, c1, c2] at he
  · have := s2 c h
    omega
  · subst h
    simp [Call.phase] at hp
  · have := (s3 c h).1
    omega
  · have := s4 c h
    omega

/-! ## The order of the calls a full restore forwards -/

theorem phase_of_isCombinedBind (c : Call) (h : c.isCombinedBind) : c.phase = 2 := by
  cases c <;> simp_all [Call.isCombinedBind, Call.phase]

theorem phase_of_isSideBind (c : Call) (h : c.isSideBind) : c.phase = 2 := by
  cases c <;> simp_all [Call.isSideBind, Call.phase]

theorem restoreOrdered_of_phase_lt (a b : Call) (h : a.phase < b.phase) : a.restoreOrdered b := by
  refine ⟨Nat.le_of_lt h, ?_, ?_⟩
  · rintro ⟨h1, h2⟩
    omega
  · rintro ⟨h1, h2⟩
    have := phase_of_isSideBind a h1
    have := phase_of_isCombinedBind b h2
    omega

theorem restoreOrdered_of_same_phase (a b : Call) (h : a.phase = b.phase) (h0 : a.phase ≠ 0)
    (hc : ¬ b.isCombinedBind) : a.restoreOrdered b := by
  refine ⟨Nat.le_of_eq h, ?_, ?_⟩
  · rintro ⟨h1, _⟩
    exact absurd h1 h0
  · rintro ⟨_, h2⟩
    exact hc h2

theorem openingBinds_pairwise (p v a u : Handle) :
    List.Pairwise Call.restoreOrdered
      [.useProgram p, .bindVertexArray v, .bindBuffer (.num ARRAY_BUFFER) a,
        .bindBuffer (.num UNIFORM_BUFFER) u] := by
  have hc : UNIFORM_BUFFER ≠ ARRAY_BUFFER := by decide
  simp [Call.restoreOrdered, Call.phase, Call.bindRank, Call.isSideBind, Call.isCombinedBind, hc]

/-- C29 (full restore order).  For every state and every argument of `restoreState`,
whether the call completes or throws, the calls it forwards are ordered: no call of a
later part of the restore comes before a call of an earlier part, the parts being the
opening binds, the capability, pixel-store and scalar setters, the framebuffer calls,
and the texture calls; the opening binds come in the order program, vertex array, array
buffer, uniform buffer; and no bind of the combined framebuffer target follows a bind of
the draw-only or read-only target.  The bind of the combined target is always among the
calls forwarded. -/
theorem restoreState_forwards_in_order (g : Gl) (snapshot : Option Snapshot) :
    (restoreState g snapshot).val.log = g.log ++ forwarded g (restoreState g snapshot).val ∧
    (forwarded g (restoreState g snapshot).val).Pairwise Call.restoreOrdered ∧
    Call.bindFramebuffer (.num FRAMEBUFFER) (snapshot.getD g.savedState).sgl.framebuffer.buffer
      ∈ forwarded g (restoreState g snapshot).val := by
  obtain ⟨l1, l2, l3, l4, e, s1, s2, s3, s4⟩ := restoreState_log g snapshot
  have hf : forwarded g (restoreState g snapshot).val =
      l1 ++ (l2 ++
        (.bindFramebuffer (.num FRAMEBUFFER) (snapshot.getD g.savedState).sgl.framebuffer.buffer
          :: l3 ++ l4)) := by
    simp [forwarded, e]
  rw [hf]
  refine ⟨e, ?_, by simp⟩
  have m1 : ∀ c ∈ l1, c.phase = 0 := by
    intro c hc
    have hm := s1.subset hc
    simp only [List.mem_cons, List.mem_singleton, List.not_mem_nil, or_false] at hm
    rcases hm with r | r | r | r <;> subst r <;> rfl
  have p1 : l1.Pairwise Call.restoreOrdered := (openingBinds_pairwise _ _ _ _).sublist s1
  have p2 : l2.Pairwise Call.restoreOrdered := by
    apply List.pairwise_of_forall_mem_list
    intro a ha b hb
    refine restoreOrdered_of_same_phase a b ?_ ?_ ?_
    · rw [s2 a ha, s2 b hb]
    · rw [s2 a ha]; decide
    · intro h
      have := phase_of_isCombinedBind b h
      have := s2 b hb
      omega
  have p3 : l3.Pairwise Call.restoreOrdered := by
    apply List.pairwise_of_forall_mem_list
    intro a ha b hb
    refine restoreOrdered_of_same_phase a b ?_ ?_ (s3 b hb).2
    · rw [(s3 a ha).1, (s3 b hb).1]
    · rw [(s3 a ha).1]; decide
  have p4 : l4.Pairwise Call.restoreOrdered := by
    apply List.pairwise_of_forall_mem_list
    intro a ha b hb
    refine restoreOrdered_of_same_phase a b ?_ ?_ ?_
    · rw [s4 a ha, s4 b hb]
    · rw [s4 a ha]; decide
    · intro h
      have := phase_of_isCombinedBind b h
      have := s4 b hb
      omega
  have hh : (Call.bindFramebuffer (.num FRAMEBUFFER)
      (snapshot.getD g.savedState).sgl.framebuffer.buffer).phase = 2 := rfl
  generalize Call.bindFramebuffer (.num FRAMEBUFFER)
      (snapshot.getD g.savedState).sgl.framebuffer.buffer = head at hh
  have p34 : (head :: l3 ++ l4).Pairwise Call.restoreOrdered := by
    rw [List.pairwise_append]
    refine ⟨?_, p4, ?_⟩
    · rw [List.pairwise_cons]
      refine ⟨?_, p3⟩
      intro b hb
      exact restoreOrdered_of_same_phase head b (by rw [hh, (s3 b hb).1]) (by rw [hh]; decide)
        (s3 b hb).2
    · intro a ha b hb
      apply restoreOrdered_of_phase_lt
      rw [s4 b hb]
      rcases List.mem_cons.mp ha with r | r
      · rw [r, hh]; decide
      · rw [(s3 a r).1]; decide
  have m34 : ∀ c ∈ head :: l3 ++ l4, 2 ≤ c.phase := by
    intro c hc
    rcases List.mem_append.mp hc with r | r
    · rcases List.mem_cons.mp r with q | q
      · rw [q, hh]
      · rw [(s3 c q).1]
    · rw [s4 c r]; decide
  rw [List.pairwise_append]
  refine ⟨p1, ?_, ?_⟩
  · rw [List.pairwise_append]
    refine ⟨p2, p34, ?_⟩
    intro a ha b hb
    apply restoreOrdered_of_phase_lt
    have := s2 a ha
    have := m34 b hb
    omega
  · intro a ha b hb
    apply restoreOrdered_of_phase_lt
    have := m1 a ha
    rcases List.mem_append.mp hb with r | r
    · have := s2 b r
      omega
    · have := m34 b r
      omega

/-! ## Face selectors that name no face -/

set_option maxRecDepth 100000 in
/-- C27, counterexample.  On the sample context, with the face selector 0 (none of
`FRONT`, `BACK`, `FRONT_AND_BACK`) and parameters that differ from the mirrored front and
back values, `stencilFuncSeparate`, `stencilOpSeparate` and `stencilMaskSeparate` return
the context as it was: nothing is forwarded. -/
theorem invalid_face_is_not_forwarded :
    sampleGl.state.stencilFunc ≠ ⟨.num 514, .num 1, .num 255⟩ ∧
    sampleGl.state.stencilBackFunc ≠ ⟨.num 514, .num 1, .num 255⟩ ∧
    sampleGl.state.stencilOp ≠ ⟨.num 7681, .num 7681, .num 7681⟩ ∧
    sampleGl.state.stencilBackOp ≠ ⟨.num 7681, .num 7681, .num 7681⟩ ∧
    sampleGl.state.stencilMask ≠ .num 1 ∧ sampleGl.state.stencilBackMask ≠ .num 1 ∧
    stencilFuncSeparate sampleGl (.num 0) (.num 514) (.num 1) (.num 255) = sampleGl ∧
    stencilOpSeparate sampleGl (.num 0) (.num 7681) (.num 7681) (.num 7681) = sampleGl ∧
    stencilMaskSeparate sampleGl (.num 0) (.num 1) = sampleGl := by
  decide

/-- C27, amended.  In every state, a call of `stencilFuncSeparate`, `stencilOpSeparate`
or `stencilMaskSeparate` forwards one call exactly when the mirrored value of a face its
selector names differs from the parameters, and nothing otherwise; with a selector `face`
that is none of `FRONT`, `BACK` and `FRONT_AND_BACK` the call returns the context as it
was, whatever the parameters, so nothing reaches the underlying context. -/
theorem face_separate_setters_drop_other_selectors (g : Gl) (face : Val)
    (hface : face ≠ .num FRONT ∧ face ≠ .num BACK ∧ face ≠ .num FRONT_AND_BACK) :
    (∀ sel func ref mask : Val,
      (stencilFuncSeparate g sel func ref mask).log =
        if (selectsFront sel ∧ g.state.stencilFunc ≠ ⟨func, ref, mask⟩) ∨
            (selectsBack sel ∧ g.state.stencilBackFunc ≠ ⟨func, ref, mask⟩)
        then g.log ++ [.stencilFuncSeparate sel func ref mask] else g.log) ∧
    (∀ sel fail zfail zpass : Val,
      (stencilOpSeparate g sel fail zfail zpass).log =
        if (selectsFront sel ∧ g.state.stencilOp ≠ ⟨fail, zfail, zpass⟩) ∨
            (selectsBack sel ∧ g.state.stencilBackOp ≠ ⟨fail, zfail, zpass⟩)
        then g.log ++ [.stencilOpSeparate sel fail zfail zpass] else g.log) ∧
    (∀ sel mask : Val,
      (stencilMaskSeparate g sel mask).log =
        if (selectsFront sel ∧ g.state.stencilMask ≠ mask) ∨
            (selectsBack sel ∧ g.state.stencilBackMask ≠ mask)
        then g.log ++ [.stencilMaskSeparate sel mask] else g.log) ∧
    (∀ func ref mask : Val, stencilFuncSeparate g face func ref mask = g) ∧
    (∀ fail zfail zpass : Val, stencilOpSeparate g face fail zfail zpass = g) ∧
    (∀ mask : Val, stencilMaskSeparate g face mask = g) := by
  obtain ⟨n1, n2, n3⟩ := hface
  have nf : ¬ selectsFront face := by
    unfold selectsFront; tauto
  have nb : ¬ selectsBack face := by
    unfold selectsBack; tauto
  refine ⟨?_, ?_, ?_, ?_, ?_, ?_⟩
  · intro sel a b c
    rw [stencilFuncSeparate_eq]
    by_cases h1 : selectsFront sel <;> by_cases h2 : selectsBack sel <;>
      by_cases h3 : g.state.stencilFunc = ⟨a, b, c⟩ <;>
      by_cases h4 : g.state.stencilBackFunc = ⟨a, b, c⟩ <;> simp [h1, h2, h3, h4]
  · intro sel a b c
    rw [stencilOpSeparate_eq]
    by_cases h1 : selectsFront sel <;> by_cases h2 : selectsBack sel <;>
      by_cases h3 : g.state.stencilOp = ⟨a, b, c⟩ <;>
      by_cases h4 : g.state.stencilBackOp = ⟨a, b, c⟩ <;> simp [h1, h2, h3, h4]
  · intro sel m
    rw [stencilMaskSeparate_eq]
    by_cases h1 : selectsFront sel <;> by_cases h2 : selectsBack sel <;>
      by_cases h3 : g.state.stencilMask = m <;>
      by_cases h4 : g.state.stencilBackMask = m <;> simp [h1, h2, h3, h4]
  · intro a b c
    rw [stencilFuncSeparate_eq]
    simp [nf, nb]
  · intro a b c
    rw [stencilOpSeparate_eq]
    simp [nf, nb]
  · intro m
    rw [stencilMaskSeparate_eq]
    simp [nf, nb]

set_option maxRecDepth 100000 in
/-- Witness for C27, amended: the sample context and the selector 0. -/
theorem face_separate_setters_drop_other_selectors_witness :
    ((Val.num 0) ≠ .num FRONT ∧ (Val.num 0) ≠ .num BACK ∧ (Val.num 0) ≠ .num FRONT_AND_BACK) ∧
    (∀ func ref mask : Val, stencilFuncSeparate sampleGl (.num 0) func ref mask = sampleGl) ∧
    (∀ fail zfail zpass : Val, stencilOpSeparate sampleGl (.num 0) fail zfail zpass = sampleGl) ∧
    (∀ mask : Val, stencilMaskSeparate sampleGl (.num 0) mask = sampleGl) :=
  ⟨by decide,
    (face_separate_setters_drop_other_selectors sampleGl (.num 0) (by decide)).2.2.2⟩

/-! ## A patch without a state part -/

set_option maxRecDepth 100000 in
/-- C28, the code at the failing input.  On the sample context, `setState` with a patch
that has a bindings part naming a program and no state part binds the program and then
throws: the call does not complete.  More generally, for every state and every bindings
part, `setState` with the state part absent throws. -/
theorem setState_without_state_part_throws :
    ((setState sampleGl patchProgramOnly).isOk = false ∧
      (setState sampleGl patchProgramOnly).val.sgl.activeProgram = .obj 7 ∧
      (setState sampleGl patchProgramOnly).val.log = [.useProgram (.obj 7)] ∧
      (setState sampleGl patchProgramOnly).val.state = sampleGl.state) ∧
    ∀ (g : Gl) (sgl : Option PatchSgl), (setState g ⟨sgl, none⟩).isOk = false :=
  ⟨by decide, fun g sgl => by cases sgl <;> rfl⟩

/-! ## Soundness of the `bindBuffer` guard -/

/-- C30 (buffer-binding suppression is sound).  In every state reachable from a freshly
enhanced context by wrapper calls: if the remembered last buffer target is
`ARRAY_BUFFER`, `ELEMENT_ARRAY_BUFFER` or `UNIFORM_BUFFER`, the binding mirrored for
that target is the remembered last buffer; hence a `bindBuffer(target, b)` on one of
these targets that forwards nothing finds the binding mirrored for the target equal to
`b` already. -/
theorem bindBuffer_suppression_is_sound (g : Gl) (hg : Reachable g) :
    (g.sgl.boundBufferTarget = .num ARRAY_BUFFER → g.sgl.arrayBufferBinding = g.sgl.boundBuffer) ∧
    (g.sgl.boundBufferTarget = .num ELEMENT_ARRAY_BUFFER →
      g.sgl.elementArrayBufferBinding = g.sgl.boundBuffer) ∧
    (g.sgl.boundBufferTarget = .num UNIFORM_BUFFER →
      g.sgl.uniformBufferBinding = g.sgl.boundBuffer) ∧
    (∀ b : Handle, (bindBuffer g (.num ARRAY_BUFFER) b).log = g.log → g.sgl.arrayBufferBinding = b) ∧
    (∀ b : Handle, (bindBuffer g (.num ELEMENT_ARRAY_BUFFER) b).log = g.log →
      g.sgl.elementArrayBufferBinding = b) ∧
    (∀ b : Handle, (bindBuffer g (.num UNIFORM_BUFFER) b).log = g.log →
      g.sgl.uniformBufferBinding = b) := by
  obtain ⟨i1, i2, i3, _, _⟩ := hg.inv
  have hs : ∀ (t : Val) (b : Handle), (bindBuffer g t b).log = g.log →
      g.sgl.boundBufferTarget = t ∧ g.sgl.boundBuffer = b := by
    intro t b h
    rw [bindBuffer_eq] at h
    by_cases hc : g.sgl.boundBufferTarget = t ∧ g.sgl.boundBuffer = b
    · exact hc
    · rw [if_neg hc] at h
      simp at h
  refine ⟨i1, i2, i3, ?_, ?_, ?_⟩
  · intro b h
    obtain ⟨h1, h2⟩ := hs _ _ h
    rw [i1 h1, h2]
  · intro b h
    obtain ⟨h1, h2⟩ := hs _ _ h
    rw [i2 h1, h2]
  · intro b h
    obtain ⟨h1, h2⟩ := hs _ _ h
    rw [i3 h1, h2]

set_option maxRecDepth 100000 in
/-- Witness for C30: the sample context after `bindBuffer(ARRAY_BUFFER, a)` and
`bindBuffer(UNIFORM_BUFFER, u)`, whose remembered last target is `UNIFORM_BUFFER`. -/
theorem bindBuffer_suppression_is_sound_witness :
    Reachable sampleTwoBuffers ∧ sampleTwoBuffers.sgl.boundBufferTarget = .num UNIFORM_BUFFER ∧
    sampleTwoBuffers.sgl.uniformBufferBinding = sampleTwoBuffers.sgl.boundBuffer ∧
    (bindBuffer sampleTwoBuffers (.num UNIFORM_BUFFER) (.obj 2)).log = sampleTwoBuffers.log ∧
    sampleTwoBuffers.sgl.uniformBufferBinding = .obj 2 :=
  ⟨Reachable.step (.bindBuffer (.num UNIFORM_BUFFER) (.obj 2))
      (Reachable.step (.bindBuffer (.num ARRAY_BUFFER) (.obj 1)) (Reachable.init sampleRaw)),
    by decide,
    (bindBuffer_suppression_is_sound sampleTwoBuffers
      (Reachable.step (.bindBuffer (.num UNIFORM_BUFFER) (.obj 2))
        (Reachable.step (.bindBuffer (.num ARRAY_BUFFER) (.obj 1)) (Reachable.init sampleRaw)))).2.2.1
      (by decide),
    by decide,
    (bindBuffer_suppression_is_sound sampleTwoBuffers
      (Reachable.step (.bindBuffer (.num UNIFORM_BUFFER) (.obj 2))
        (Reachable.step (.bindBuffer (.num ARRAY_BUFFER) (.obj 1)) (Reachable.init sampleRaw)))).2.2.2.2.2
      (.obj 2) (by decide)⟩

/-! ## `drawBuffers` and `readBuffer` need a bound framebuffer object -/

/-- C31 (`drawBuffers` and `readBuffer` depend on a bound framebuffer object).  In every
state, reachable or not, `drawBuffers(list)` throws if and only if the handle last bound
to a target covering the draw framebuffer is `null` or `undefined` (never set), and then
the context is left as it was: nothing is forwarded.  When that handle is a framebuffer
object, the call completes, records `list` as the draw-target list of that object (the
other properties of the object and all other objects are left alone) and forwards exactly
one call; a second call with the same list forwards a second call.  The same holds for
`readBuffer(buffer)` with the handle last bound to a target covering the read
framebuffer and the recorded read source. -/
theorem drawBuffers_readBuffer_need_bound_object (g : Gl) :
    (∀ bs : List Val,
      ((drawBuffers g (some bs)).isOk = false ↔
        (g.lastDrawBufferBound = .null ∨ g.lastDrawBufferBound = .undef)) ∧
      ((drawBuffers g (some bs)).isOk = false → (drawBuffers g (some bs)).val = g) ∧
      (∀ n : Nat, g.lastDrawBufferBound = .obj n →
        drawBuffers g (some bs) =
          .ok { g with
            fbProps := setProps g.fbProps n
              { propsOf g.fbProps n with currentDrawBuffers := some bs }
            log := g.log ++ [.drawBuffers bs] } ∧
        (propsOf (drawBuffers g (some bs)).val.fbProps n).currentDrawBuffers = some bs ∧
        (drawBuffers (drawBuffers g (some bs)).val (some bs)).val.log =
          g.log ++ [.drawBuffers bs, .drawBuffers bs])) ∧
    (∀ b : Val,
      ((readBuffer g b).isOk = false ↔
        (g.lastReadBufferBound = .null ∨ g.lastReadBufferBound = .undef)) ∧
      ((readBuffer g b).isOk = false → (readBuffer g b).val = g) ∧
      (∀ n : Nat, g.lastReadBufferBound = .obj n →
        readBuffer g b =
          .ok { g with
            fbProps := setProps g.fbProps n { propsOf g.fbProps n with currentReadBuffer := b }
            log := g.log ++ [.readBuffer b] } ∧
        (propsOf (readBuffer g b).val.fbProps n).currentReadBuffer = b ∧
        (readBuffer (readBuffer g b).val b).val.log = g.log ++ [.readBuffer b, .readBuffer b])) := by
  refine ⟨?_, ?_⟩
  · intro bs
    refine ⟨?_, ?_, ?_⟩
    · unfold drawBuffers
      cases h : g.lastDrawBufferBound <;> simp [Res.isOk]
    · unfold drawBuffers
      cases h : g.lastDrawBufferBound <;> simp [Res.isOk, Res.val]
    · intro n h
      refine ⟨?_, ?_, ?_⟩
      · unfold drawBuffers
        rw [h]
        rfl
      · unfold drawBuffers
        rw [h]
        simp [Res.val, Gl.forward, propsOf_setProps_self]
      · unfold drawBuffers
        rw [h]
        simp [Res.val, Gl.forward, h]
  · intro b
    refine ⟨?_, ?_, ?_⟩
    · unfold readBuffer
      cases h : g.lastReadBufferBound <;> simp [Res.isOk]
    · unfold readBuffer
      cases h : g.lastReadBufferBound <;> simp [Res.isOk, Res.val]
    · intro n h
      refine ⟨?_, ?_, ?_⟩
      · unfold readBuffer
        rw [h]
        rfl
      · unfold readBuffer
        rw [h]
        simp [Res.val, Gl.forward, propsOf_setProps_self]
      · unfold readBuffer
        rw [h]
        simp [Res.val, Gl.forward, h]

set_option maxRecDepth 100000 in
/-- Witness for C31: on the fresh sample context no framebuffer was ever bound and both
calls throw, leaving the context as it was; on the sample context with framebuffer object
1 bound to the combined target both calls complete and forward one call each. -/
theorem drawBuffers_readBuffer_need_bound_object_witness :
    ((drawBuffers sampleGl (some [.num NONE])).isOk = false ∧
      (drawBuffers sampleGl (some [.num NONE])).val = sampleGl) ∧
    ((readBuffer sampleGl (.num NONE)).isOk = false ∧
      (readBuffer sampleGl (.num NONE)).val = sampleGl) ∧
    (sampleFbBound.lastDrawBufferBound = .obj 1 ∧
      drawBuffers sampleFbBound (some [.num NONE]) =
        .ok { sampleFbBound with
          fbProps := setProps sampleFbBound.fbProps 1
            { propsOf sampleFbBound.fbProps 1 with currentDrawBuffers := some [.num NONE] }
          log := sampleFbBound.log ++ [.drawBuffers [.num NONE]] } ∧
      (propsOf (drawBuffers sampleFbBound (some [.num NONE])).val.fbProps 1).currentDrawBuffers
        = some [.num NONE] ∧
      (drawBuffers (drawBuffers sampleFbBound (some [.num NONE])).val (some [.num NONE])).val.log =
        sampleFbBound.log ++ [.drawBuffers [.num NONE], .drawBuffers [.num NONE]]) ∧
    (sampleFbBound.lastReadBufferBound = .obj 1 ∧
      readBuffer sampleFbBound (.num NONE) =
        .ok { sampleFbBound with
          fbProps := setProps sampleFbBound.fbProps 1
            { propsOf sampleFbBound.fbProps 1 with currentReadBuffer := .num NONE }
          log := sampleFbBound.log ++ [.readBuffer (.num NONE)] } ∧
      (propsOf (readBuffer sampleFbBound (.num NONE)).val.fbProps 1).currentReadBuffer = .num NONE ∧
      (readBuffer (readBuffer sampleFbBound (.num NONE)).val (.num NONE)).val.log =
        sampleFbBound.log ++ [.readBuffer (.num NONE), .readBuffer (.num NONE)]) :=
  ⟨⟨by decide,
      ((drawBuffers_readBuffer_need_bound_object sampleGl).1 [.num NONE]).2.1 (by decide)⟩,
    ⟨by decide,
      ((drawBuffers_readBuffer_need_bound_object sampleGl).2 (.num NONE)).2.1 (by decide)⟩,
    ⟨by decide,
      ((drawBuffers_readBuffer_need_bound_object sampleFbBound).1 [.num NONE]).2.2 1 (by decide)⟩,
    ⟨by decide,
      ((drawBuffers_readBuffer_need_bound_object sampleFbBound).2 (.num NONE)).2.2 1 (by decide)⟩⟩

/-! ## Resetting twice -/

set_option maxRecDepth 100000 in
/-- C34 (`resetToDefaults` is idempotent on the wire), refuted.  There is no state after
a first `gl.resetToDefaults()`: from every state the first call throws, having forwarded
nothing and written nothing, and so does the second, issued after the first was caught;
the two calls together leave the context as it was.  On the fresh sample context the
function `resetToDefaults(gl)` of the module, which no call reaches, would forward calls
(`disable(DITHER)` among them). -/
theorem gl_resetToDefaults_first_call_throws (g : Gl) (frames1 frames2 : Nat) :
    Op.run (.resetToDefaults frames1) g = .thrown g ∧
    Op.run (.resetToDefaults frames2) (Op.run (.resetToDefaults frames1) g).val = .thrown g ∧
    runOps g [.resetToDefaults frames1, .resetToDefaults frames2] = g ∧
    forwarded sampleGl (Op.run (.resetToDefaults frames1) sampleGl).val = [] ∧
    Call.disable DITHER ∈ forwarded sampleGl (resetToDefaults sampleGl) := by
  have e : ∀ (h : Gl) (n : Nat), Op.run (.resetToDefaults n) h = .thrown h := by
    intro h n
    simp only [Op.run, Gl.resetToDefaults_thrown]
  refine ⟨e g frames1, ?_, ?_, ?_, by decide⟩
  · rw [e g frames1]
    exact e g frames2
  · simp only [runOps, List.foldl_cons, List.foldl_nil, e, Res.val]
  · rw [e sampleGl frames1]
    decide

/-! ## A full restore of a snapshot made by `createState` completes -/

theorem coveredFrom_append (l1 l2 : List Call) (h2 : ∀ d r, Call.coveredFrom d r l2 = true) :
    ∀ d r, Call.coveredFrom d r l1 = true → Call.coveredFrom d r (l1 ++ l2) = true := by
  induction l1 with
  | nil => intro d r _; exact h2 d r
  | cons c l1 ih =>
    intro d r h
    cases c <;> simp only [List.cons_append, Call.coveredFrom, Bool.and_eq_true] at h ⊢ <;>
      first
        | exact ih _ _ h
        | exact ⟨h.1, ih _ _ h.2⟩

theorem coveredFrom_of_phase (l : List Call) (h : ∀ c ∈ l, c.phase ≠ 2) :
    ∀ d r, Call.coveredFrom d r l = true := by
  induction l with
  | nil => intro d r; rfl
  | cons c l ih =>
    intro d r
    have hc := h c (List.mem_cons_self _ _)
    have ih1 := ih (fun x hx => h x (List.mem_cons_of_mem _ hx))
    cases c <;> simp only [Call.coveredFrom] <;>
      first
        | exact ih1 _ _
        | exact absurd rfl hc

theorem covered_of_forwards {P : Call → Prop} {a b : Gl} (hP : ∀ c, P c → c.phase ≠ 2)
    (h : Forwards P a b) :
    ∃ l, b.log = a.log ++ l ∧ ∀ d r, Call.coveredFrom d r l = true := by
  obtain ⟨l, e, p⟩ := (forwards_iff P a b).mp h
  exact ⟨l, e, coveredFrom_of_phase l (fun c hc => hP c (p c hc))⟩

theorem covered_trans (a b c : Gl)
    (h1 : ∃ l, b.log = a.log ++ l ∧ ∀ d r, Call.coveredFrom d r l = true)
    (h2 : ∃ l, c.log = b.log ++ l ∧ ∀ d r, Call.coveredFrom d r l = true) :
    ∃ l, c.log = a.log ++ l ∧ ∀ d r, Call.coveredFrom d r l = true := by
  obtain ⟨l1, e1, p1⟩ := h1
  obtain ⟨l2, e2, p2⟩ := h2
  exact ⟨l1 ++ l2, by rw [e2, e1, List.append_assoc],
    fun d r => coveredFrom_append l1 l2 p2 d r (p1 d r)⟩

theorem bindConfig_covered (g : Gl) (t : Int) (p : FbPack) :
    ∃ l, (bindFramebufferWithReadDrawConfig g t p).val.log = g.log ++ l ∧
      ∀ d r, Call.coveredFrom d r l = true := by
  have hc : (FRAMEBUFFER ≠ DRAW_FRAMEBUFFER) ∧ (FRAMEBUFFER ≠ READ_FRAMEBUFFER)
      ∧ (DRAW_FRAMEBUFFER ≠ READ_FRAMEBUFFER) := by decide
  obtain ⟨c1, c2, c3⟩ := hc
  obtain ⟨buffer, rb, dbs⟩ := p
  have hl : (bindFramebuffer g (.num t) buffer).log = g.log ++ [.bindFramebuffer (.num t) buffer] := by
    rw [bindFramebuffer_eq]
  have hd : (bindFramebuffer g (.num t) buffer).lastDrawBufferBound =
      if (Val.num t) = .num FRAMEBUFFER ∨ (Val.num t) = .num DRAW_FRAMEBUFFER then buffer
      else g.lastDrawBufferBound := by
    rw [bindFramebuffer_eq]
  have hr : (bindFramebuffer g (.num t) buffer).lastReadBufferBound =
      if (Val.num t) = .num FRAMEBUFFER ∨ (Val.num t) = .num READ_FRAMEBUFFER then buffer
      else g.lastReadBufferBound := by
    rw [bindFramebuffer_eq]
  unfold bindFramebufferWithReadDrawConfig
  dsimp only
  generalize bindFramebuffer g (.num t) buffer = g1 at hl hd hr ⊢
  simp only [drawBuffers, readBuffer]
  cases buffer <;> cases dbs <;>
    by_cases h1 : t = FRAMEBUFFER <;> by_cases h2 : t = DRAW_FRAMEBUFFER <;>
    by_cases h3 : t = READ_FRAMEBUFFER <;>
    simp [h1, h2, h3, c1, c2, c3, c1.symm, c2.symm, c3.symm] at hd hr <;>
    simp [h1, h2, h3, c1, c2, c3, c1.symm, c2.symm, c3.symm, hl, hd, hr, Res.andThen, Res.val,
      Gl.forward, Call.coveredFrom, Handle.truthy]

theorem restoreFramebuffers_covered (g : Gl) (sgl : Sgl) :
    ∃ l, (restoreFramebuffers g sgl).val.log = g.log ++ l ∧
      ∀ d r, Call.coveredFrom d r l = true := by
  unfold restoreFramebuffers
  apply Res.andThen_val_rel
    (R := fun a b => ∃ l, b.log = a.log ++ l ∧ ∀ d r, Call.coveredFrom d r l = true)
    covered_trans
  · exact bindConfig_covered g _ _
  · intro a
    apply Res.andThen_val_rel
      (R := fun a b => ∃ l, b.log = a.log ++ l ∧ ∀ d r, Call.coveredFrom d r l = true)
      covered_trans
    · split
      · exact bindConfig_covered a _ _
      · exact ⟨[], by simp [Res.val], fun _ _ => rfl⟩
    · intro b
      split
      · exact bindConfig_covered b _ _
      · exact ⟨[], by simp [Res.val], fun _ _ => rfl⟩

theorem restoreBindings_forwards (g : Gl) (sgl : Sgl) :
    Forwards (fun c => c.phase = 0) g (restoreBindings g sgl) := by
  have hb : ∀ (a : Gl) (t : Val) (x : Handle),
      Forwards (fun c => c.phase = 0) a (bindBuffer a t x) := by
    intro a t x
    refine (bindBuffer_forwards a t x).mono ?_
    intro c hc
    cases c <;> simp_all [Call.isBindBuffer, Call.phase]
  unfold restoreBindings
  exact Forwards.fwdThen _ _ _ (setter_forwards _ (.useProgram _) g rfl)
    (Forwards.fwdThen _ _ _ (setter_forwards _ (.bindVertexArray _) _ rfl)
      (Forwards.fwdThen _ _ _ (hb _ _ _) (hb _ _ _)))

theorem setGLState_covered (g : Gl) (b : Snapshot) :
    ∃ l, (setGLState g b).val.log = g.log ++ l ∧ ∀ d r, Call.coveredFrom d r l = true := by
  have h1 := covered_of_forwards (fun c (hc : c.phase = 0) => by rw [hc]; decide)
    (restoreBindings_forwards g b.sgl)
  have h2 := covered_of_forwards (fun c (hc : c.phase = 1) => by rw [hc]; decide)
    (restoreValues_forwards (restoreBindings g b.sgl) b.state)
  have h3 := restoreFramebuffers_covered (restoreValues (restoreBindings g b.sgl) b.state) b.sgl
  have h4 : ∃ l, (setGLState g b).val.log =
      (restoreFramebuffers (restoreValues (restoreBindings g b.sgl) b.state) b.sgl).val.log ++ l ∧
      ∀ d r, Call.coveredFrom d r l = true := by
    unfold setGLState
    generalize restoreFramebuffers (restoreValues (restoreBindings g b.sgl) b.state) b.sgl = r
    cases r with
    | ok a =>
      simp only [Res.andThen, Res.val]
      exact covered_of_forwards (fun c (hc : c.phase = 3) => by rw [hc]; decide)
        (restoreTextureBindings_forwards a _ _)
    | thrown a => exact ⟨[], by simp [Res.andThen, Res.val], fun _ _ => rfl⟩
  exact covered_trans _ _ _ h1 (covered_trans _ _ _ h2 (covered_trans _ _ _ h3 h4))

theorem setGLState_ok (g : Gl) (b : Snapshot) (hb : b.Complete) :
    (setGLState g b).isOk = true := by
  obtain ⟨hf, hd, hr⟩ := hb
  obtain ⟨g3, e3, _, _⟩ :=
    restoreFramebuffers_ok (restoreValues (restoreBindings g b.sgl) b.state) b.sgl hf hd hr
  simp [setGLState, e3, Res.andThen, Res.isOk]

/-- C32 (a full restore never fails on a snapshot made by `createState`).  For every
state `g`, every snapshot `b` that `createState()` returns there, and every state `G`
(so also every reachable state, earlier or later), `restoreState(b)` called in `G` runs
to completion.  The calls it forwards are appended to the log, and among them every
`drawBuffers` call comes after a bind, made by this restore, of a framebuffer object to a
target that covers the draw framebuffer, with no bind of `null` or `undefined` to such a
target in between; likewise every `readBuffer` call and the read framebuffer. -/
theorem restoreState_completes_on_createState_snapshot (g G : Gl) (b : Snapshot)
    (hb : createState g = some b) :
    (restoreState G (some b)).isOk = true ∧
    (restoreState G (some b)).val.log = G.log ++ forwarded G (restoreState G (some b)).val ∧
    Call.coveredFrom false false (forwarded G (restoreState G (some b)).val) = true := by
  have hok := setGLState_ok G b (createState_complete g b hb)
  obtain ⟨l, e, p⟩ := setGLState_covered G b
  have hl : forwarded G (setGLState G b).val = l := by simp [forwarded, e]
  simp only [restoreState, Option.getD]
  rw [hl]
  exact ⟨hok, e, p false false⟩

set_option maxRecDepth 100000 in
/-- Witness for C32: the snapshot taken with framebuffer object 1 on all three targets
(read source and draw-target list set), restored after framebuffer object 2 was bound to
the draw-only target and a texture was bound. -/
theorem restoreState_completes_on_createState_snapshot_witness :
    createState sampleReadAttachment1 = some sampleAttachmentSnapshot ∧
    (restoreState sampleTwoFramebuffers (some sampleAttachmentSnapshot)).isOk = true ∧
    (restoreState sampleTwoFramebuffers (some sampleAttachmentSnapshot)).val.log =
      sampleTwoFramebuffers.log ++
        forwarded sampleTwoFramebuffers
          (restoreState sampleTwoFramebuffers (some sampleAttachmentSnapshot)).val ∧
    Call.coveredFrom false false
      (forwarded sampleTwoFramebuffers
        (restoreState sampleTwoFramebuffers (some sampleAttachmentSnapshot)).val) = true :=
  ⟨by decide,
    restoreState_completes_on_createState_snapshot sampleReadAttachment1 sampleTwoFramebuffers
      sampleAttachmentSnapshot (by decide)⟩

/-! ## Restoring a snapshot at once -/

theorem Reachable.afterBindFramebuffer {g : Gl} (h : Reachable g) (fbType : Val) (fb : Handle) :
    Reachable (bindFramebuffer g fbType fb) :=
  Reachable.step (.bindFramebuffer fbType fb) h

theorem sampleThreeBound_reachable : Reachable sampleThreeBound :=
  (((Reachable.init sampleRaw).afterBindFramebuffer (.num FRAMEBUFFER) (.obj 1)).afterBindFramebuffer
    (.num DRAW_FRAMEBUFFER) (.obj 2)).afterBindFramebuffer (.num READ_FRAMEBUFFER) (.obj 3)

theorem sampleUndefinedColor_reachable : Reachable sampleUndefinedColor :=
  (sampleThreeBound_reachable.afterSetter (.viewport .undef (.num 0) (.num 300) (.num 150))).afterSetter
    (.clearColor (.val .undef) (.val (.num 0)) (.val (.num 0)) (.val (.num 1)))

set_option maxRecDepth 100000 in
/-- C33 (immediate restore is the identity on captured state), refuted on the
typed-array mirrors.  The context `sampleUndefinedColor` is reachable, with each of the
three framebuffer targets bound once, then `viewport(undefined, 0, 300, 150)` and
`clearColor(undefined, 0, 0, 1)`: the mirrored clear colour, a `Float32Array`, holds `NaN`
in its first slot.  `createState()` returns a snapshot that records `null` in the first
slot of the clear colour and of the viewport; `restoreState` of it, issued at once,
completes; the second `createState()` records `0` in the first slot of the clear colour,
so the two snapshots differ in the field `clearColor`.  For the viewport, a plain array,
the second snapshot records `null` again. -/
theorem immediate_restore_changes_clearColor :
    Reachable sampleUndefinedColor ∧
    sampleUndefinedColor.state.clearColor = ⟨.nan, .val (.num 0), .val (.num 0), .val (.num 1)⟩ ∧
    createState sampleUndefinedColor = some sampleUndefinedColorSnapshot ∧
    sampleUndefinedColorSnapshot.state.clearColor
      = ⟨.val .null, .val (.num 0), .val (.num 0), .val (.num 1)⟩ ∧
    sampleUndefinedColorSnapshot.state.viewport = ⟨.null, .num 0, .num 300, .num 150⟩ ∧
    ∃ g1 b1, restoreState sampleUndefinedColor (some sampleUndefinedColorSnapshot) = .ok g1 ∧
      createState g1 = some b1 ∧
      b1.state.clearColor = ⟨.val (.num 0), .val (.num 0), .val (.num 0), .val (.num 1)⟩ ∧
      b1.state.clearColor ≠ sampleUndefinedColorSnapshot.state.clearColor ∧
      b1.state ≠ sampleUndefinedColorSnapshot.state ∧
      b1.state.viewport = sampleUndefinedColorSnapshot.state.viewport := by
  refine ⟨sampleUndefinedColor_reachable, by decide, by decide, by decide, by decide,
    (restoreState sampleUndefinedColor (some sampleUndefinedColorSnapshot)).val,
    (createState (restoreState sampleUndefinedColor (some sampleUndefinedColorSnapshot)).val).getD
      sampleSnapshot, ?_, ?_, ?_, ?_, ?_, ?_⟩ <;> decide

end Multistate
